import Mathlib

/-!
# VXLAN inter-subnet routing controller (`vxlan_routing_manager.cc`)

A shallow embedding of the logical-router map and of the notification
handlers that maintain it, followed by theorems about them.

Conventions of the embedding:

* Objects of the observable tables (`VnEntry`, `VrfEntry`, `VmInterface`) are
  identified by a natural number standing for the object's address; the
  pointer-ordered containers of the source (`std::set`, `std::map`) are lists
  kept in the order of these numbers.
* The attributes the handlers read through these pointers live in a `World`;
  the state owned by the manager lives in `VxlanRoutingManager`.
* Route-table requests and walk requests issued to collaborators are appended
  to the `ops` log of the manager.
* A handler returns `Except Fault _`: `Fault.null_deref` is a dereference of
  a null pointer, `Fault.diverge` a loop that never advances,
  `Fault.assert_fail` a failed `assert`.
-/

set_option autoImplicit false

namespace VxlanRouting

/-! ## Identities and containers -/

abbrev Uuid := Nat

/-- The value `boost::uuids::nil_uuid()`. -/
abbrev nil_uuid : Uuid := 0

abbrev VnId := Nat

abbrev VrfId := Nat

abbrev VmiId := Nat

/-- The lookup `std::map::find`; `none` stands for `end()`. -/
def mapFind {α : Type} (k : Nat) : List (Nat × α) → Option α
  | [] => none
  | (k1, v) :: m => if k1 = k then some v else mapFind k m

/-- The removal `std::map::erase` of a key. -/
def mapErase {α : Type} (k : Nat) : List (Nat × α) → List (Nat × α)
  | [] => []
  | (k1, v) :: m => if k1 = k then mapErase k m else (k1, v) :: mapErase k m

/-- The assignment `m[k] = v` on a `std::map`, keeping the key order. -/
def mapInsert {α : Type} (k : Nat) (v : α) : List (Nat × α) → List (Nat × α)
  | [] => [(k, v)]
  | (k1, v1) :: m =>
    if k < k1 then (k, v) :: (k1, v1) :: m
    else if k = k1 then (k, v) :: m
    else (k1, v1) :: mapInsert k v m

/-- The assignment through a reference or an iterator into a `std::map`
(`it->second = v`): the entry of the key is overwritten where it stands. -/
def mapSet {α : Type} (k : Nat) (v : α) : List (Nat × α) → List (Nat × α)
  | [] => []
  | (k1, v1) :: m => if k1 = k then (k1, v) :: m else (k1, v1) :: mapSet k v m

/-- The insertion `std::set::insert`, keeping the element order. -/
def setInsert (x : Nat) : List Nat → List Nat
  | [] => [x]
  | y :: ys =>
    if x < y then x :: y :: ys
    else if x = y then y :: ys
    else y :: setInsert x ys

/-- The removal `std::set::erase`. -/
def setErase (x : Nat) (l : List Nat) : List Nat :=
  l.filter (fun y => decide (y ≠ x))

/-! ## Observable tables -/

structure IpAddress where
  is_v4 : Bool
  bits : Nat
deriving DecidableEq, Repr

def IpAddress.is_v6 (a : IpAddress) : Bool := !a.is_v4

def IpAddress.is_unspecified (a : IpAddress) : Bool := a.bits == 0

structure VnIpam where
  ip_prefix : IpAddress
  plen : Nat
deriving DecidableEq, Repr

def VnIpam.IsV4 (i : VnIpam) : Bool := i.ip_prefix.is_v4

def VnIpam.IsV6 (i : VnIpam) : Bool := i.ip_prefix.is_v6

/-- The attributes of a `VnEntry` read by the manager. -/
structure VnEntry where
  IsDeleted : Bool
  GetVrf : Option VrfId
  vxlan_routing_vn : Bool
  logical_router_uuid : Uuid
  GetVnIpam : List VnIpam
deriving DecidableEq, Repr

/-- The attributes of a `VrfEntry` read by the manager. `GetName` is the
identity of the entry; `GetEvpnRouteTable` tells whether the EVPN table is
there (the table is then identified by its VRF). -/
structure VrfEntry where
  IsDeleted : Bool
  vn : Option VnId
  GetEvpnRouteTable : Bool
  vxlan_id : Nat
deriving DecidableEq, Repr

inductive DeviceType where
  | VMI_ON_LR
  | DEVICE_TYPE_OTHER
deriving DecidableEq, Repr

inductive VmiType where
  | ROUTER
  | VMI_TYPE_OTHER
deriving DecidableEq, Repr

/-- The attributes of a `VmInterface` read by the manager. -/
structure VmInterface where
  IsDeleted : Bool
  vn : Option VnId
  logical_router_uuid : Uuid
  device_type : DeviceType
  vmi_type : VmiType
deriving DecidableEq, Repr

/-- The observable tables and the collaborators whose code lies outside the
file: the agent's two fabric VRF names, the subnet-address getters of
`VnIpam`, and two lookups in the unicast table of a VRF: `GetUcRoute` gives
the address and length of the matching row, `FindRouteUsingKey` also tells
whether that row has a path of the EVPN-routing peer; and the flag constant
`InterfaceNHFlags::VXLAN_ROUTING`. `uninitialized_is_bridge_vrf` is the value
read from the member `is_bridge_vrf_` of a `VxlanRoutingState` whose
constructor has not assigned it. -/
structure World where
  vn : VnId → VnEntry
  vrf : VrfId → VrfEntry
  vmi : VmiId → VmInterface
  fabric_vrf_name : VrfId
  fabric_policy_vrf_name : VrfId
  GetSubnetAddress : VnIpam → Nat
  GetV6SubnetAddress : VnIpam → Nat
  GetUcRoute : VrfId → IpAddress → Option (IpAddress × Nat)
  FindRouteUsingKey : VrfId → IpAddress → Nat → Option (IpAddress × Nat × Bool)
  VXLAN_ROUTING : Nat
  uninitialized_is_bridge_vrf : Bool

def World.setVn (w : World) (id : VnId) (e : VnEntry) : World :=
  { w with vn := fun x => if x = id then e else w.vn x }

def World.setVrf (w : World) (id : VrfId) (e : VrfEntry) : World :=
  { w with vrf := fun x => if x = id then e else w.vrf x }

def World.setVmi (w : World) (id : VmiId) (e : VmInterface) : World :=
  { w with vmi := fun x => if x = id then e else w.vmi x }

/-! ## Requests issued to collaborators -/

inductive Peer where
  | evpn_routing_peer
  | local_vm_export_peer
deriving DecidableEq, Repr

/-- The attributes of a path that are copied into a leaked route. -/
structure PathAttrs where
  sg_list : List Nat
  communities : List Nat
  path_preference : Nat
  ecmp_load_balance : Nat
  tag_list : List Nat
  dest_vn_list : List Nat
deriving DecidableEq, Repr

/-- The value `SecurityGroupList(), CommunityList(), PathPreference(),
EcmpLoadBalance(), TagList(), VnListType()`. -/
def PathAttrs.empty : PathAttrs := ⟨[], [], 0, 0, [], []⟩

/-- A next-hop request: `VrfNHKey(name, false, false)` with
`VrfNHData(false, false, false)`, or a cloned next-hop key (with its flags)
with `InterfaceNHData(name)`. -/
inductive NextHopReq where
  | VrfNH (vrf_name : VrfId)
  | ClonedNH (key : Nat) (flags : Nat) (data_vrf_name : VrfId)
deriving DecidableEq, Repr

inductive Op where
  /-- The call `AllocWalker` on a bridge EVPN table, visitor `RouteNotify`. -/
  | AllocWalker (table : VrfId) (walk_ref : Nat)
  /-- The call `WalkAgain` on a bridge EVPN table. -/
  | WalkAgain (table : VrfId) (walk_ref : Nat)
  /-- The calls `AllocWalker` and `WalkAgain` on the EVPN table of a routing
  VRF, visitor `RouteNotifyInLrEvpnTable` bound to the four arguments. -/
  | WalkRoutingVrfTable (table : VrfId) (uuid : Uuid) (vn : VnId)
      (update : Bool) (withdraw : Bool)
  /-- The call `AddEvpnRoutingRoute` on the unicast table `(table_vrf, v4)`. -/
  | AddEvpnRoutingRoute (table_vrf : VrfId) (v4 : Bool) (ip : IpAddress)
      (plen : Nat) (vrf_arg : VrfId) (peer : Peer) (attrs : PathAttrs)
      (nh_req : NextHopReq) (vxlan_id : Nat) (origin_vn : Option VnId)
  /-- The call `Delete` on the unicast table `(table_vrf, v4)`; `data` tells
  whether an `EvpnRoutingData` is passed. -/
  | Delete (table_vrf : VrfId) (v4 : Bool) (peer : Peer) (vrf_name : VrfId)
      (ip : IpAddress) (plen : Nat) (data : Bool)
  /-- The call `AddType5Route` on the EVPN table of `table_vrf`. -/
  | AddType5Route (table_vrf : VrfId) (peer : Peer) (vrf_name : VrfId)
      (ip : IpAddress) (vxlan_id : Nat) (nh_req : NextHopReq)
      (attrs : PathAttrs) (routing_vrf : VrfId) (data_vxlan_id : Nat)
  /-- The call `DeleteEvpnType5Route` on the EVPN-routing path of an IP row. -/
  | DeleteEvpnType5Route (row_vrf : VrfId) (ip : IpAddress) (plen : Nat)
  /-- The call `set_lr_vrf` on a VN. -/
  | set_lr_vrf (vn : VnId) (vrf : Option VrfId)
  /-- The call `set_routing_vrf(true)` on a VRF. -/
  | set_routing_vrf (vrf : VrfId)
deriving DecidableEq, Repr

inductive Fault where
  | null_deref
  | diverge
  | assert_fail
deriving DecidableEq, Repr

/-! ## State owned by the manager -/

/-- The record `VxlanRoutingVrfMapper::RoutedVrfInfo`. -/
structure RoutedVrfInfo where
  parent_vn_entry_ : Option VnId
  routing_vrf_ : Option VrfId
  bridge_vn_list_ : List VnId
deriving DecidableEq, Repr

/-- The default-constructed `RoutedVrfInfo`. -/
def RoutedVrfInfo.init : RoutedVrfInfo := ⟨none, none, []⟩

structure VxlanRoutingVnState where
  vmi_list_ : List VmiId
  is_routing_vn_ : Bool
  logical_router_uuid_ : Uuid
  vrf_ref_ : Option VrfId
deriving DecidableEq, Repr

/-- The constructor `VxlanRoutingVnState::VxlanRoutingVnState`. -/
def VxlanRoutingVnState.init : VxlanRoutingVnState := ⟨[], false, nil_uuid, none⟩

structure VxlanRoutingVmiState where
  vn_entry_ : Option VnId
  logical_router_uuid_ : Uuid
deriving DecidableEq, Repr

/-- The constructor `VxlanRoutingVmiState::VxlanRoutingVmiState`. -/
def VxlanRoutingVmiState.init : VxlanRoutingVmiState := ⟨none, nil_uuid⟩

/-- The per-VRF state `VxlanRoutingState`; its three table registrations
exist exactly while the state does. -/
structure VxlanRoutingState where
  is_bridge_vrf_ : Bool
deriving DecidableEq, Repr

/-- The manager with its `vrf_mapper_` (`lr_vrf_info_map_`, `vn_lr_set_`,
`evpn_table_walker_`), the listener states attached to the entries of the
three tables, and the log of issued requests. -/
structure VxlanRoutingManager where
  lr_vrf_info_map_ : List (Uuid × RoutedVrfInfo)
  vn_lr_set_ : List (VnId × Uuid)
  evpn_table_walker_ : List (VrfId × Nat)
  vn_state : List (VnId × VxlanRoutingVnState)
  vmi_state : List (VmiId × VxlanRoutingVmiState)
  vrf_state : List (VrfId × VxlanRoutingState)
  walk_ref_seq : Nat
  ops : List Op
deriving DecidableEq, Repr

/-- The manager right after construction. -/
def VxlanRoutingManager.init : VxlanRoutingManager := ⟨[], [], [], [], [], [], 0, []⟩

/-- The access `lr_vrf_info_map_[uuid]` (`std::map::operator[]`): a missing
key is inserted with a default-constructed record. -/
def lrIndex (m : List (Uuid × RoutedVrfInfo)) (uuid : Uuid) :
    List (Uuid × RoutedVrfInfo) × RoutedVrfInfo :=
  match mapFind uuid m with
  | some info => (m, info)
  | none => (mapInsert uuid RoutedVrfInfo.init m, RoutedVrfInfo.init)

/-! ## `VxlanRoutingVrfMapper` -/

def GetRoutingVrfUsingUuid (s : VxlanRoutingManager) (uuid : Uuid) : Option VrfId :=
  match mapFind uuid s.lr_vrf_info_map_ with
  | some info => info.routing_vrf_
  | none => none

def GetRoutingVrfUsingVn (s : VxlanRoutingManager) (vn : VnId) : Option VrfId :=
  match mapFind vn s.vn_lr_set_ with
  | some uuid => GetRoutingVrfUsingUuid s uuid
  | none => none

/-- The method `TryDeleteLogicalRouter`, the iterator given by its key. -/
def TryDeleteLogicalRouter (s : VxlanRoutingManager) (uuid : Uuid) : VxlanRoutingManager :=
  match mapFind uuid s.lr_vrf_info_map_ with
  | some info =>
    if info.routing_vrf_ = none ∧ info.bridge_vn_list_.length = 0 then
      { s with lr_vrf_info_map_ := mapErase uuid s.lr_vrf_info_map_ }
    else s
  | none => s

/-! ## Subnet routes -/

/-- The inner loop of `DeleteSubnetRoute`: one `Delete` per IPAM entry on the
unicast table of `target` that matches the entry's address family. -/
def DeleteSubnetRoute_ipams (w : World) (target : VrfId) (ipams : List VnIpam) : List Op :=
  ipams.flatMap fun i =>
    if i.IsV4 then
      [Op.Delete target true Peer.evpn_routing_peer target ⟨true, w.GetSubnetAddress i⟩ i.plen false]
    else if i.IsV6 then
      [Op.Delete target false Peer.evpn_routing_peer target ⟨false, w.GetV6SubnetAddress i⟩ i.plen false]
    else []

/-- One turn of the outer loop of `DeleteSubnetRoute` at bridge VN `b`. -/
def DeleteSubnetRoute_body (w : World) (vrf : VrfId) (vrf_vn : VnId)
    (bridge_vn_ipam : List VnIpam) (b : VnId) : List Op :=
  if vrf_vn = b then []
  else
    (match (w.vn b).GetVrf with
      | some bv => DeleteSubnetRoute_ipams w bv bridge_vn_ipam
      | none => []) ++
    (if (w.vn b).GetVnIpam.length = 0 then []
      else DeleteSubnetRoute_ipams w vrf (w.vn b).GetVnIpam)

def DeleteSubnetRoute (w : World) (s : VxlanRoutingManager) (vrf : Option VrfId)
    (ipam : Option VnIpam) : VxlanRoutingManager :=
  match vrf with
  | none => s
  | some v =>
    match (w.vrf v).vn with
    | none => s
    | some vrf_vn =>
      let bridge_vn_ipam : List VnIpam :=
        match ipam with
        | none => (w.vn vrf_vn).GetVnIpam
        | some i => [i]
      if bridge_vn_ipam.length = 0 then s
      else
        match mapFind vrf_vn s.vn_lr_set_ with
        | none => s
        | some uuid =>
          if uuid = nil_uuid then s
          else
            let r := lrIndex s.lr_vrf_info_map_ uuid
            if r.2.bridge_vn_list_.length = 0 then { s with lr_vrf_info_map_ := r.1 }
            else
              { s with
                lr_vrf_info_map_ := r.1
                ops := s.ops ++
                  r.2.bridge_vn_list_.flatMap
                    (DeleteSubnetRoute_body w v vrf_vn bridge_vn_ipam) }

/-- The inner loop of `UpdateSubnetRoute`: one `AddEvpnRoutingRoute` per
IPAM entry on the unicast table of `target` that matches the entry's family. -/
def UpdateSubnetRoute_ipams (w : World) (target : VrfId) (routing_vrf : VrfId)
    (ipams : List VnIpam) : List Op :=
  ipams.flatMap fun i =>
    if i.IsV4 then
      [Op.AddEvpnRoutingRoute target true i.ip_prefix i.plen routing_vrf
        Peer.evpn_routing_peer PathAttrs.empty (NextHopReq.VrfNH routing_vrf)
        (w.vrf routing_vrf).vxlan_id none]
    else if i.IsV6 then
      [Op.AddEvpnRoutingRoute target false i.ip_prefix i.plen routing_vrf
        Peer.evpn_routing_peer PathAttrs.empty (NextHopReq.VrfNH routing_vrf)
        (w.vrf routing_vrf).vxlan_id none]
    else []

/-- One turn of the outer loop of `UpdateSubnetRoute` at bridge VN `b`. The
source calls `(*it)->GetVrf()->GetInet4UnicastRouteTable()` without a check,
inside the loop over `bridge_vn_ipam`, which is not empty here. -/
def UpdateSubnetRoute_body (w : World) (bridge_vrf : VrfId) (vrf_vn : VnId)
    (routing_vrf : VrfId) (bridge_vn_ipam : List VnIpam) (b : VnId) :
    Except Fault (List Op) :=
  if vrf_vn = b then .ok []
  else
    match (w.vn b).GetVrf with
    | none => .error Fault.null_deref
    | some bv =>
      .ok (UpdateSubnetRoute_ipams w bv routing_vrf bridge_vn_ipam ++
        (if (w.vn b).GetVnIpam.length = 0 then []
          else UpdateSubnetRoute_ipams w bridge_vrf routing_vrf (w.vn b).GetVnIpam))

/-- The outer loop of `UpdateSubnetRoute` over `bridge_vn_list_`. -/
def UpdateSubnetRoute_loop (w : World) (bridge_vrf : VrfId) (vrf_vn : VnId)
    (routing_vrf : VrfId) (bridge_vn_ipam : List VnIpam) :
    List VnId → Except Fault (List Op)
  | [] => .ok []
  | b :: rest =>
    match UpdateSubnetRoute_body w bridge_vrf vrf_vn routing_vrf bridge_vn_ipam b with
    | .error f => .error f
    | .ok ops1 =>
      match UpdateSubnetRoute_loop w bridge_vrf vrf_vn routing_vrf bridge_vn_ipam rest with
      | .error f => .error f
      | .ok ops2 => .ok (ops1 ++ ops2)

def UpdateSubnetRoute (w : World) (s : VxlanRoutingManager) (bridge_vrf : VrfId)
    (routing_vrf : VrfId) : Except Fault VxlanRoutingManager :=
  match (w.vrf bridge_vrf).vn with
  | none => .ok s
  | some vrf_vn =>
    let bridge_vn_ipam := (w.vn vrf_vn).GetVnIpam
    if bridge_vn_ipam.length = 0 then .ok s
    else
      match mapFind vrf_vn s.vn_lr_set_ with
      | none => .ok s
      | some uuid =>
        if uuid = nil_uuid then .ok s
        else
          let r := lrIndex s.lr_vrf_info_map_ uuid
          if r.2.bridge_vn_list_.length = 0 then .ok { s with lr_vrf_info_map_ := r.1 }
          else
            match UpdateSubnetRoute_loop w bridge_vrf vrf_vn routing_vrf bridge_vn_ipam
                r.2.bridge_vn_list_ with
            | .error f => .error f
            | .ok ops => .ok { s with lr_vrf_info_map_ := r.1, ops := s.ops ++ ops }

def HandleSubnetRoute (w : World) (s : VxlanRoutingManager) (vrf : VrfId)
    (bridge_vrf : Bool) : Except Fault VxlanRoutingManager :=
  let is_bridge : Option VnId :=
    match (w.vrf vrf).vn with
    | some x => if (w.vn x).vxlan_routing_vn = false then some x else none
    | none => none
  match is_bridge with
  | some x =>
    match GetRoutingVrfUsingVn s x with
    | some routing_vrf =>
      if (w.vrf vrf).IsDeleted then
        .ok (let s1 := DeleteSubnetRoute w s (some vrf) none
          { s1 with ops := s1.ops ++ [Op.set_lr_vrf x none] })
      else
        match UpdateSubnetRoute w s vrf routing_vrf with
        | .error f => .error f
        | .ok s1 => .ok { s1 with ops := s1.ops ++ [Op.set_lr_vrf x (some routing_vrf)] }
    | none =>
      .ok (let s1 := DeleteSubnetRoute w s (some vrf) none
        { s1 with ops := s1.ops ++ [Op.set_lr_vrf x none] })
  | none =>
    if bridge_vrf then
      if (w.vrf vrf).IsDeleted then .ok (DeleteSubnetRoute w s (some vrf) none)
      else .ok s
    else .ok s

/-! ## Walks -/

def WalkEvpnTable (w : World) (s : VxlanRoutingManager) (table : VrfId) :
    Except Fault VxlanRoutingManager :=
  let s1 : VxlanRoutingManager :=
    match mapFind table s.evpn_table_walker_ with
    | none =>
      { s with
        evpn_table_walker_ := mapInsert table s.walk_ref_seq s.evpn_table_walker_
        walk_ref_seq := s.walk_ref_seq + 1
        ops := s.ops ++ [Op.AllocWalker table s.walk_ref_seq, Op.WalkAgain table s.walk_ref_seq] }
    | some walk_ref => { s with ops := s.ops ++ [Op.WalkAgain table walk_ref] }
  HandleSubnetRoute w s1 table false

def WalkRoutingVrf (w : World) (s : VxlanRoutingManager) (uuid : Uuid) (vn : VnId)
    (update : Bool) (withdraw : Bool) : VxlanRoutingManager :=
  if uuid = nil_uuid then s
  else
    let r := lrIndex s.lr_vrf_info_map_ uuid
    let s1 : VxlanRoutingManager := { s with lr_vrf_info_map_ := r.1 }
    match r.2.routing_vrf_ with
    | some routing_vrf =>
      if (w.vrf routing_vrf).GetEvpnRouteTable then
        { s1 with ops := s1.ops ++ [Op.WalkRoutingVrfTable routing_vrf uuid vn update withdraw] }
      else s1
    | none => s1

/-- The loop of `WalkBridgeVrfs`, run for at most `fuel` turns; `it` is the
rest of `bridge_vn_list_` from the iterator on. A turn at a bridge VN whose
VRF has no EVPN table executes `continue` without `it++`. -/
def WalkBridgeVrfs_loop (w : World) :
    Nat → List VnId → VxlanRoutingManager → Except Fault VxlanRoutingManager
  | 0, _, _ => .error Fault.diverge
  | _ + 1, [], s => .ok s
  | fuel + 1, vn :: rest, s =>
    match (w.vn vn).GetVrf with
    | some vrf =>
      if (w.vrf vrf).GetEvpnRouteTable = false then WalkBridgeVrfs_loop w fuel (vn :: rest) s
      else
        match WalkEvpnTable w s vrf with
        | .error f => .error f
        | .ok s1 => WalkBridgeVrfs_loop w fuel rest s1
    | none => WalkBridgeVrfs_loop w fuel rest s

/-- The method `WalkBridgeVrfs`. A run of the loop that ends takes one turn
per bridge VN and one for the exit test, so that many turns are granted. -/
def WalkBridgeVrfs (w : World) (s : VxlanRoutingManager) (routed_vrf_info : RoutedVrfInfo) :
    Except Fault VxlanRoutingManager :=
  WalkBridgeVrfs_loop w (routed_vrf_info.bridge_vn_list_.length + 1)
    routed_vrf_info.bridge_vn_list_ s

/-! ## VN tracker -/

/-- The loop of `UpdateLogicalRouterUuid` from `vmi_list_.begin()` on: gives
the pruned list and the UUID left in `logical_router_uuid_`. -/
def UpdateLogicalRouterUuid_loop (w : World) : List VmiId → List VmiId × Uuid
  | [] => ([], nil_uuid)
  | vmi :: rest =>
    if (w.vmi vmi).logical_router_uuid ≠ nil_uuid then
      (vmi :: rest, (w.vmi vmi).logical_router_uuid)
    else UpdateLogicalRouterUuid_loop w rest

def UpdateLogicalRouterUuid (w : World) (vn_state : VxlanRoutingVnState) :
    VxlanRoutingVnState :=
  if vn_state.vmi_list_.length = 0 then { vn_state with logical_router_uuid_ := nil_uuid }
  else
    let r := UpdateLogicalRouterUuid_loop w vn_state.vmi_list_
    { vn_state with vmi_list_ := r.1, logical_router_uuid_ := r.2 }

/-- The withdraw block of `BridgeVnNotify`; `it` is the result of
`vn_lr_set_.find(vn)` taken at entry. -/
def BridgeVnNotify_withdraw (w : World) (s : VxlanRoutingManager) (vn : VnId)
    (it : Option Uuid) : VxlanRoutingManager :=
  let s3 : VxlanRoutingManager :=
    match it with
    | none => s
    | some cur =>
      match mapFind cur s.lr_vrf_info_map_ with
      | none => s
      | some info =>
        let s1 : VxlanRoutingManager :=
          match (w.vn vn).GetVrf with
          | some v => if (w.vrf v).IsDeleted then s else DeleteSubnetRoute w s (some v) none
          | none => s
        let s2 : VxlanRoutingManager :=
          if vn ∈ info.bridge_vn_list_ then
            let sw := WalkRoutingVrf w s1 cur vn false true
            { sw with
              lr_vrf_info_map_ :=
                mapSet cur { info with bridge_vn_list_ := setErase vn info.bridge_vn_list_ }
                  sw.lr_vrf_info_map_ }
          else s1
        TryDeleteLogicalRouter s2 cur
  { s3 with vn_lr_set_ := mapErase vn s3.vn_lr_set_ }

/-- The update block of `BridgeVnNotify` up to its `return`; the flag tells
whether that `return` was taken. -/
def BridgeVnNotify_update (w : World) (s : VxlanRoutingManager) (vn : VnId)
    (uuid : Uuid) : VxlanRoutingManager × Bool :=
  let s1 : VxlanRoutingManager := { s with vn_lr_set_ := mapInsert vn uuid s.vn_lr_set_ }
  if uuid = nil_uuid then (s1, true)
  else
    let r := lrIndex s1.lr_vrf_info_map_ uuid
    let s2 : VxlanRoutingManager :=
      { s1 with
        lr_vrf_info_map_ :=
          mapSet uuid { r.2 with bridge_vn_list_ := setInsert vn r.2.bridge_vn_list_ } r.1 }
    (WalkRoutingVrf w s2 uuid vn true false, false)

/-- The flags `(withdraw, update)` of `BridgeVnNotify`, assigned in the order
of the source; `it` is the result of `vn_lr_set_.find(vn)` taken at entry and
`uuid` the LR UUID left by `UpdateLogicalRouterUuid`. -/
def BridgeVnNotify_flags (w : World) (vn : VnId) (it : Option Uuid) (uuid : Uuid) :
    Bool × Bool :=
  let f0 : Bool × Bool := (false, true)
  let f1 : Bool × Bool :=
    if (w.vn vn).IsDeleted = true ∨ (w.vn vn).GetVrf = none then (true, false) else f0
  let f2 : Bool × Bool :=
    match it with
    | some cur => if cur ≠ uuid ∧ uuid ≠ nil_uuid then (true, f1.2) else f1
    | none => f1
  if uuid = nil_uuid then (true, false) else f2

/-- The withdraw and update blocks of `BridgeVnNotify`, run as the flags
say; the Boolean tells whether the `return` of the update block was taken. -/
def BridgeVnNotify_maps (w : World) (s : VxlanRoutingManager) (vn : VnId) (uuid : Uuid) :
    VxlanRoutingManager × Bool :=
  let it := mapFind vn s.vn_lr_set_
  let f := BridgeVnNotify_flags w vn it uuid
  let s1 := if f.1 then BridgeVnNotify_withdraw w s vn it else s
  if f.2 then BridgeVnNotify_update w s1 vn uuid else (s1, false)

def BridgeVnNotify (w : World) (s : VxlanRoutingManager) (vn : VnId)
    (vn_state : VxlanRoutingVnState) :
    Except Fault (VxlanRoutingVnState × VxlanRoutingManager) :=
  if (w.vn vn).logical_router_uuid ≠ nil_uuid then .ok (vn_state, s)
  else
    let st := UpdateLogicalRouterUuid w vn_state
    let f := BridgeVnNotify_flags w vn (mapFind vn s.vn_lr_set_) st.logical_router_uuid_
    let r := BridgeVnNotify_maps w s vn st.logical_router_uuid_
    if r.2 then .ok (st, r.1)
    else
      match st.vrf_ref_ with
      | none => .ok (st, r.1)
      | some v =>
        if (f.2 || f.1) && (w.vrf v).GetEvpnRouteTable then
          match WalkEvpnTable w r.1 v with
          | .error f => .error f
          | .ok s2 => .ok (st, s2)
        else .ok (st, r.1)

/-- The withdraw block of `RoutingVnNotify`; `it` is the result of
`vn_lr_set_.find(vn)` taken at entry, `cur` its value. -/
def RoutingVnNotify_withdraw (w : World) (s : VxlanRoutingManager) (vn : VnId)
    (cur : Uuid) : Except Fault VxlanRoutingManager :=
  match mapFind cur s.lr_vrf_info_map_ with
  | none => .ok { s with vn_lr_set_ := mapErase vn s.vn_lr_set_ }
  | some info =>
    if info.parent_vn_entry_ = some vn then
      let info1 : RoutedVrfInfo := { info with parent_vn_entry_ := none, routing_vrf_ := none }
      let s1 : VxlanRoutingManager :=
        { s with lr_vrf_info_map_ := mapSet cur info1 s.lr_vrf_info_map_ }
      match WalkBridgeVrfs w s1 info1 with
      | .error f => .error f
      | .ok s2 =>
        let s3 := TryDeleteLogicalRouter s2 cur
        .ok { s3 with vn_lr_set_ := mapErase vn s3.vn_lr_set_ }
    else
      let s3 := TryDeleteLogicalRouter s cur
      .ok { s3 with vn_lr_set_ := mapErase vn s3.vn_lr_set_ }

/-- The update block of `RoutingVnNotify`. The iterator `it` was taken at
entry and is not refreshed after `vn_lr_set_.erase(it)`: the test
`it == vn_lr_set_.end()` succeeds only when the VN was absent at entry. -/
def RoutingVnNotify_update (w : World) (s : VxlanRoutingManager) (vn : VnId)
    (vn_state : VxlanRoutingVnState) (it : Option Uuid) : Except Fault VxlanRoutingManager :=
  if vn_state.logical_router_uuid_ = nil_uuid then .ok s
  else
    let s1 : VxlanRoutingManager :=
      match it with
      | none => { s with vn_lr_set_ := mapInsert vn vn_state.logical_router_uuid_ s.vn_lr_set_ }
      | some _ => s
    let r := lrIndex s1.lr_vrf_info_map_ vn_state.logical_router_uuid_
    let info1 : RoutedVrfInfo := { r.2 with parent_vn_entry_ := some vn }
    if info1.routing_vrf_ ≠ (w.vn vn).GetVrf then
      let info2 : RoutedVrfInfo := { info1 with routing_vrf_ := (w.vn vn).GetVrf }
      WalkBridgeVrfs w
        { s1 with lr_vrf_info_map_ := mapSet vn_state.logical_router_uuid_ info2 r.1 } info2
    else
      .ok { s1 with lr_vrf_info_map_ := mapSet vn_state.logical_router_uuid_ info1 r.1 }

def RoutingVnNotify (w : World) (s : VxlanRoutingManager) (vn : VnId)
    (vn_state : VxlanRoutingVnState) : Except Fault VxlanRoutingManager :=
  let it := mapFind vn s.vn_lr_set_
  let gone : Bool :=
    (w.vn vn).IsDeleted || (w.vn vn).GetVrf.isNone || (vn_state.is_routing_vn_ == false)
  let update : Bool := !gone
  let withdraw : Bool :=
    gone ||
      (match it with
        | some cur => cur != vn_state.logical_router_uuid_
        | none => false)
  let r1 : Except Fault VxlanRoutingManager :=
    match it with
    | some cur => if withdraw then RoutingVnNotify_withdraw w s vn cur else .ok s
    | none => .ok s
  match r1 with
  | .error f => .error f
  | .ok s1 => if update then RoutingVnNotify_update w s1 vn vn_state it else .ok s1

/-- The VN state `VnNotify` works on for a VN that is not deleted: the
state of the VN, allocated if there is none, after the sticky assignment of
`is_routing_vn_` and the assignment of `vrf_ref_`. -/
def VnNotify_state (w : World) (s : VxlanRoutingManager) (vn : VnId) : VxlanRoutingVnState :=
  let st0 : VxlanRoutingVnState :=
    match mapFind vn s.vn_state with
    | none => VxlanRoutingVnState.init
    | some st => st
  let st1 : VxlanRoutingVnState :=
    if (w.vn vn).vxlan_routing_vn then { st0 with is_routing_vn_ := (w.vn vn).vxlan_routing_vn }
    else st0
  { st1 with vrf_ref_ := (w.vn vn).GetVrf }

def VnNotify (w : World) (s : VxlanRoutingManager) (vn : VnId) :
    Except Fault VxlanRoutingManager :=
  if (w.vn vn).IsDeleted then
    match mapFind vn s.vn_state with
    | none => .ok s
    | some vn_state =>
      if vn_state.is_routing_vn_ then
        match RoutingVnNotify w s vn vn_state with
        | .error f => .error f
        | .ok s1 => .ok { s1 with vn_state := mapErase vn s1.vn_state }
      else
        match BridgeVnNotify w s vn vn_state with
        | .error f => .error f
        | .ok r => .ok { r.2 with vn_state := mapErase vn r.2.vn_state }
  else
    let st2 := VnNotify_state w s vn
    if st2.is_routing_vn_ then
      let st3 : VxlanRoutingVnState :=
        { st2 with logical_router_uuid_ := (w.vn vn).logical_router_uuid }
      RoutingVnNotify w { s with vn_state := mapInsert vn st3 s.vn_state } vn st3
    else
      match BridgeVnNotify w { s with vn_state := mapInsert vn st2 s.vn_state } vn st2 with
      | .error f => .error f
      | .ok r => .ok { r.2 with vn_state := mapInsert vn r.1 r.2.vn_state }

/-! ## VMI tracker -/

/-- The method `VxlanRoutingVnState::AddVmi`. -/
def AddVmi (w : World) (s : VxlanRoutingManager) (vn : VnId) (vmi : VmiId)
    (vn_state : VxlanRoutingVnState) :
    Except Fault (VxlanRoutingVnState × VxlanRoutingManager) :=
  if (w.vmi vmi).logical_router_uuid = nil_uuid then .error Fault.assert_fail
  else if vmi ∈ vn_state.vmi_list_ then .ok (vn_state, s)
  else
    let st : VxlanRoutingVnState :=
      { vn_state with vmi_list_ := setInsert vmi vn_state.vmi_list_ }
    if st.logical_router_uuid_ ≠ (w.vmi vmi).logical_router_uuid ∧
        st.vmi_list_.head? = some vmi then
      BridgeVnNotify w s vn st
    else .ok (st, s)

/-- The method `VxlanRoutingVnState::DeleteVmi`. -/
def DeleteVmi (w : World) (s : VxlanRoutingManager) (vn : VnId) (vmi : VmiId)
    (vn_state : VxlanRoutingVnState) :
    Except Fault (VxlanRoutingVnState × VxlanRoutingManager) :=
  if vmi ∈ vn_state.vmi_list_ then
    BridgeVnNotify w s vn { vn_state with vmi_list_ := setErase vmi vn_state.vmi_list_ }
  else .ok (vn_state, s)

/-- The handler `VmiNotify` on a row that is a `VmInterface`. -/
def VmiNotify (w : World) (s : VxlanRoutingManager) (vmi : VmiId) :
    Except Fault VxlanRoutingManager :=
  if (w.vmi vmi).IsDeleted ∨ (w.vmi vmi).vn = none ∨
      (w.vmi vmi).logical_router_uuid = nil_uuid then
    match mapFind vmi s.vmi_state with
    | none => .ok s
    | some vmi_state =>
      match vmi_state.vn_entry_ with
      | none => .error Fault.null_deref
      | some vn =>
        match mapFind vn s.vn_state with
        | none => .ok { s with vmi_state := mapErase vmi s.vmi_state }
        | some vn_state =>
          match DeleteVmi w s vn vmi vn_state with
          | .error f => .error f
          | .ok r =>
            .ok { r.2 with
                  vn_state := mapSet vn r.1 r.2.vn_state
                  vmi_state := mapErase vmi r.2.vmi_state }
  else if (w.vmi vmi).device_type ≠ DeviceType.VMI_ON_LR ∨
      (w.vmi vmi).vmi_type ≠ VmiType.ROUTER then .ok s
  else
    match (w.vmi vmi).vn with
    | none => .ok s
    | some vn =>
      let vmi_state0 : VxlanRoutingVmiState :=
        match mapFind vmi s.vmi_state with
        | none => { VxlanRoutingVmiState.init with vn_entry_ := some vn }
        | some st => st
      let vmi_state1 : VxlanRoutingVmiState :=
        { vmi_state0 with logical_router_uuid_ := (w.vmi vmi).logical_router_uuid }
      match VnNotify w { s with vmi_state := mapInsert vmi vmi_state1 s.vmi_state } vn with
      | .error f => .error f
      | .ok s1 =>
        match mapFind vn s1.vn_state with
        | none => .ok s1
        | some vn_state =>
          match AddVmi w s1 vn vmi vn_state with
          | .error f => .error f
          | .ok r => .ok { r.2 with vn_state := mapSet vn r.1 r.2.vn_state }

/-! ## VRF tracker -/

/-- The constructor `VxlanRoutingState::VxlanRoutingState`: it registers on
the route tables of the VRF, calling `Register` on the EVPN table without a
test, and assigns `is_bridge_vrf_` only for the VRF of a bridge VN. -/
def VxlanRoutingState.init (w : World) (vrf : VrfId) : Except Fault VxlanRoutingState :=
  if (w.vrf vrf).GetEvpnRouteTable = false then .error Fault.null_deref
  else
    match (w.vrf vrf).vn with
    | some x =>
      if (w.vn x).vxlan_routing_vn = false then .ok ⟨true⟩
      else .ok ⟨w.uninitialized_is_bridge_vrf⟩
    | none => .ok ⟨w.uninitialized_is_bridge_vrf⟩

/-- `VxlanRoutingManager::VrfNotify`: the fabric VRFs are skipped; a delete
retracts the subnet routes and frees the VRF state; otherwise a VRF state is
constructed when there is none (which faults on a VRF without EVPN table),
the VRF of a routing VN is marked, and the subnet routes are handled with
the stored flag `is_bridge_vrf_`. -/
def VrfNotify (w : World) (s : VxlanRoutingManager) (vrf : VrfId) :
    Except Fault VxlanRoutingManager :=
  if vrf = w.fabric_vrf_name then .ok s
  else if vrf = w.fabric_policy_vrf_name then .ok s
  else if (w.vrf vrf).IsDeleted then
    match mapFind vrf s.vrf_state with
    | some state =>
      match HandleSubnetRoute w s vrf state.is_bridge_vrf_ with
      | .error f => .error f
      | .ok s1 => .ok { s1 with vrf_state := mapErase vrf s1.vrf_state }
    | none => .ok s
  else
    let routing : Bool :=
      match (w.vrf vrf).vn with
      | some x => (w.vn x).vxlan_routing_vn
      | none => false
    let created : Except Fault VxlanRoutingState :=
      match mapFind vrf s.vrf_state with
      | some st => .ok st
      | none => VxlanRoutingState.init w vrf
    match created with
    | .error f => .error f
    | .ok state =>
      let s1 : VxlanRoutingManager := { s with vrf_state := mapInsert vrf state s.vrf_state }
      let s2 : VxlanRoutingManager :=
        if routing then { s1 with ops := s1.ops ++ [Op.set_routing_vrf vrf] } else s1
      HandleSubnetRoute w s2 vrf state.is_bridge_vrf_

/-! ## Route reconciler -/

/-- The attributes of an `AgentPath` read by the manager. `nexthop_vmi` is
the `VmInterface` of the next-hop when the next-hop is an `InterfaceNH` on a
`VmInterface` (the two `dynamic_cast`s of `GetLogicalRouterUuidUsingRoute`). -/
structure AgentPath where
  peer_is_bgp : Bool
  attrs : PathAttrs
  vxlan_id : Nat
  nexthop_key : Nat
  nexthop_flags : Nat
  nexthop_vmi : Option VmiId
deriving DecidableEq, Repr

inductive RouteClass where
  | inet_unicast
  | evpn
  | other_class
deriving DecidableEq, Repr

/-- A row of a route table as the handlers see it. `routing_path` is the
path of the EVPN-routing peer, given by its `routing_vrf()`. -/
structure AgentRoute where
  route_class : RouteClass
  vrf : VrfId
  IsDeleted : Bool
  ip_addr : IpAddress
  plen : Nat
  GetVmIpPlen : Nat
  IsType5 : Bool
  IsType2 : Bool
  is_multicast : Bool
  FindLocalVmPortPath : Option AgentPath
  routing_path : Option (Option VrfId)
  GetActivePath : Option AgentPath
deriving DecidableEq, Repr

def IsHostRoute (evpn_rt : AgentRoute) : Bool :=
  (evpn_rt.ip_addr.is_v4 && evpn_rt.GetVmIpPlen == 32) ||
    (evpn_rt.ip_addr.is_v6 && evpn_rt.GetVmIpPlen == 128)

def GetLogicalRouterUuidUsingRoute (w : World) (s : VxlanRoutingManager) (rt : AgentRoute) :
    Uuid :=
  match rt.FindLocalVmPortPath with
  | none => nil_uuid
  | some path =>
    match path.nexthop_vmi with
    | none => nil_uuid
    | some vmi =>
      match (w.vmi vmi).vn with
      | none => nil_uuid
      | some vn =>
        match mapFind vn s.vn_state with
        | none => nil_uuid
        | some vn_state =>
          if vn_state.vmi_list_.length = 0 then nil_uuid else vn_state.logical_router_uuid_

def GetRoutingVrfUsingEvpnRoute (w : World) (s : VxlanRoutingManager) (rt : AgentRoute) :
    Option VrfId :=
  GetRoutingVrfUsingUuid s (GetLogicalRouterUuidUsingRoute w s rt)

def UpdateEvpnType5Route (w : World) (s : VxlanRoutingManager) (route : AgentRoute)
    (path : AgentPath) (routing_vrf : VrfId) : VxlanRoutingManager :=
  if (w.vrf routing_vrf).GetEvpnRouteTable = false then s
  else
    { s with
      ops := s.ops ++
        [Op.AddType5Route routing_vrf Peer.local_vm_export_peer routing_vrf route.ip_addr
          (w.vrf routing_vrf).vxlan_id
          (NextHopReq.ClonedNH path.nexthop_key (path.nexthop_flags ||| w.VXLAN_ROUTING)
            routing_vrf)
          path.attrs routing_vrf (w.vrf routing_vrf).vxlan_id] }

def InetRouteNotify (w : World) (s : VxlanRoutingManager) (inet_rt : AgentRoute) :
    Except Fault VxlanRoutingManager :=
  if (w.vrf inet_rt.vrf).vn = none then .ok s
  else
    match inet_rt.FindLocalVmPortPath with
    | none => .ok s
    | some local_vm_port_path =>
      match inet_rt.routing_path with
      | none => .ok s
      | some routing_vrf =>
        if routing_vrf = some inet_rt.vrf then .error Fault.assert_fail
        else
          match routing_vrf with
          | none =>
            .ok { s with
                  ops := s.ops ++
                    [Op.DeleteEvpnType5Route inet_rt.vrf inet_rt.ip_addr inet_rt.plen] }
          | some rv =>
            if inet_rt.IsDeleted then
              .ok { s with
                    ops := s.ops ++
                      [Op.DeleteEvpnType5Route inet_rt.vrf inet_rt.ip_addr inet_rt.plen] }
            else .ok (UpdateEvpnType5Route w s inet_rt local_vm_port_path rv)

/-- The loop of `RouteNotifyInLrEvpnTable` over `update_bridge_vn_list`: the
requests it issues until it ends or returns. -/
def RouteNotifyInLrEvpnTable_loop (w : World) (evpn_rt : AgentRoute)
    (routing_vrf : Option VrfId) : List VnId → Except Fault (List Op)
  | [] => .ok []
  | b :: rest =>
    match (w.vn b).GetVrf with
    | none => RouteNotifyInLrEvpnTable_loop w evpn_rt routing_vrf rest
    | some bridge_vrf =>
      if evpn_rt.IsDeleted = false then
        match evpn_rt.GetActivePath with
        | none => .error Fault.null_deref
        | some p =>
          match routing_vrf with
          | none => .ok []
          | some rv =>
            if p.peer_is_bgp = false then .ok []
            else
              match RouteNotifyInLrEvpnTable_loop w evpn_rt routing_vrf rest with
              | .error f => .error f
              | .ok ops =>
                .ok (Op.AddEvpnRoutingRoute bridge_vrf evpn_rt.ip_addr.is_v4 evpn_rt.ip_addr
                  evpn_rt.GetVmIpPlen bridge_vrf Peer.evpn_routing_peer p.attrs
                  (NextHopReq.VrfNH rv) (w.vrf rv).vxlan_id none :: ops)
      else
        match RouteNotifyInLrEvpnTable_loop w evpn_rt routing_vrf rest with
        | .error f => .error f
        | .ok ops =>
          .ok (Op.Delete bridge_vrf evpn_rt.ip_addr.is_v4 Peer.evpn_routing_peer bridge_vrf
            evpn_rt.ip_addr evpn_rt.GetVmIpPlen false :: ops)

def RouteNotifyInLrEvpnTable (w : World) (s : VxlanRoutingManager) (e : AgentRoute)
    (uuid : Uuid) (vn : Option VnId) (update : Bool) (withdraw : Bool) :
    Except Fault VxlanRoutingManager :=
  if e.route_class ≠ RouteClass.evpn ∨ (w.vrf e.vrf).vn = none ∨ e.IsType5 = false then .ok s
  else if uuid = nil_uuid then .ok s
  else if IsHostRoute e then .ok s
  else if withdraw then
    match vn with
    | none => .ok s
    | some v =>
      match (w.vn v).GetVrf with
      | none => .ok s
      | some del_bridge_vrf =>
        .ok { s with
              ops := s.ops ++
                [Op.Delete del_bridge_vrf e.ip_addr.is_v4 Peer.evpn_routing_peer del_bridge_vrf
                  e.ip_addr e.GetVmIpPlen false] }
  else
    let r := lrIndex s.lr_vrf_info_map_ uuid
    let update_bridge_vn_list : List VnId :=
      match vn with
      | some v => if update then [v] else r.2.bridge_vn_list_
      | none => r.2.bridge_vn_list_
    match RouteNotifyInLrEvpnTable_loop w e r.2.routing_vrf_ update_bridge_vn_list with
    | .error f => .error f
    | .ok ops => .ok { s with lr_vrf_info_map_ := r.1, ops := s.ops ++ ops }

/-- The loop of `EvpnType5RouteNotify` that looks for the origin VN. -/
def EvpnType5RouteNotify_origin (w : World) (evpn_rt : AgentRoute) :
    List VnId → Except Fault (Option VnId)
  | [] => .ok none
  | b :: rest =>
    match (w.vn b).GetVrf with
    | none => .error Fault.null_deref
    | some bv =>
      match w.GetUcRoute bv evpn_rt.ip_addr with
      | some rt =>
        if rt.1 = evpn_rt.ip_addr ∧ rt.2 = evpn_rt.plen then .ok (some b)
        else EvpnType5RouteNotify_origin w evpn_rt rest
      | none => EvpnType5RouteNotify_origin w evpn_rt rest

def EvpnType5RouteNotify (w : World) (s : VxlanRoutingManager) (evpn_rt : AgentRoute) :
    Except Fault VxlanRoutingManager :=
  if evpn_rt.IsType5 = false then .error Fault.assert_fail
  else
    let r1 : Except Fault VxlanRoutingManager :=
      match (w.vrf evpn_rt.vrf).vn with
      | some x =>
        if (w.vn x).vxlan_routing_vn && !IsHostRoute evpn_rt then
          RouteNotifyInLrEvpnTable w s evpn_rt (w.vn x).logical_router_uuid none true false
        else .ok s
      | none => .ok s
    match r1 with
    | .error f => .error f
    | .ok s1 =>
      if evpn_rt.IsDeleted then
        .ok { s1 with
              ops := s1.ops ++
                [Op.Delete evpn_rt.vrf evpn_rt.ip_addr.is_v4 Peer.evpn_routing_peer evpn_rt.vrf
                  evpn_rt.ip_addr evpn_rt.GetVmIpPlen false] }
      else
        match evpn_rt.GetActivePath with
        | none => .error Fault.null_deref
        | some p =>
          let r2 : Except Fault (List (Uuid × RoutedVrfInfo) × Option VnId) :=
            match (w.vrf evpn_rt.vrf).vn with
            | some x =>
              let r := lrIndex s1.lr_vrf_info_map_ (w.vn x).logical_router_uuid
              match EvpnType5RouteNotify_origin w evpn_rt r.2.bridge_vn_list_ with
              | .error f => .error f
              | .ok origin_vn => .ok (r.1, origin_vn)
            | none => .ok (s1.lr_vrf_info_map_, none)
          match r2 with
          | .error f => .error f
          | .ok r =>
            .ok { s1 with
                  lr_vrf_info_map_ := r.1
                  ops := s1.ops ++
                    [Op.AddEvpnRoutingRoute evpn_rt.vrf evpn_rt.ip_addr.is_v4 evpn_rt.ip_addr
                      evpn_rt.GetVmIpPlen evpn_rt.vrf Peer.evpn_routing_peer p.attrs
                      (NextHopReq.ClonedNH p.nexthop_key p.nexthop_flags evpn_rt.vrf)
                      p.vxlan_id r.2] }

def DeleteInetRoute (w : World) (s : VxlanRoutingManager) (evpn_rt : AgentRoute) :
    VxlanRoutingManager :=
  if evpn_rt.ip_addr.is_unspecified then s
  else
    let ops1 : List Op :=
      match w.FindRouteUsingKey evpn_rt.vrf evpn_rt.ip_addr evpn_rt.GetVmIpPlen with
      | some inet_rt =>
        if inet_rt.2.2 then [Op.DeleteEvpnType5Route evpn_rt.vrf inet_rt.1 inet_rt.2.1] else []
      | none => []
    { s with
      ops := s.ops ++ ops1 ++
        [Op.Delete evpn_rt.vrf evpn_rt.ip_addr.is_v4 Peer.evpn_routing_peer evpn_rt.vrf
          evpn_rt.ip_addr evpn_rt.GetVmIpPlen true] }

def UpdateInetRoute (w : World) (s : VxlanRoutingManager) (evpn_rt : AgentRoute)
    (routing_vrf : VrfId) : Except Fault VxlanRoutingManager :=
  match evpn_rt.GetActivePath with
  | none => .error Fault.null_deref
  | some p =>
    .ok { s with
          ops := s.ops ++
            [Op.AddEvpnRoutingRoute evpn_rt.vrf evpn_rt.ip_addr.is_v4 evpn_rt.ip_addr
              evpn_rt.GetVmIpPlen routing_vrf Peer.evpn_routing_peer p.attrs
              (NextHopReq.VrfNH routing_vrf) (w.vrf routing_vrf).vxlan_id none] }

def EvpnType2RouteNotify (w : World) (s : VxlanRoutingManager) (evpn_rt : AgentRoute) :
    Except Fault VxlanRoutingManager :=
  if evpn_rt.IsType2 = false then .error Fault.assert_fail
  else if evpn_rt.ip_addr.is_unspecified then .ok s
  else
    match GetRoutingVrfUsingEvpnRoute w s evpn_rt with
    | some routing_vrf =>
      if evpn_rt.IsDeleted then .ok (DeleteInetRoute w s evpn_rt)
      else UpdateInetRoute w s evpn_rt routing_vrf
    | none => .ok (DeleteInetRoute w s evpn_rt)

def EvpnRouteNotify (w : World) (s : VxlanRoutingManager) (evpn_rt : AgentRoute) :
    Except Fault VxlanRoutingManager :=
  if evpn_rt.is_multicast then .ok s
  else if evpn_rt.IsType5 then EvpnType5RouteNotify w s evpn_rt
  else if (w.vrf evpn_rt.vrf).vn ≠ none then EvpnType2RouteNotify w s evpn_rt
  else .ok s

def RouteNotify (w : World) (s : VxlanRoutingManager) (e : AgentRoute) :
    Except Fault VxlanRoutingManager :=
  match e.route_class with
  | RouteClass.inet_unicast => InetRouteNotify w s e
  | RouteClass.evpn => EvpnRouteNotify w s e
  | RouteClass.other_class => .ok s

/-! ## Notifications -/

/-- A notification delivered to the manager. A table notification carries
the attributes the entry has from then on; the two route notifications carry
the row, the second one also the arguments bound by `WalkRoutingVrf`. -/
inductive Event where
  | vn (id : VnId) (e : VnEntry)
  | vmi (id : VmiId) (e : VmInterface)
  | vrf (id : VrfId) (e : VrfEntry)
  | route (e : AgentRoute)
  | lr_evpn_walk (e : AgentRoute) (uuid : Uuid) (vn : Option VnId) (update : Bool)
      (withdraw : Bool)

/-- The tables after the change a notification reports. -/
def Event.apply (w : World) : Event → World
  | Event.vn id e => w.setVn id e
  | Event.vmi id e => w.setVmi id e
  | Event.vrf id e => w.setVrf id e
  | Event.route _ => w
  | Event.lr_evpn_walk _ _ _ _ _ => w

/-- The handler a notification runs, on the tables as they are after the
change. -/
def handle (w : World) (s : VxlanRoutingManager) : Event → Except Fault VxlanRoutingManager
  | Event.vn id _ => VnNotify w s id
  | Event.vmi id _ => VmiNotify w s id
  | Event.vrf id _ => VrfNotify w s id
  | Event.route e => RouteNotify w s e
  | Event.lr_evpn_walk e uuid vn update withdraw =>
    RouteNotifyInLrEvpnTable w s e uuid vn update withdraw

/-- Processing of a sequence of notifications, one after the other. -/
def run (w : World) (s : VxlanRoutingManager) :
    List Event → Except Fault (World × VxlanRoutingManager)
  | [] => .ok (w, s)
  | ev :: rest =>
    match handle (ev.apply w) s ev with
    | .error f => .error f
    | .ok s1 => run (ev.apply w) s1 rest

/-- Tables in which nothing is configured yet. -/
def World.init : World :=
  { vn := fun _ => ⟨false, none, false, nil_uuid, []⟩
    vrf := fun _ => ⟨false, none, true, 0⟩
    vmi := fun _ => ⟨false, none, nil_uuid, DeviceType.DEVICE_TYPE_OTHER, VmiType.VMI_TYPE_OTHER⟩
    fabric_vrf_name := 0
    fabric_policy_vrf_name := 1
    GetSubnetAddress := fun i => i.ip_prefix.bits
    GetV6SubnetAddress := fun i => i.ip_prefix.bits
    GetUcRoute := fun _ _ => none
    FindRouteUsingKey := fun _ _ _ => none
    VXLAN_ROUTING := 1
    uninitialized_is_bridge_vrf := false }

/-! ## Properties of the logical-router map -/

/-- Invariant P1: a VN in the bridge list of LR `u` is filed under `u` in
the reverse index. -/
def P1 (s : VxlanRoutingManager) : Prop :=
  ∀ u info, mapFind u s.lr_vrf_info_map_ = some info →
    ∀ vn ∈ info.bridge_vn_list_, mapFind vn s.vn_lr_set_ = some u

/-- Invariant P2 (I3): an LR entry has a routing VRF or a bridge VN. -/
def P2 (s : VxlanRoutingManager) : Prop :=
  ∀ u info, mapFind u s.lr_vrf_info_map_ = some info →
    info.routing_vrf_ ≠ none ∨ info.bridge_vn_list_ ≠ []

/-- Invariant P3 (I1): the routing VRF of an LR entry is the VRF its parent
VN has now. -/
def P3 (w : World) (s : VxlanRoutingManager) : Prop :=
  ∀ u info v, mapFind u s.lr_vrf_info_map_ = some info → info.routing_vrf_ = some v →
    ∃ p, info.parent_vn_entry_ = some p ∧ (w.vn p).GetVrf = some v

/-- The manager a run ends with, when it ends. -/
def finalState (r : Except Fault (World × VxlanRoutingManager)) : Option VxlanRoutingManager :=
  match r with
  | .ok p => some p.2
  | .error _ => none

/-- The fault a computation stops with, when it does. -/
def faultOf {α : Type} (r : Except Fault α) : Option Fault :=
  match r with
  | .ok _ => none
  | .error f => some f

/-! ## Sample tables and entries -/

/-- Sample tables: VRF `100 + n` is the VRF of VN `n`, every VRF has its EVPN
table and its own VXLAN id. -/
def World.sample : World :=
  { World.init with
    vrf := fun v => ⟨false, if 100 ≤ v then some (v - 100) else none, true, v⟩ }

/-- A live routing VN with the given VRF and LR UUID. -/
def routingVn (vrf : Option VrfId) (uuid : Uuid) : VnEntry := ⟨false, vrf, true, uuid, []⟩

/-- A live bridge VN with the given VRF and IPAM entries. -/
def bridgeVn (vrf : Option VrfId) (ipam : List VnIpam) : VnEntry :=
  ⟨false, vrf, false, nil_uuid, ipam⟩

/-- A live router port on an LR, bound to a VN. -/
def routerVmi (vn : VnId) (uuid : Uuid) : VmInterface :=
  ⟨false, some vn, uuid, DeviceType.VMI_ON_LR, VmiType.ROUTER⟩

/-- A live EVPN Type-5 row for `20/24` with a BGP path, in the given VRF. -/
def type5Row (vrf : VrfId) : AgentRoute :=
  { route_class := RouteClass.evpn, vrf := vrf, IsDeleted := false, ip_addr := ⟨true, 20⟩,
    plen := 24, GetVmIpPlen := 24, IsType5 := true, IsType2 := false, is_multicast := false,
    FindLocalVmPortPath := none, routing_path := none,
    GetActivePath := some ⟨true, PathAttrs.empty, 0, 0, 0, none⟩ }

/-- One install of the subnet-route rule of the specification: the prefix
`p` into the unicast table of `target` for the family of `p`, on the
EVPN-routing peer, with a VRF-indirection next-hop naming `rvrf` and the VXLAN
id of `rvrf`. -/
def subnetInstall (w : World) (target : VrfId) (rvrf : VrfId) (p : VnIpam) : Op :=
  Op.AddEvpnRoutingRoute target p.ip_prefix.is_v4 p.ip_prefix p.plen rvrf
    Peer.evpn_routing_peer PathAttrs.empty (NextHopReq.VrfNH rvrf) (w.vrf rvrf).vxlan_id none

/-- The installs the subnet-route rule of the specification asks for when
bridge VN `a` with VRF `a_vrf` is on an LR with the bridge VNs `bridge_vns`:
for each other bridge VN `b`, every IPAM prefix of `a` into the VRF of `b`
and every IPAM prefix of `b` into `a_vrf`. -/
def SubnetInstallSet (w : World) (a : VnId) (a_vrf : VrfId) (rvrf : VrfId)
    (bridge_vns : List VnId) : List Op :=
  (bridge_vns.filter (fun b => decide (b ≠ a))).flatMap fun b =>
    (match (w.vn b).GetVrf with
      | some bv => (w.vn a).GetVnIpam.map (subnetInstall w bv rvrf)
      | none => []) ++
    (w.vn b).GetVnIpam.map (subnetInstall w a_vrf rvrf)

/-- Notifications after which LR `5` has routing VRF `101` and holds bridge
VN `3` without a VRF: VN `3` is attached through its router port, then
notified with an LR UUID of its own and no VRF, which `BridgeVnNotify` skips;
then routing VN `1` and bridge VN `2` are notified. -/
def bridgeLosesVrf : List Event :=
  [Event.vn 3 (bridgeVn (some 103) [⟨⟨true, 11⟩, 24⟩]),
   Event.vmi 11 (routerVmi 3 5),
   Event.vn 3 ⟨false, none, false, 9, []⟩,
   Event.vn 1 (routingVn (some 101) 5),
   Event.vn 2 (bridgeVn (some 102) [⟨⟨true, 10⟩, 24⟩])]

/-- Sample tables with the two bridge VNs `2` (IPAM `10/24`) and `3` (IPAM
`11/24`). -/
def World.twoBridges : World :=
  (World.sample.setVn 2 (bridgeVn (some 102) [⟨⟨true, 10⟩, 24⟩])).setVn 3
    (bridgeVn (some 103) [⟨⟨true, 11⟩, 24⟩])

/-- A manager in which LR `5`, owned by routing VN `1` with routing VRF
`101`, holds the bridge VNs `2` and `3`. -/
def lrWithTwoBridges : VxlanRoutingManager :=
  { VxlanRoutingManager.init with
    lr_vrf_info_map_ := [(5, ⟨some 1, some 101, [2, 3]⟩)]
    vn_lr_set_ := [(1, 5), (2, 5), (3, 5)] }

/-- The manager `s2` differs from `s` in the LR map at most by default
entries filed under keys that were absent, and not at all in the reverse
index and in the VN and VMI states. -/
def LrGrows (s s2 : VxlanRoutingManager) : Prop :=
  s2.vn_lr_set_ = s.vn_lr_set_ ∧ s2.vn_state = s.vn_state ∧ s2.vmi_state = s.vmi_state ∧
    ∀ u, mapFind u s2.lr_vrf_info_map_ = mapFind u s.lr_vrf_info_map_ ∨
      (mapFind u s.lr_vrf_info_map_ = none ∧
        mapFind u s2.lr_vrf_info_map_ = some RoutedVrfInfo.init)

/-- The manager `s2` differs from `s` in the reverse index at most at `vn`,
not at all in the VN and VMI states, and every bridge list of `s2` is empty
or the bridge list `s` has under the same LR UUID. -/
def BridgeFrame (vn : VnId) (s s2 : VxlanRoutingManager) : Prop :=
  s2.vn_state = s.vn_state ∧ s2.vmi_state = s.vmi_state ∧
    (∀ v, v ≠ vn → mapFind v s2.vn_lr_set_ = mapFind v s.vn_lr_set_) ∧
    ∀ u info2, mapFind u s2.lr_vrf_info_map_ = some info2 →
      info2.bridge_vn_list_ = [] ∨
        ∃ info, mapFind u s.lr_vrf_info_map_ = some info ∧
          info2.bridge_vn_list_ = info.bridge_vn_list_

/-- A fixed classification of the VNs: `c vn` tells whether `vn` is a
routing VN. The tables follow it when the flag `vxlan_routing_vn` of every VN
is `c vn` and every routing VN has an LR UUID of its own. -/
def WorldClass (c : VnId → Bool) (w : World) : Prop :=
  ∀ vn, (w.vn vn).vxlan_routing_vn = c vn ∧
    (c vn = true → (w.vn vn).logical_router_uuid ≠ nil_uuid)

/-- A VN or VMI notification that follows the classification `c`. -/
def EventClass (c : VnId → Bool) : Event → Prop
  | Event.vn id e => e.vxlan_routing_vn = c id ∧ (c id = true → e.logical_router_uuid ≠ nil_uuid)
  | Event.vmi _ _ => True
  | Event.vrf _ _ => False
  | Event.route _ => False
  | Event.lr_evpn_walk _ _ _ _ _ => False

/-- P1 together with the fact that only bridge VNs (by the classification
`c`) are in bridge lists. -/
def LrInv (c : VnId → Bool) (s : VxlanRoutingManager) : Prop :=
  ∀ u info, mapFind u s.lr_vrf_info_map_ = some info →
    ∀ vn ∈ info.bridge_vn_list_, mapFind vn s.vn_lr_set_ = some u ∧ c vn = false

/-- The VN states are classified as `c` says. -/
def StateClass (c : VnId → Bool) (s : VxlanRoutingManager) : Prop :=
  ∀ vn st, mapFind vn s.vn_state = some st → st.is_routing_vn_ = c vn

/-- The classification of the samples: VN `1` is the routing VN. -/
def sampleClass : VnId → Bool := fun vn => decide (vn = 1)

/-- Sample tables in which VN `1` is configured as the routing VN of LR `5`. -/
def World.sampleRouting : World := World.sample.setVn 1 (routingVn (some 101) 5)

/-- The cold attach of the specification (routing VN `1`, bridge VNs `2` and
`3` with their router ports on LR `5`), then bridge VN `2` is notified with an
LR UUID of its own and the port of VN `3` loses its LR UUID. -/
def coldAttachThenDetach : List Event :=
  [Event.vn 1 (routingVn (some 101) 5),
   Event.vn 2 (bridgeVn (some 102) [⟨⟨true, 10⟩, 24⟩]),
   Event.vmi 10 (routerVmi 2 5),
   Event.vn 3 (bridgeVn (some 103) [⟨⟨true, 11⟩, 24⟩]),
   Event.vmi 11 (routerVmi 3 5),
   Event.vn 2 { bridgeVn (some 102) [⟨⟨true, 10⟩, 24⟩] with logical_router_uuid := 9 },
   Event.vmi 11 (routerVmi 3 nil_uuid)]

/-- A manager in which bridge VN `2`, with its router port `10`, is the only
bridge VN of LR `5`. -/
def lrWithOneBridge : VxlanRoutingManager :=
  { VxlanRoutingManager.init with
    lr_vrf_info_map_ := [(5, ⟨none, none, [2]⟩)]
    vn_lr_set_ := [(2, 5)]
    vn_state := [(2, ⟨[10], false, 5, some 102⟩)]
    vmi_state := [(10, ⟨some 2, 5⟩)] }

/-! ## Accessor, walk completion, walker visitor, status dump -/

/-- The accessor `VxlanRoutingVnState::logical_router_uuid()`: the LR UUID of
the first VMI of `vmi_list_`, nil for an empty list. -/
def VxlanRoutingVnState.logical_router_uuid (w : World) (st : VxlanRoutingVnState) : Uuid :=
  match st.vmi_list_ with
  | [] => nil_uuid
  | vmi :: _ => (w.vmi vmi).logical_router_uuid

/-- The test of `AddVmi` that guards its call of `BridgeVnNotify`, taken on
the VN state after the insertion of `vmi`. -/
def AddVmi_notifies (w : World) (vmi : VmiId) (st : VxlanRoutingVnState) : Bool :=
  decide (st.logical_router_uuid_ ≠ (w.vmi vmi).logical_router_uuid ∧
    st.vmi_list_.head? = some vmi)

/-- The method `RouteWalkDone`; `table` is the answer of `walk_ref->table()`. -/
def RouteWalkDone (s : VxlanRoutingManager) (table : VrfId) :
    Except Fault VxlanRoutingManager :=
  match mapFind table s.evpn_table_walker_ with
  | none => .error Fault.assert_fail
  | some _ => .ok { s with evpn_table_walker_ := mapErase table s.evpn_table_walker_ }

/-- The visitor `VxlanRoutingRouteWalker::RouteWalkNotify`. -/
def RouteWalkNotify (w : World) (s : VxlanRoutingManager) (e : AgentRoute) :
    Except Fault VxlanRoutingManager :=
  if e.route_class ≠ RouteClass.evpn then .ok s
  else
    match (w.vrf e.vrf).vn with
    | none => .ok s
    | some x =>
      if e.IsType5 && (w.vn x).vxlan_routing_vn && !IsHostRoute e then .ok s
      else if !e.IsType2 && !(w.vn x).vxlan_routing_vn then .ok s
      else if !(w.vn x).vxlan_routing_vn then EvpnType2RouteNotify w s e
      else .ok s

/-- One item `VxlanRoutingBridgeVrf` of the status dump; `bridge_vrf` stays
unset when the bridge VN has no VRF. -/
structure VxlanRoutingBridgeVrf where
  bridge_vrf : Option VrfId
  bridge_vn : VnId
deriving DecidableEq, Repr

/-- One record `VxlanRoutingMap` of the status dump. Names of VRFs and VNs
and the UUID string are given by the identities. -/
structure VxlanRoutingMap where
  logical_router_uuid : Uuid
  routing_vrf : VrfId
  parent_routing_vn : VnId
  bridge_vrfs : List VxlanRoutingBridgeVrf
deriving DecidableEq, Repr

/-- One turn of the outer loop of `FillSandeshInfo`: `routing_vrf_` and
`parent_vn_entry_` are dereferenced without a test, the VRF of a bridge VN
after one. -/
def FillSandeshInfo_record (w : World) (uuid : Uuid) (info : RoutedVrfInfo) :
    Except Fault VxlanRoutingMap :=
  match info.routing_vrf_ with
  | none => .error Fault.null_deref
  | some rv =>
    match info.parent_vn_entry_ with
    | none => .error Fault.null_deref
    | some p =>
      .ok ⟨uuid, rv, p, info.bridge_vn_list_.map fun b => ⟨(w.vn b).GetVrf, b⟩⟩

/-- The outer loop of `FillSandeshInfo` over `lr_vrf_info_map_`. -/
def FillSandeshInfo_loop (w : World) :
    List (Uuid × RoutedVrfInfo) → Except Fault (List VxlanRoutingMap)
  | [] => .ok []
  | (uuid, info) :: rest =>
    match FillSandeshInfo_record w uuid info with
    | .error f => .error f
    | .ok r =>
      match FillSandeshInfo_loop w rest with
      | .error f => .error f
      | .ok rs => .ok (r :: rs)

/-- The method `FillSandeshInfo`: the vector handed to `set_vr_map`. -/
def FillSandeshInfo (w : World) (s : VxlanRoutingManager) :
    Except Fault (List VxlanRoutingMap) :=
  FillSandeshInfo_loop w s.lr_vrf_info_map_

/-- The decision flags `(withdraw, update)` of `BridgeVnNotify` in the words
of the specification: `withdraw` when the VN is deleted, or has no VRF, or
`new` is nil, or `cur` exists and differs from `new`; `update` when not
`withdraw` and `new` is not nil. -/
def BridgeVnNotify_flags_as_specified (w : World) (vn : VnId) (cur : Option Uuid)
    (new : Uuid) : Bool × Bool :=
  let withdraw : Bool :=
    (w.vn vn).IsDeleted || (w.vn vn).GetVrf.isNone || (new == nil_uuid) ||
      (match cur with
        | some c => c != new
        | none => false)
  (withdraw, !withdraw && (new != nil_uuid))

/-- Notifications after which LR `5`, owned by routing VN `1` with routing
VRF `101`, holds bridge VN `2` (VRF `102`) through its router port `10`. -/
def attachOneBridge : List Event :=
  [Event.vn 1 (routingVn (some 101) 5),
   Event.vn 2 (bridgeVn (some 102) [⟨⟨true, 10⟩, 24⟩]),
   Event.vmi 10 (routerVmi 2 5)]

/-- A path of the local-VM-port peer whose next-hop is an interface
next-hop on the given VMI. -/
def localVmPortPath (vmi : VmiId) : AgentPath := ⟨false, ⟨[1], [2], 3, 4, [5], [6]⟩, 0, 7, 8, some vmi⟩

/-- A live EVPN Type-2 row for the host address `7/32` in the given VRF,
with a BGP path as active path and the given local-VM-port path. -/
def type2Row (vrf : VrfId) (local_path : Option AgentPath) : AgentRoute :=
  { route_class := RouteClass.evpn, vrf := vrf, IsDeleted := false, ip_addr := ⟨true, 7⟩,
    plen := 32, GetVmIpPlen := 32, IsType5 := false, IsType2 := true, is_multicast := false,
    FindLocalVmPortPath := local_path, routing_path := none,
    GetActivePath := some ⟨true, PathAttrs.empty, 0, 0, 0, none⟩ }

/-- An IP-unicast row for the host address `7/32` in the given VRF, with a
path of the EVPN-routing peer that names `routing_vrf`, and the given
local-VM-port path. -/
def inetRow (vrf : VrfId) (routing_vrf : Option VrfId) (local_path : Option AgentPath) :
    AgentRoute :=
  { route_class := RouteClass.inet_unicast, vrf := vrf, IsDeleted := false,
    ip_addr := ⟨true, 7⟩, plen := 32, GetVmIpPlen := 32, IsType5 := false, IsType2 := false,
    is_multicast := false, FindLocalVmPortPath := local_path,
    routing_path := some routing_vrf, GetActivePath := local_path }

/-! ## Requests by kind; calls of the bridge-table walk -/

/-- The peer rule on a request: `AddEvpnRoutingRoute` and `Delete` on a
unicast table name the EVPN-routing peer, `AddType5Route` names the
local-VM-export peer and goes to the EVPN table of the routing VRF it
carries. Requests that name no peer pass. -/
def Op.peerScoped : Op → Bool
  | Op.AddEvpnRoutingRoute _ _ _ _ _ peer _ _ _ _ => decide (peer = Peer.evpn_routing_peer)
  | Op.Delete _ _ peer _ _ _ _ => decide (peer = Peer.evpn_routing_peer)
  | Op.AddType5Route table_vrf peer _ _ _ _ _ routing_vrf _ =>
    decide (peer = Peer.local_vm_export_peer ∧ table_vrf = routing_vrf)
  | _ => true

/-- The requests of the subnet-route functions: `AddEvpnRoutingRoute` and
`Delete` on the EVPN-routing peer, and `set_lr_vrf`. -/
def Op.isSubnetOp : Op → Bool
  | Op.AddEvpnRoutingRoute _ _ _ _ _ peer _ _ _ _ => decide (peer = Peer.evpn_routing_peer)
  | Op.Delete _ _ peer _ _ _ _ => decide (peer = Peer.evpn_routing_peer)
  | Op.set_lr_vrf _ _ => true
  | _ => false

/-- The manager `s2` has the request log of `s` followed by requests that
all satisfy `P`. -/
def OpsAdded (P : Op → Prop) (s s2 : VxlanRoutingManager) : Prop :=
  ∃ new, s2.ops = s.ops ++ new ∧ ∀ op ∈ new, P op

/-- The manager `s2` has the walker map and the walker counter of `s`, and
its request log followed by subnet-route requests. -/
def SubnetStep (s s2 : VxlanRoutingManager) : Prop :=
  s2.evpn_table_walker_ = s.evpn_table_walker_ ∧ s2.walk_ref_seq = s.walk_ref_seq ∧
    OpsAdded (fun op => op.isSubnetOp = true) s s2

/-- A call of `WalkEvpnTable` for a bridge EVPN table, or of `RouteWalkDone`
with a walker of that table. -/
inductive WalkCall where
  | schedule (table : VrfId)
  | done (table : VrfId)
deriving DecidableEq, Repr

def walkCall (w : World) (s : VxlanRoutingManager) : WalkCall → Except Fault VxlanRoutingManager
  | WalkCall.schedule table => WalkEvpnTable w s table
  | WalkCall.done table => RouteWalkDone s table

/-- A sequence of calls, one after the other. -/
def walkCalls (w : World) (s : VxlanRoutingManager) :
    List WalkCall → Except Fault VxlanRoutingManager
  | [] => .ok s
  | c :: rest =>
    match walkCall w s c with
    | .error f => .error f
    | .ok s1 => walkCalls w s1 rest

/-- The tables that have a walker in `evpn_table_walker_`. -/
def walkerTables (s : VxlanRoutingManager) : List VrfId := s.evpn_table_walker_.map Prod.fst

/-- The tables with a scheduled walk that has not completed, after one call. -/
def pendingStep (pending : List VrfId) : WalkCall → List VrfId
  | WalkCall.schedule table => if table ∈ pending then pending else table :: pending
  | WalkCall.done table => pending.filter (fun t => decide (t ≠ table))

/-- The tables with a scheduled walk that has not completed, after the calls. -/
def pendingAfter (pending : List VrfId) : List WalkCall → List VrfId
  | [] => pending
  | c :: rest => pendingAfter (pendingStep pending c) rest

/-- Every completion in the sequence follows a schedule for the same table
that has not completed yet; `pending` are the tables scheduled before. -/
def CompletionsFollowSchedules (pending : List VrfId) : List WalkCall → Prop
  | [] => True
  | WalkCall.schedule table :: rest =>
    CompletionsFollowSchedules (pendingStep pending (WalkCall.schedule table)) rest
  | WalkCall.done table :: rest =>
    table ∈ pending ∧ CompletionsFollowSchedules (pendingStep pending (WalkCall.done table)) rest

/-- Every bridge VN recorded in an LR has a VRF. -/
def AllBridgesHaveVrf (w : World) (s : VxlanRoutingManager) : Prop :=
  ∀ u info, mapFind u s.lr_vrf_info_map_ = some info →
    ∀ b ∈ info.bridge_vn_list_, (w.vn b).GetVrf ≠ none

/-- The manager `s2` has the request log of `s` followed by requests that
all follow the peer rule. -/
def OpsScoped (s s2 : VxlanRoutingManager) : Prop :=
  OpsAdded (fun op => op.peerScoped = true) s s2

end VxlanRouting

namespace VxlanRouting

/-! ## Containers -/

theorem mapFind_mapErase_self {α : Type} (k : Nat) (m : List (Nat × α)) :
    mapFind k (mapErase k m) = none := by
  induction m with
  | nil => rfl
  | cons p m ih =>
    obtain ⟨k1, v⟩ := p
    by_cases h : k1 = k <;> simp [mapErase, mapFind, h, ih]

theorem mapFind_mapErase_ne {α : Type} {k k2 : Nat} (h : k2 ≠ k) (m : List (Nat × α)) :
    mapFind k2 (mapErase k m) = mapFind k2 m := by
  induction m with
  | nil => rfl
  | cons p m ih =>
    obtain ⟨k1, v⟩ := p
    by_cases h1 : k1 = k
    · subst h1
      simp [mapErase, mapFind, Ne.symm h, ih]
    · by_cases h2 : k1 = k2
      · subst h2
        simp [mapErase, mapFind, h1]
      · simp [mapErase, mapFind, h1, h2, ih]

theorem mapFind_mapInsert_self {α : Type} (k : Nat) (v : α) (m : List (Nat × α)) :
    mapFind k (mapInsert k v m) = some v := by
  induction m with
  | nil => simp [mapInsert, mapFind]
  | cons p m ih =>
    obtain ⟨k1, v1⟩ := p
    unfold mapInsert
    split
    · simp [mapFind]
    · split
      · simp [mapFind]
      · rename_i h1 h2
        have : k1 ≠ k := fun e => h2 e.symm
        simp [mapFind, this, ih]

theorem mapFind_mapInsert_ne {α : Type} {k k2 : Nat} (h : k2 ≠ k) (v : α) (m : List (Nat × α)) :
    mapFind k2 (mapInsert k v m) = mapFind k2 m := by
  induction m with
  | nil => simp [mapInsert, mapFind]; exact fun e => h e.symm
  | cons p m ih =>
    obtain ⟨k1, v1⟩ := p
    unfold mapInsert
    split
    · simp [mapFind]; intro e; exact absurd e.symm h
    · split
      · rename_i h1 h2
        subst h2
        simp [mapFind, Ne.symm h]
      · by_cases h3 : k1 = k2 <;> simp [mapFind, h3, ih]

theorem mapFind_mapSet_ne {α : Type} {k k2 : Nat} (h : k2 ≠ k) (v : α) (m : List (Nat × α)) :
    mapFind k2 (mapSet k v m) = mapFind k2 m := by
  induction m with
  | nil => rfl
  | cons p m ih =>
    obtain ⟨k1, v1⟩ := p
    by_cases h1 : k1 = k
    · subst h1
      simp [mapSet, mapFind, Ne.symm h]
    · by_cases h2 : k1 = k2
      · subst h2
        simp [mapSet, mapFind, h1]
      · simp [mapSet, mapFind, h1, h2, ih]

theorem mapFind_mapSet_self {α : Type} (k : Nat) (v : α) (m : List (Nat × α)) :
    mapFind k (mapSet k v m) = (mapFind k m).map (fun _ => v) := by
  induction m with
  | nil => rfl
  | cons p m ih =>
    obtain ⟨k1, v1⟩ := p
    by_cases h1 : k1 = k <;> simp [mapSet, mapFind, h1, ih]

theorem mapSet_of_mapFind {α : Type} {k : Nat} {v : α} {m : List (Nat × α)}
    (h : mapFind k m = some v) : mapSet k v m = m := by
  induction m with
  | nil => rfl
  | cons p m ih =>
    obtain ⟨k1, v1⟩ := p
    by_cases h1 : k1 = k
    · simp [mapFind, h1] at h
      simp [mapSet, h1, h]
    · simp [mapFind, h1] at h
      simp [mapSet, h1, ih h]

theorem mapSet_mapSet {α : Type} (k : Nat) (v v2 : α) (m : List (Nat × α)) :
    mapSet k v2 (mapSet k v m) = mapSet k v2 m := by
  induction m with
  | nil => rfl
  | cons p m ih =>
    obtain ⟨k1, v1⟩ := p
    by_cases h1 : k1 = k <;> simp [mapSet, h1, ih]

theorem mapErase_of_mapFind_none {α : Type} {k : Nat} {m : List (Nat × α)}
    (h : mapFind k m = none) : mapErase k m = m := by
  induction m with
  | nil => rfl
  | cons p m ih =>
    obtain ⟨k1, v1⟩ := p
    by_cases h1 : k1 = k
    · simp [mapFind, h1] at h
    · simp [mapFind, h1] at h
      simp [mapErase, h1, ih h]

theorem mapErase_mapInsert {α : Type} {k : Nat} (v : α) {m : List (Nat × α)}
    (h : mapFind k m = none) : mapErase k (mapInsert k v m) = m := by
  induction m with
  | nil => simp [mapInsert, mapErase]
  | cons p m ih =>
    obtain ⟨k1, v1⟩ := p
    have h1 : k1 ≠ k := by
      intro e; simp [mapFind, e] at h
    have h2 : mapFind k m = none := by simpa [mapFind, h1] using h
    unfold mapInsert
    split
    · simp [mapErase, h1, mapErase_of_mapFind_none h2]
    · split
      · rename_i e; exact absurd e.symm h1
      · simp [mapErase, h1, ih h2]

theorem mapSet_mapInsert {α : Type} (k : Nat) (v v2 : α) {m : List (Nat × α)}
    (h : mapFind k m = none) : mapSet k v2 (mapInsert k v m) = mapInsert k v2 m := by
  induction m with
  | nil => simp [mapInsert, mapSet]
  | cons p m ih =>
    obtain ⟨k1, v1⟩ := p
    have h1 : k1 ≠ k := by
      intro e; simp [mapFind, e] at h
    have h2 : mapFind k m = none := by simpa [mapFind, h1] using h
    unfold mapInsert
    split
    · simp [mapSet]
    · split
      · rename_i e; exact absurd e.symm h1
      · simp [mapSet, h1, ih h2]

theorem mem_setInsert {x y : Nat} {l : List Nat} : y ∈ setInsert x l ↔ y = x ∨ y ∈ l := by
  induction l with
  | nil => simp [setInsert]
  | cons z l ih =>
    unfold setInsert
    split
    · simp
    · split
      · rename_i h1 h2
        subst h2
        simp
      · simp [ih]
        tauto

theorem mem_setErase {x y : Nat} {l : List Nat} : y ∈ setErase x l ↔ y ∈ l ∧ y ≠ x := by
  simp [setErase]

theorem setErase_of_not_mem {x : Nat} {l : List Nat} (h : x ∉ l) : setErase x l = l := by
  unfold setErase
  rw [List.filter_eq_self]
  intro a ha
  simp only [ne_eq, decide_not, Bool.not_eq_true', decide_eq_false_iff_not]
  intro e
  exact h (e ▸ ha)

theorem setErase_cons_ne {x z : Nat} {l : List Nat} (h : z ≠ x) :
    setErase x (z :: l) = z :: setErase x l := by
  simp [setErase, h]

theorem setErase_cons_self {x : Nat} {l : List Nat} :
    setErase x (x :: l) = setErase x l := by
  simp [setErase]

theorem setErase_setInsert {x : Nat} {l : List Nat} (h : x ∉ l) :
    setErase x (setInsert x l) = l := by
  induction l with
  | nil => simp [setInsert, setErase]
  | cons z l ih =>
    have hz : z ≠ x := fun e => h (by simp [e])
    have hl : x ∉ l := fun e => h (by simp [e])
    unfold setInsert
    split
    · rw [setErase_cons_self, setErase_of_not_mem h]
    · split
      · rename_i e; exact absurd e.symm hz
      · rw [setErase_cons_ne hz, ih hl]

/-! ## Invariants P2 and P3 under route and VN notifications -/

/-- C1 (failing input): routing VN `1` of LR `5` is notified and then
deleted, which empties the LR map; a Type-5 row of its VRF `101` is notified
afterwards. `RouteNotifyInLrEvpnTable` reads `lr_vrf_info_map_[uuid]` and so
files a default entry under `5`: the run ends with an LR entry that has
neither a routing VRF nor a bridge VN, and P2 does not hold. -/
theorem C1_type5_notify_files_empty_lr :
    ∃ w s, run World.sample VxlanRoutingManager.init
        [Event.vn 1 (routingVn (some 101) 5),
         Event.vn 1 { routingVn (some 101) 5 with IsDeleted := true },
         Event.route (type5Row 101)] = .ok (w, s) ∧
      s.lr_vrf_info_map_ = [(5, ⟨none, none, []⟩)] ∧ ¬ P2 s := by
  refine ⟨_, _, rfl, rfl, ?_⟩
  intro h
  have h5 := h 5 ⟨none, none, []⟩ rfl
  simp at h5

/-- C3 (failing input): routing VN `1` with VRF `101` is notified with LR
UUID `5`, then `6`, then with UUID `7` and VRF `102`. After the first change
the reverse index has lost the VN, so the second change withdraws nothing: LR
`6` keeps parent VN `1` and routing VRF `101` while the VRF of VN `1` is
`102`, and P3 does not hold. -/
theorem C3_uuid_changes_leave_stale_routing_vrf :
    ∃ w s, run World.sample VxlanRoutingManager.init
        [Event.vn 1 (routingVn (some 101) 5),
         Event.vn 1 (routingVn (some 101) 6),
         Event.vn 1 (routingVn (some 102) 7)] = .ok (w, s) ∧
      mapFind 6 s.lr_vrf_info_map_ = some ⟨some 1, some 101, []⟩ ∧
      (w.vn 1).GetVrf = some 102 ∧ ¬ P3 w s := by
  refine ⟨_, _, rfl, rfl, rfl, ?_⟩
  intro h
  obtain ⟨p, hp, hv⟩ := h 6 ⟨some 1, some 101, []⟩ 101 rfl rfl
  simp at hp
  subst hp
  revert hv
  decide

/-- C8 (failing input): routing VN `1` is notified with LR UUID `5`, then
with `6`, then deleted; no other VN or VMI exists. The delete finds no
reverse-index entry and withdraws nothing: LR `6` still has parent VN `1` and
its VRF `101`, and the LR map is not empty although every VN state is freed. -/
theorem C8_delete_after_uuid_change_keeps_lr :
    ∃ w s, run World.sample VxlanRoutingManager.init
        [Event.vn 1 (routingVn (some 101) 5),
         Event.vn 1 (routingVn (some 101) 6),
         Event.vn 1 { routingVn (some 101) 6 with IsDeleted := true }] = .ok (w, s) ∧
      s.lr_vrf_info_map_ = [(6, ⟨some 1, some 101, []⟩)] ∧ s.vn_lr_set_ = [] ∧
      s.vn_state = [] :=
  ⟨_, _, rfl, rfl, rfl, rfl⟩

/-! ## The ownership guard of `RoutingVnNotify` -/

/-- C4: when LR `U` has parent VN `R2` and routing VRF `V2`, and another
routing VN `R` is filed under `U` in the reverse index, `RoutingVnNotify` for
`R` deleted or without a VRF returns the same manager except that `R` is
erased from the reverse index: the LR map (so the parent, routing VRF and
bridge list of `U`) and the log of requests (so no walk) are unchanged. -/
theorem C4_withdraw_by_non_owner_keeps_lr (w : World) (s : VxlanRoutingManager) (R : VnId)
    (vn_state : VxlanRoutingVnState) (U : Uuid) (info : RoutedVrfInfo) (R2 : VnId) (V2 : VrfId)
    (hrev : mapFind R s.vn_lr_set_ = some U)
    (hlr : mapFind U s.lr_vrf_info_map_ = some info)
    (hpar : info.parent_vn_entry_ = some R2) (hne : R2 ≠ R)
    (hvrf : info.routing_vrf_ = some V2)
    (hwd : (w.vn R).IsDeleted = true ∨ (w.vn R).GetVrf = none) :
    RoutingVnNotify w s R vn_state =
      .ok { s with vn_lr_set_ := mapErase R s.vn_lr_set_ } := by
  have hgone : ((w.vn R).IsDeleted || (w.vn R).GetVrf.isNone ||
      (vn_state.is_routing_vn_ == false)) = true := by
    rcases hwd with h | h <;> simp [h]
  have hp : ¬ (info.parent_vn_entry_ = some R) := by
    rw [hpar]; intro e; exact hne (Option.some.inj e)
  have htry : TryDeleteLogicalRouter s U = s := by
    simp [TryDeleteLogicalRouter, hlr, hvrf]
  simp only [RoutingVnNotify, hrev, hgone, Bool.true_or, Bool.not_true, if_true,
    RoutingVnNotify_withdraw, hlr, hp, if_false, htry]
  simp

/-- C4 at a concrete input: LR `5` is owned by VN `2`; the delete of VN `1`
only erases VN `1` from the reverse index. -/
theorem C4_withdraw_by_non_owner_keeps_lr_witness :
    RoutingVnNotify (World.sample.setVn 1 { routingVn (some 101) 5 with IsDeleted := true })
      { VxlanRoutingManager.init with
        lr_vrf_info_map_ := [(5, ⟨some 2, some 102, [3]⟩)]
        vn_lr_set_ := [(1, 5), (2, 5), (3, 5)] } 1 ⟨[], true, 5, some 101⟩ =
      .ok { VxlanRoutingManager.init with
        lr_vrf_info_map_ := [(5, ⟨some 2, some 102, [3]⟩)]
        vn_lr_set_ := [(2, 5), (3, 5)] } :=
  C4_withdraw_by_non_owner_keeps_lr _ _ 1 _ 5 ⟨some 2, some 102, [3]⟩ 2 102 (by decide)
    (by decide) rfl (by decide) rfl (Or.inl rfl)

/-! ## Attach of a bridge VN next to a bridge VN without a VRF -/

/-- C5 (failing input): after `bridgeLosesVrf` the LR map satisfies P2 and
the live bridge VN `2` (VRF `102`, no LR UUID of its own) is in no bridge
list and not in the reverse index. `BridgeVnNotify` for VN `2` with derived
LR UUID `5` stops in `UpdateSubnetRoute` on the null VRF of bridge VN `3`. -/
theorem C5_attach_faults_next_to_bridge_without_vrf :
    ∃ w s, run World.sample VxlanRoutingManager.init bridgeLosesVrf = .ok (w, s) ∧
      P2 s ∧ mapFind 2 s.vn_lr_set_ = none ∧
      (∀ u info, mapFind u s.lr_vrf_info_map_ = some info → 2 ∉ info.bridge_vn_list_) ∧
      (w.vn 2).IsDeleted = false ∧ (w.vn 2).GetVrf = some 102 ∧
      (w.vn 2).logical_router_uuid = nil_uuid ∧
      (UpdateLogicalRouterUuid (w.setVmi 10 (routerVmi 2 5))
        ⟨[10], false, nil_uuid, some 102⟩).logical_router_uuid_ = 5 ∧
      BridgeVnNotify (w.setVmi 10 (routerVmi 2 5)) s 2 ⟨[10], false, nil_uuid, some 102⟩ =
        .error Fault.null_deref := by
  refine ⟨_, _, rfl, ?_, rfl, ?_, rfl, rfl, rfl, rfl, rfl⟩
  · intro u info h
    change mapFind u [(5, (⟨some 1, some 101, [3]⟩ : RoutedVrfInfo))] = some info at h
    by_cases hu : 5 = u
    · subst hu
      simp only [mapFind, if_true, Option.some.injEq] at h
      subst h
      simp
    · simp [mapFind, hu] at h
  · intro u info h
    change mapFind u [(5, (⟨some 1, some 101, [3]⟩ : RoutedVrfInfo))] = some info at h
    by_cases hu : 5 = u
    · subst hu
      simp only [mapFind, if_true, Option.some.injEq] at h
      subst h
      simp
    · simp [mapFind, hu] at h

/-- C6 (failing input): after `bridgeLosesVrf` routing VN `1` owns LR `5`
with routing VRF `101`, and the live bridge VN `2` has a VRF, no LR UUID of
its own and an empty `vmi_list_`. `VmiNotify` for a live router port on LR
`5` bound to VN `2` stops in `UpdateSubnetRoute` on the null VRF of bridge VN
`3`. -/
theorem C6_vmi_attach_faults_next_to_bridge_without_vrf :
    ∃ w s, run World.sample VxlanRoutingManager.init bridgeLosesVrf = .ok (w, s) ∧
      mapFind 5 s.lr_vrf_info_map_ = some ⟨some 1, some 101, [3]⟩ ∧
      mapFind 2 s.vn_state = some ⟨[], false, nil_uuid, some 102⟩ ∧
      w.vn 2 = bridgeVn (some 102) [⟨⟨true, 10⟩, 24⟩] ∧
      VmiNotify (w.setVmi 10 (routerVmi 2 5)) s 10 = .error Fault.null_deref :=
  ⟨_, _, rfl, rfl, rfl, rfl, rfl⟩

/-! ## Subnet routes -/

theorem UpdateSubnetRoute_ipams_eq (w : World) (t r : VrfId) (l : List VnIpam) :
    UpdateSubnetRoute_ipams w t r l = l.map (subnetInstall w t r) := by
  induction l with
  | nil => rfl
  | cons i l ih =>
    unfold UpdateSubnetRoute_ipams at ih ⊢
    simp only [List.flatMap_cons, List.map_cons, ih]
    cases h : i.ip_prefix.is_v4 <;>
      simp [VnIpam.IsV4, VnIpam.IsV6, IpAddress.is_v6, subnetInstall, h]

theorem UpdateSubnetRoute_loop_eq (w : World) (bridge_vrf : VrfId) (a : VnId) (rvrf : VrfId)
    (ipam : List VnIpam) (hip : ipam = (w.vn a).GetVnIpam) (l : List VnId)
    (hv : ∀ b ∈ l, b ≠ a → (w.vn b).GetVrf ≠ none) :
    UpdateSubnetRoute_loop w bridge_vrf a rvrf ipam l =
      .ok (SubnetInstallSet w a bridge_vrf rvrf l) := by
  induction l with
  | nil => rfl
  | cons b l ih =>
    have ih2 := ih (fun x hx => hv x (List.mem_cons_of_mem _ hx))
    unfold UpdateSubnetRoute_loop
    rw [ih2]
    by_cases hba : a = b
    · subst hba
      simp [UpdateSubnetRoute_body, SubnetInstallSet]
    · have hba2 : b ≠ a := fun e => hba e.symm
      have hvb := hv b (List.mem_cons_self _ _) hba2
      obtain ⟨bv, hbv⟩ := Option.ne_none_iff_exists'.mp hvb
      simp only [UpdateSubnetRoute_body, hba, if_false, hbv, UpdateSubnetRoute_ipams_eq]
      simp only [SubnetInstallSet, List.filter_cons, hba2, ne_eq, not_false_eq_true,
        decide_True, if_true, List.flatMap_cons, hbv, hip]
      by_cases hl : (w.vn b).GetVnIpam.length = 0
      · have : (w.vn b).GetVnIpam = [] := List.length_eq_zero.mp hl
        simp [this]
      · simp [hl]

/-- C9 (as stated, false): bridge VN `2` has no IPAM entry of its own and
bridge VN `3` on the same LR has the prefix `11/24`. `UpdateSubnetRoute` for
the VRF of VN `2` returns at its test of `bridge_vn_ipam.size()` and issues
nothing, while the rule asks for `11/24` in the table of VRF `102`. -/
theorem C9_no_install_without_own_ipam :
    UpdateSubnetRoute (World.twoBridges.setVn 2 (bridgeVn (some 102) [])) lrWithTwoBridges
        102 101 = .ok lrWithTwoBridges ∧
      SubnetInstallSet (World.twoBridges.setVn 2 (bridgeVn (some 102) [])) 2 102 101 [2, 3] =
        [Op.AddEvpnRoutingRoute 102 true ⟨true, 11⟩ 24 101 Peer.evpn_routing_peer
          PathAttrs.empty (NextHopReq.VrfNH 101) 101 none] :=
  ⟨rfl, rfl⟩

/-- C9 (amended): when VN `a` of `bridge_vrf` is filed under LR `u`, the
bridge list of `u` is not empty, `a` has at least one IPAM entry and every
other bridge VN of `u` has a VRF, `UpdateSubnetRoute` issues exactly the
requests of `SubnetInstallSet`, in the order of the bridge list, and leaves
the rest of the manager as it was: the IPAM entries of `a` go to the VRFs of
the other bridge VNs, those of the other bridge VNs to `bridge_vrf`. -/
theorem C9_update_subnet_route_installs (w : World) (s : VxlanRoutingManager) (bridge_vrf rvrf : VrfId) (a : VnId)
    (u : Uuid) (info : RoutedVrfInfo)
    (hvn : (w.vrf bridge_vrf).vn = some a)
    (hrev : mapFind a s.vn_lr_set_ = some u) (hu : u ≠ nil_uuid)
    (hlr : mapFind u s.lr_vrf_info_map_ = some info)
    (hne : info.bridge_vn_list_ ≠ [])
    (hipam : (w.vn a).GetVnIpam ≠ [])
    (hv : ∀ b ∈ info.bridge_vn_list_, b ≠ a → (w.vn b).GetVrf ≠ none) :
    UpdateSubnetRoute w s bridge_vrf rvrf =
      .ok { s with ops := s.ops ++ SubnetInstallSet w a bridge_vrf rvrf info.bridge_vn_list_ } := by
  have h1 : ¬ (w.vn a).GetVnIpam.length = 0 := fun e => hipam (List.length_eq_zero.mp e)
  have h2 : ¬ info.bridge_vn_list_.length = 0 := fun e => hne (List.length_eq_zero.mp e)
  simp only [UpdateSubnetRoute, hvn, h1, if_false, hrev, hu, lrIndex, hlr, h2,
    UpdateSubnetRoute_loop_eq w bridge_vrf a rvrf _ rfl _ hv]

/-- C9 (amended) at a concrete input: two bridge VNs with one prefix each. -/
theorem C9_update_subnet_route_installs_witness :
    UpdateSubnetRoute World.twoBridges lrWithTwoBridges 102 101 =
      .ok { lrWithTwoBridges with
            ops := [subnetInstall World.twoBridges 103 101 ⟨⟨true, 10⟩, 24⟩,
              subnetInstall World.twoBridges 102 101 ⟨⟨true, 11⟩, 24⟩] } :=
  C9_update_subnet_route_installs World.twoBridges lrWithTwoBridges 102 101 2 5
    ⟨some 1, some 101, [2, 3]⟩ rfl rfl (by decide) rfl (by decide) (by decide) (by decide)

theorem LrGrows.grows_refl (s : VxlanRoutingManager) : LrGrows s s :=
  ⟨rfl, rfl, rfl, fun _ => Or.inl rfl⟩

theorem LrGrows.grows_trans {s s2 s3 : VxlanRoutingManager} (h1 : LrGrows s s2) (h2 : LrGrows s2 s3) :
    LrGrows s s3 := by
  obtain ⟨a1, b1, c1, d1⟩ := h1
  obtain ⟨a2, b2, c2, d2⟩ := h2
  refine ⟨a2.trans a1, b2.trans b1, c2.trans c1, fun u => ?_⟩
  rcases d2 u with e2 | ⟨n2, i2⟩
  · rcases d1 u with e1 | ⟨n1, i1⟩
    · exact Or.inl (e2.trans e1)
    · exact Or.inr ⟨n1, e2.trans i1⟩
  · rcases d1 u with e1 | ⟨n1, i1⟩
    · exact Or.inr ⟨e1 ▸ n2, i2⟩
    · rw [i1] at n2; exact absurd n2 (by simp)

theorem lrIndex_grows (m : List (Uuid × RoutedVrfInfo)) (u k : Uuid) :
    mapFind k (lrIndex m u).1 = mapFind k m ∨
      (mapFind k m = none ∧ mapFind k (lrIndex m u).1 = some RoutedVrfInfo.init) := by
  unfold lrIndex
  cases h : mapFind u m with
  | some info => exact Or.inl rfl
  | none =>
    by_cases hk : k = u
    · subst hk
      exact Or.inr ⟨h, mapFind_mapInsert_self _ _ _⟩
    · exact Or.inl (mapFind_mapInsert_ne hk _ _)

theorem lrIndex_find (m : List (Uuid × RoutedVrfInfo)) (u : Uuid) :
    mapFind u (lrIndex m u).1 = some (lrIndex m u).2 := by
  unfold lrIndex
  cases h : mapFind u m with
  | some info => exact h
  | none => exact mapFind_mapInsert_self _ _ _

theorem lrIndex_snd (m : List (Uuid × RoutedVrfInfo)) (u : Uuid) :
    (lrIndex m u).2 = (mapFind u m).getD RoutedVrfInfo.init := by
  unfold lrIndex
  cases h : mapFind u m <;> rfl

theorem lrIndex_of_find {m : List (Uuid × RoutedVrfInfo)} {u : Uuid} {info : RoutedVrfInfo}
    (h : mapFind u m = some info) : lrIndex m u = (m, info) := by
  simp [lrIndex, h]

theorem LrGrows.grows_of_lrIndex (s : VxlanRoutingManager) (u : Uuid) (ops : List Op) :
    LrGrows s { s with lr_vrf_info_map_ := (lrIndex s.lr_vrf_info_map_ u).1, ops := ops } :=
  ⟨rfl, rfl, rfl, fun _ => lrIndex_grows _ _ _⟩

theorem LrGrows.grows_of_ops (s : VxlanRoutingManager) (ops : List Op) :
    LrGrows s { s with ops := ops } :=
  ⟨rfl, rfl, rfl, fun _ => Or.inl rfl⟩

theorem DeleteSubnetRoute_grows (w : World) (s : VxlanRoutingManager) (vrf : Option VrfId)
    (ipam : Option VnIpam) : LrGrows s (DeleteSubnetRoute w s vrf ipam) := by
  unfold DeleteSubnetRoute
  repeat' (first | split | dsimp only)
  all_goals first
    | exact LrGrows.grows_refl s
    | exact LrGrows.grows_of_lrIndex s _ _

theorem UpdateSubnetRoute_grows {w : World} {s s2 : VxlanRoutingManager} {b r : VrfId}
    (h : UpdateSubnetRoute w s b r = .ok s2) : LrGrows s s2 := by
  unfold UpdateSubnetRoute at h
  dsimp only at h
  repeat' split at h
  all_goals cases h
  all_goals first
    | exact LrGrows.grows_refl s
    | exact LrGrows.grows_of_lrIndex s _ _

theorem HandleSubnetRoute_grows {w : World} {s s2 : VxlanRoutingManager} {vrf : VrfId}
    {bridge_vrf : Bool} (h : HandleSubnetRoute w s vrf bridge_vrf = .ok s2) : LrGrows s s2 := by
  unfold HandleSubnetRoute at h
  dsimp only at h
  repeat' split at h
  all_goals cases h
  all_goals first
    | exact LrGrows.grows_refl s
    | exact DeleteSubnetRoute_grows _ _ _ _
    | exact (DeleteSubnetRoute_grows _ _ _ _).grows_trans (LrGrows.grows_of_ops _ _)
    | exact (UpdateSubnetRoute_grows (by assumption)).grows_trans (LrGrows.grows_of_ops _ _)

theorem WalkEvpnTable_grows {w : World} {s s2 : VxlanRoutingManager} {table : VrfId}
    (h : WalkEvpnTable w s table = .ok s2) : LrGrows s s2 := by
  unfold WalkEvpnTable at h
  refine LrGrows.grows_trans ?_ (HandleSubnetRoute_grows h)
  split
  · exact ⟨rfl, rfl, rfl, fun _ => Or.inl rfl⟩
  · exact LrGrows.grows_of_ops _ _

theorem WalkRoutingVrf_grows (w : World) (s : VxlanRoutingManager) (uuid : Uuid) (vn : VnId)
    (update withdraw : Bool) : LrGrows s (WalkRoutingVrf w s uuid vn update withdraw) := by
  unfold WalkRoutingVrf
  repeat' (first | split | dsimp only)
  all_goals first
    | exact LrGrows.grows_refl s
    | exact ⟨rfl, rfl, rfl, fun _ => lrIndex_grows _ _ _⟩

theorem WalkBridgeVrfs_loop_grows (w : World) (fuel : Nat) :
    ∀ (it : List VnId) (s s2 : VxlanRoutingManager),
      WalkBridgeVrfs_loop w fuel it s = .ok s2 → LrGrows s s2 := by
  induction fuel with
  | zero => intro it s s2 h; simp [WalkBridgeVrfs_loop] at h
  | succ n ih =>
    intro it s s2 h
    cases it with
    | nil =>
      simp only [WalkBridgeVrfs_loop] at h
      injection h with h
      subst h
      exact LrGrows.grows_refl s
    | cons vn rest =>
      simp only [WalkBridgeVrfs_loop] at h
      split at h
      · split at h
        · exact ih _ _ _ h
        · split at h
          · cases h
          · rename_i s1 hw
            exact (WalkEvpnTable_grows hw).grows_trans (ih _ _ _ h)
      · exact ih _ _ _ h

theorem WalkBridgeVrfs_grows {w : World} {s s2 : VxlanRoutingManager} {info : RoutedVrfInfo}
    (h : WalkBridgeVrfs w s info = .ok s2) : LrGrows s s2 :=
  WalkBridgeVrfs_loop_grows w _ _ _ _ h

/-! ## The withdraw and update blocks of `BridgeVnNotify` -/

theorem lrIndex_find_ne {m : List (Uuid × RoutedVrfInfo)} {u k : Uuid} (h : k ≠ u) :
    mapFind k (lrIndex m u).1 = mapFind k m := by
  unfold lrIndex
  cases hm : mapFind u m with
  | some info => rfl
  | none => exact mapFind_mapInsert_ne h _ _

theorem TryDeleteLogicalRouter_find {s : VxlanRoutingManager} {k u : Uuid} {x : RoutedVrfInfo}
    (h : mapFind u (TryDeleteLogicalRouter s k).lr_vrf_info_map_ = some x) :
    mapFind u s.lr_vrf_info_map_ = some x := by
  unfold TryDeleteLogicalRouter at h
  split at h
  · split at h
    · by_cases hu : u = k
      · subst hu
        simp [mapFind_mapErase_self] at h
      · simpa [mapFind_mapErase_ne hu] using h
    · exact h
  · exact h

theorem TryDeleteLogicalRouter_frame (s : VxlanRoutingManager) (k : Uuid) :
    (TryDeleteLogicalRouter s k).vn_lr_set_ = s.vn_lr_set_ ∧
      (TryDeleteLogicalRouter s k).vn_state = s.vn_state ∧
      (TryDeleteLogicalRouter s k).vmi_state = s.vmi_state := by
  unfold TryDeleteLogicalRouter
  split
  · split <;> exact ⟨rfl, rfl, rfl⟩
  · exact ⟨rfl, rfl, rfl⟩

theorem WalkRoutingVrf_lr_of_find {w : World} {s : VxlanRoutingManager} {uuid : Uuid}
    {info : RoutedVrfInfo} (vn : VnId) (update withdraw : Bool)
    (h : mapFind uuid s.lr_vrf_info_map_ = some info) :
    (WalkRoutingVrf w s uuid vn update withdraw).lr_vrf_info_map_ = s.lr_vrf_info_map_ := by
  unfold WalkRoutingVrf
  rw [lrIndex_of_find h]
  repeat' (first | split | dsimp only)

theorem BridgeVnNotify_withdraw_spec (w : World) (s : VxlanRoutingManager) (vn : VnId) :
    (BridgeVnNotify_withdraw w s vn (mapFind vn s.vn_lr_set_)).vn_lr_set_ =
        mapErase vn s.vn_lr_set_ ∧
      (BridgeVnNotify_withdraw w s vn (mapFind vn s.vn_lr_set_)).vn_state = s.vn_state ∧
      (BridgeVnNotify_withdraw w s vn (mapFind vn s.vn_lr_set_)).vmi_state = s.vmi_state ∧
      ∀ u info2,
        mapFind u (BridgeVnNotify_withdraw w s vn (mapFind vn s.vn_lr_set_)).lr_vrf_info_map_ =
            some info2 →
          (mapFind u s.lr_vrf_info_map_ = none ∧ info2 = RoutedVrfInfo.init) ∨
          ∃ info, mapFind u s.lr_vrf_info_map_ = some info ∧
            info2.parent_vn_entry_ = info.parent_vn_entry_ ∧
            info2.routing_vrf_ = info.routing_vrf_ ∧
            info2.bridge_vn_list_ =
              if mapFind vn s.vn_lr_set_ = some u then setErase vn info.bridge_vn_list_
              else info.bridge_vn_list_ := by
  unfold BridgeVnNotify_withdraw
  cases hit : mapFind vn s.vn_lr_set_ with
  | none =>
    refine ⟨rfl, rfl, rfl, fun u info2 h => Or.inr ⟨info2, h, rfl, rfl, ?_⟩⟩
    simp
  | some cur =>
    dsimp only
    cases hcur : mapFind cur s.lr_vrf_info_map_ with
    | none =>
      refine ⟨rfl, rfl, rfl, fun u info2 h => Or.inr ⟨info2, h, rfl, rfl, ?_⟩⟩
      have hne : cur ≠ u := by
        intro e; subst e; dsimp only at h; rw [hcur] at h; cases h
      simp [hne]
    | some info =>
      dsimp only
      -- the state after the subnet routes are deleted
      obtain ⟨s1, hs1, g1⟩ : ∃ s1, s1 = (match (w.vn vn).GetVrf with
          | some v => if (w.vrf v).IsDeleted then s else DeleteSubnetRoute w s (some v) none
          | none => s) ∧ LrGrows s s1 := by
        refine ⟨_, rfl, ?_⟩
        split
        · split
          · exact LrGrows.grows_refl s
          · exact DeleteSubnetRoute_grows _ _ _ _
        · exact LrGrows.grows_refl s
      rw [← hs1]
      have hcur1 : mapFind cur s1.lr_vrf_info_map_ = some info := by
        rcases g1.2.2.2 cur with e | ⟨n, _⟩
        · rw [e, hcur]
        · rw [hcur] at n; cases n
      -- the state after the bridge list is edited
      obtain ⟨s2, hs2, a2, b2, c2, d2⟩ : ∃ s2, s2 = (if vn ∈ info.bridge_vn_list_ then
            { WalkRoutingVrf w s1 cur vn false true with
              lr_vrf_info_map_ :=
                mapSet cur { info with bridge_vn_list_ := setErase vn info.bridge_vn_list_ }
                  (WalkRoutingVrf w s1 cur vn false true).lr_vrf_info_map_ }
          else s1) ∧ s2.vn_lr_set_ = s.vn_lr_set_ ∧ s2.vn_state = s.vn_state ∧
          s2.vmi_state = s.vmi_state ∧
          ∀ u, mapFind u s2.lr_vrf_info_map_ =
            if u = cur then some { info with bridge_vn_list_ := setErase vn info.bridge_vn_list_ }
            else mapFind u s1.lr_vrf_info_map_ := by
        refine ⟨_, rfl, ?_⟩
        split
        · rename_i hmem
          have gw := WalkRoutingVrf_grows w s1 cur vn false true
          refine ⟨gw.1.trans g1.1, gw.2.1.trans g1.2.1, gw.2.2.1.trans g1.2.2.1, fun u => ?_⟩
          rw [WalkRoutingVrf_lr_of_find vn false true hcur1]
          by_cases hu : u = cur
          · subst hu
            simp [mapFind_mapSet_self, hcur1]
          · simp [hu, mapFind_mapSet_ne hu]
        · rename_i hmem
          refine ⟨g1.1, g1.2.1, g1.2.2.1, fun u => ?_⟩
          by_cases hu : u = cur
          · subst hu
            simp [hcur1, setErase_of_not_mem hmem]
          · simp [hu]
      rw [← hs2]
      have ft := TryDeleteLogicalRouter_frame s2 cur
      refine ⟨by rw [ft.1, a2], by rw [ft.2.1, b2], by rw [ft.2.2, c2], fun u info2 h => ?_⟩
      have h2 := TryDeleteLogicalRouter_find h
      rw [d2 u] at h2
      by_cases hu : u = cur
      · subst hu
        simp only [if_true, Option.some.injEq] at h2
        subst h2
        exact Or.inr ⟨info, hcur, rfl, rfl, by simp⟩
      · simp only [hu, if_false] at h2
        have hne : ¬ (some cur = some u) := fun e => hu (Option.some.inj e).symm
        rcases g1.2.2.2 u with e | ⟨n, i⟩
        · rw [e] at h2
          exact Or.inr ⟨info2, h2, rfl, rfl, by simp [hne]⟩
        · rw [i] at h2
          exact Or.inl ⟨n, (Option.some.inj h2).symm⟩

theorem BridgeVnNotify_update_spec (w : World) (s : VxlanRoutingManager) (vn : VnId)
    (uuid : Uuid) (hu : uuid ≠ nil_uuid) :
    (BridgeVnNotify_update w s vn uuid).2 = false ∧
      (BridgeVnNotify_update w s vn uuid).1.vn_lr_set_ = mapInsert vn uuid s.vn_lr_set_ ∧
      (BridgeVnNotify_update w s vn uuid).1.vn_state = s.vn_state ∧
      (BridgeVnNotify_update w s vn uuid).1.vmi_state = s.vmi_state ∧
      ∀ u, mapFind u (BridgeVnNotify_update w s vn uuid).1.lr_vrf_info_map_ =
        if u = uuid then
          some { (mapFind uuid s.lr_vrf_info_map_).getD RoutedVrfInfo.init with
                 bridge_vn_list_ :=
                   setInsert vn
                     ((mapFind uuid s.lr_vrf_info_map_).getD RoutedVrfInfo.init).bridge_vn_list_ }
        else mapFind u s.lr_vrf_info_map_ := by
  obtain ⟨s2, hs2⟩ : ∃ s2 : VxlanRoutingManager, s2 =
      { s with
        vn_lr_set_ := mapInsert vn uuid s.vn_lr_set_
        lr_vrf_info_map_ := mapSet uuid
          { (lrIndex s.lr_vrf_info_map_ uuid).2 with
            bridge_vn_list_ :=
              setInsert vn (lrIndex s.lr_vrf_info_map_ uuid).2.bridge_vn_list_ }
          (lrIndex s.lr_vrf_info_map_ uuid).1 } := ⟨_, rfl⟩
  have hdef : BridgeVnNotify_update w s vn uuid =
      (WalkRoutingVrf w s2 uuid vn true false, false) := by
    unfold BridgeVnNotify_update
    simp only [hu, if_false]
    rw [hs2]
  have hfind : ∀ u, mapFind u s2.lr_vrf_info_map_ =
      if u = uuid then
        some { (mapFind uuid s.lr_vrf_info_map_).getD RoutedVrfInfo.init with
               bridge_vn_list_ :=
                 setInsert vn
                   ((mapFind uuid s.lr_vrf_info_map_).getD RoutedVrfInfo.init).bridge_vn_list_ }
      else mapFind u s.lr_vrf_info_map_ := by
    intro u
    rw [hs2]
    by_cases h : u = uuid
    · subst h
      simp [mapFind_mapSet_self, lrIndex_find, lrIndex_snd]
    · simp [h, mapFind_mapSet_ne h, lrIndex_find_ne h]
  have gw := WalkRoutingVrf_grows w s2 uuid vn true false
  have hex : mapFind uuid s2.lr_vrf_info_map_ =
      some { (mapFind uuid s.lr_vrf_info_map_).getD RoutedVrfInfo.init with
             bridge_vn_list_ :=
               setInsert vn
                 ((mapFind uuid s.lr_vrf_info_map_).getD RoutedVrfInfo.init).bridge_vn_list_ } := by
    rw [hfind uuid]; simp
  rw [hdef]
  refine ⟨rfl, ?_, ?_, ?_, fun u => ?_⟩
  · rw [gw.1, hs2]
  · rw [gw.2.1, hs2]
  · rw [gw.2.2.1, hs2]
  · dsimp only
    rw [WalkRoutingVrf_lr_of_find vn true false hex]
    exact hfind u

/-! ## Delete of a bridge VN -/

theorem UpdateLogicalRouterUuid_frame (w : World) (st : VxlanRoutingVnState) :
    (UpdateLogicalRouterUuid w st).vrf_ref_ = st.vrf_ref_ ∧
      (UpdateLogicalRouterUuid w st).is_routing_vn_ = st.is_routing_vn_ := by
  unfold UpdateLogicalRouterUuid
  split <;> exact ⟨rfl, rfl⟩

theorem HandleSubnetRoute_total_of_absent {w : World} {s : VxlanRoutingManager} {v : VrfId}
    (habs : ∀ x, (w.vrf v).vn = some x → mapFind x s.vn_lr_set_ = none) :
    ∃ s2, HandleSubnetRoute w s v false = .ok s2 := by
  unfold HandleSubnetRoute
  dsimp only
  cases hx : (w.vrf v).vn with
  | none => exact ⟨_, rfl⟩
  | some x =>
    have hr : GetRoutingVrfUsingVn s x = none := by
      simp [GetRoutingVrfUsingVn, habs x hx]
    by_cases hf : (w.vn x).vxlan_routing_vn = false
    · simp only [hf, if_true, hr]
      exact ⟨_, rfl⟩
    · simp only [hf, if_false]
      exact ⟨_, rfl⟩

theorem WalkEvpnTable_total_of_absent {w : World} {s : VxlanRoutingManager} {v : VrfId}
    (habs : ∀ x, (w.vrf v).vn = some x → mapFind x s.vn_lr_set_ = none) :
    ∃ s2, WalkEvpnTable w s v = .ok s2 := by
  unfold WalkEvpnTable
  dsimp only
  apply HandleSubnetRoute_total_of_absent
  intro x hx
  split <;> exact habs x hx

theorem BridgeVnNotify_flags_gone {w : World} {vn : VnId} (it : Option Uuid) (uuid : Uuid)
    (h : (w.vn vn).IsDeleted = true ∨ (w.vn vn).GetVrf = none) :
    BridgeVnNotify_flags w vn it uuid = (true, false) := by
  unfold BridgeVnNotify_flags
  simp only [h, if_true]
  cases it <;> simp

/-- Delete of a bridge VN that has no LR UUID of its own: let `vn` be a
deleted VN with a VN state that is not a routing state, with no LR UUID of
its own, in no bridge list but the one its reverse-index entry names, and
whose state holds no VRF of another VN. Then `VnNotify` returns, and
afterwards `vn` is absent from the reverse index and from the bridge list of
every LR, and its VN state is freed. -/
theorem VnNotify_delete_withdraws_bridge_vn (w : World) (s : VxlanRoutingManager) (vn : VnId) (st : VxlanRoutingVnState)
    (hdel : (w.vn vn).IsDeleted = true)
    (hst : mapFind vn s.vn_state = some st) (hbr : st.is_routing_vn_ = false)
    (hown : (w.vn vn).logical_router_uuid = nil_uuid)
    (hP1 : ∀ u info, mapFind u s.lr_vrf_info_map_ = some info → vn ∈ info.bridge_vn_list_ →
      mapFind vn s.vn_lr_set_ = some u)
    (hvrf : ∀ v x, st.vrf_ref_ = some v → (w.vrf v).vn = some x → x = vn) :
    ∃ s2, VnNotify w s vn = .ok s2 ∧ mapFind vn s2.vn_lr_set_ = none ∧
      (∀ u info, mapFind u s2.lr_vrf_info_map_ = some info → vn ∉ info.bridge_vn_list_) ∧
      mapFind vn s2.vn_state = none := by
  obtain ⟨a1, b1, c1, d1⟩ := BridgeVnNotify_withdraw_spec w s vn
  obtain ⟨s1, hs1⟩ : ∃ s1, s1 = BridgeVnNotify_withdraw w s vn (mapFind vn s.vn_lr_set_) :=
    ⟨_, rfl⟩
  rw [← hs1] at a1 b1 c1 d1
  have habs1 : mapFind vn s1.vn_lr_set_ = none := by rw [a1]; exact mapFind_mapErase_self _ _
  have hnb1 : ∀ u info, mapFind u s1.lr_vrf_info_map_ = some info → vn ∉ info.bridge_vn_list_ := by
    intro u info2 h hmem
    rcases d1 u info2 h with ⟨_, e⟩ | ⟨info, hi, _, _, hb⟩
    · rw [e] at hmem; simp [RoutedVrfInfo.init] at hmem
    · by_cases hc : mapFind vn s.vn_lr_set_ = some u
      · rw [if_pos hc] at hb
        rw [hb] at hmem
        exact (mem_setErase.mp hmem).2 rfl
      · rw [if_neg hc] at hb
        rw [hb] at hmem
        exact hc (hP1 u info hi hmem)
  -- the walk of the bridge table
  have hwalk : ∃ s2, BridgeVnNotify w s vn st = .ok (UpdateLogicalRouterUuid w st, s2) ∧
      LrGrows s1 s2 := by
    unfold BridgeVnNotify BridgeVnNotify_maps
    simp only [hown, ne_eq, not_true_eq_false, if_false,
      BridgeVnNotify_flags_gone _ _ (Or.inl hdel), if_true, Bool.false_eq_true, ← hs1,
      Bool.or_true]
    cases hv : (UpdateLogicalRouterUuid w st).vrf_ref_ with
    | none => exact ⟨s1, rfl, LrGrows.grows_refl s1⟩
    | some v =>
      dsimp only
      by_cases ht : (w.vrf v).GetEvpnRouteTable = true
      · simp only [ht, Bool.and_true, Bool.true_and, if_true]
        have hv2 : st.vrf_ref_ = some v := by rw [← (UpdateLogicalRouterUuid_frame w st).1, hv]
        obtain ⟨s2, h2⟩ := WalkEvpnTable_total_of_absent
          (fun x hx => by rw [hvrf v x hv2 hx]; exact habs1)
        rw [h2]
        exact ⟨s2, rfl, WalkEvpnTable_grows h2⟩
      · simp only [ht, Bool.and_false, Bool.false_eq_true, if_false]
        exact ⟨s1, rfl, LrGrows.grows_refl s1⟩
  obtain ⟨s2, h2, g2⟩ := hwalk
  refine ⟨{ s2 with vn_state := mapErase vn s2.vn_state }, ?_, ?_, ?_, ?_⟩
  · unfold VnNotify
    simp only [hdel, if_true, hst, hbr, Bool.false_eq_true, if_false, h2]
  · dsimp only
    rw [g2.1, habs1]
  · intro u info h
    dsimp only at h
    rcases g2.2.2.2 u with e | ⟨_, i⟩
    · rw [e] at h; exact hnb1 u info h
    · rw [i] at h
      cases h
      simp [RoutedVrfInfo.init]
  · exact mapFind_mapErase_self _ _

/-! ## Invariant P1 under VN and VMI notifications -/

theorem BridgeFrame.frame_refl (vn : VnId) (s : VxlanRoutingManager) : BridgeFrame vn s s :=
  ⟨rfl, rfl, fun _ _ => rfl, fun _ info2 h => Or.inr ⟨info2, h, rfl⟩⟩

theorem BridgeFrame.frame_trans {vn : VnId} {s s2 s3 : VxlanRoutingManager}
    (h1 : BridgeFrame vn s s2) (h2 : BridgeFrame vn s2 s3) : BridgeFrame vn s s3 := by
  obtain ⟨a1, b1, c1, d1⟩ := h1
  obtain ⟨a2, b2, c2, d2⟩ := h2
  refine ⟨a2.trans a1, b2.trans b1, fun v hv => (c2 v hv).trans (c1 v hv), fun u info3 h => ?_⟩
  rcases d2 u info3 h with e | ⟨info2, h2, e2⟩
  · exact Or.inl e
  · rcases d1 u info2 h2 with e | ⟨info, h1, e1⟩
    · exact Or.inl (e2.trans e)
    · exact Or.inr ⟨info, h1, e2.trans e1⟩

theorem BridgeFrame.frame_of_grows {vn : VnId} {s s2 : VxlanRoutingManager} (g : LrGrows s s2) :
    BridgeFrame vn s s2 := by
  refine ⟨g.2.1, g.2.2.1, fun v _ => by rw [g.1], fun u info2 h => ?_⟩
  rcases g.2.2.2 u with e | ⟨_, i⟩
  · rw [e] at h; exact Or.inr ⟨info2, h, rfl⟩
  · rw [i] at h; cases h; exact Or.inl rfl

theorem BridgeFrame.frame_of_tryDelete (vn : VnId) (s : VxlanRoutingManager) (k : Uuid) :
    BridgeFrame vn s (TryDeleteLogicalRouter s k) := by
  have f := TryDeleteLogicalRouter_frame s k
  exact ⟨f.2.1, f.2.2, fun v _ => by rw [f.1],
    fun u info2 h => Or.inr ⟨info2, TryDeleteLogicalRouter_find h, rfl⟩⟩

theorem BridgeFrame.frame_of_reverse (vn : VnId) (s : VxlanRoutingManager) (m : List (VnId × Uuid))
    (hm : ∀ v, v ≠ vn → mapFind v m = mapFind v s.vn_lr_set_) :
    BridgeFrame vn s { s with vn_lr_set_ := m } :=
  ⟨rfl, rfl, hm, fun _ info2 h => Or.inr ⟨info2, h, rfl⟩⟩

theorem BridgeFrame.frame_of_mapSet (vn : VnId) (s : VxlanRoutingManager) (k : Uuid)
    (info info1 : RoutedVrfInfo) (hk : mapFind k s.lr_vrf_info_map_ = some info)
    (hb : info1.bridge_vn_list_ = info.bridge_vn_list_) :
    BridgeFrame vn s { s with lr_vrf_info_map_ := mapSet k info1 s.lr_vrf_info_map_ } := by
  refine ⟨rfl, rfl, fun _ _ => rfl, fun u info2 h => ?_⟩
  dsimp only at h
  by_cases hu : u = k
  · subst hu
    rw [mapFind_mapSet_self, hk] at h
    cases h
    exact Or.inr ⟨info, hk, hb⟩
  · rw [mapFind_mapSet_ne hu] at h
    exact Or.inr ⟨info2, h, rfl⟩

theorem LrInv.inv_of_grows {c : VnId → Bool} {s s2 : VxlanRoutingManager} (hI : LrInv c s)
    (g : LrGrows s s2) : LrInv c s2 := by
  intro u info2 h vn hvn
  rcases g.2.2.2 u with e | ⟨_, i⟩
  · rw [e] at h
    rw [g.1]
    exact hI u info2 h vn hvn
  · rw [i] at h
    cases h
    simp [RoutedVrfInfo.init] at hvn

theorem LrInv.inv_of_frame {c : VnId → Bool} {vn : VnId} {s s2 : VxlanRoutingManager}
    (hI : LrInv c s) (f : BridgeFrame vn s s2) (hc : c vn = true) : LrInv c s2 := by
  intro u info2 h v hv
  rcases f.2.2.2 u info2 h with e | ⟨info, hi, e⟩
  · rw [e] at hv; cases hv
  · rw [e] at hv
    have := hI u info hi v hv
    have hne : v ≠ vn := by
      intro e2; rw [e2, hc] at this; exact absurd this.2 (by simp)
    exact ⟨by rw [f.2.2.1 v hne]; exact this.1, this.2⟩

theorem LrInv.inv_withdraw {c : VnId → Bool} {s : VxlanRoutingManager} (hI : LrInv c s) (w : World)
    (vn : VnId) : LrInv c (BridgeVnNotify_withdraw w s vn (mapFind vn s.vn_lr_set_)) := by
  obtain ⟨a1, _, _, d1⟩ := BridgeVnNotify_withdraw_spec w s vn
  intro u info2 h v hv
  rcases d1 u info2 h with ⟨_, e⟩ | ⟨info, hi, _, _, hb⟩
  · rw [e] at hv; simp [RoutedVrfInfo.init] at hv
  · rw [hb] at hv
    have hne : v ≠ vn ∧ v ∈ info.bridge_vn_list_ := by
      by_cases hc : mapFind vn s.vn_lr_set_ = some u
      · rw [if_pos hc] at hv
        exact ⟨(mem_setErase.mp hv).2, (mem_setErase.mp hv).1⟩
      · rw [if_neg hc] at hv
        refine ⟨fun e => hc ?_, hv⟩
        rw [← e]; exact (hI u info hi v hv).1
    have := hI u info hi v hne.2
    exact ⟨by rw [a1, mapFind_mapErase_ne hne.1]; exact this.1, this.2⟩

theorem LrInv.inv_update {c : VnId → Bool} {s : VxlanRoutingManager} (hI : LrInv c s) (w : World)
    (vn : VnId) (uuid : Uuid) (hu : uuid ≠ nil_uuid) (hc : c vn = false)
    (hrev : mapFind vn s.vn_lr_set_ = none ∨ mapFind vn s.vn_lr_set_ = some uuid) :
    LrInv c (BridgeVnNotify_update w s vn uuid).1 := by
  obtain ⟨_, a1, _, _, d1⟩ := BridgeVnNotify_update_spec w s vn uuid hu
  intro u info2 h v hv
  rw [d1 u] at h
  rw [a1]
  by_cases huu : u = uuid
  · subst huu
    simp only [if_true, Option.some.injEq] at h
    subst h
    dsimp only at hv
    rcases mem_setInsert.mp hv with e | hmem
    · subst e
      exact ⟨mapFind_mapInsert_self _ _ _, hc⟩
    · cases hf : mapFind u s.lr_vrf_info_map_ with
      | none => rw [hf] at hmem; simp [RoutedVrfInfo.init] at hmem
      | some info =>
        rw [hf] at hmem
        have := hI u info hf v hmem
        by_cases hvv : v = vn
        · subst hvv
          exact ⟨mapFind_mapInsert_self _ _ _, this.2⟩
        · exact ⟨by rw [mapFind_mapInsert_ne hvv]; exact this.1, this.2⟩
  · simp only [huu, if_false] at h
    have := hI u info2 h v hv
    have hvv : v ≠ vn := by
      intro e
      subst e
      rcases hrev with e1 | e1
      · rw [e1] at this; exact absurd this.1 (by simp)
      · rw [e1] at this; exact huu (Option.some.inj this.1).symm
    exact ⟨by rw [mapFind_mapInsert_ne hvv]; exact this.1, this.2⟩

theorem BridgeVnNotify_maps_inv {c : VnId → Bool} {s : VxlanRoutingManager} (hI : LrInv c s)
    (w : World) (vn : VnId) (uuid : Uuid) (hc : c vn = false) :
    (BridgeVnNotify_maps w s vn uuid).2 = false ∧
      LrInv c (BridgeVnNotify_maps w s vn uuid).1 ∧
      (BridgeVnNotify_maps w s vn uuid).1.vn_state = s.vn_state ∧
      (BridgeVnNotify_maps w s vn uuid).1.vmi_state = s.vmi_state := by
  obtain ⟨a1, b1, c1, _⟩ := BridgeVnNotify_withdraw_spec w s vn
  have hW := hI.inv_withdraw w vn
  unfold BridgeVnNotify_maps BridgeVnNotify_flags
  dsimp only
  by_cases hn : uuid = nil_uuid
  · simp only [hn, if_true, Bool.false_eq_true, if_false]
    exact ⟨trivial, hW, b1, c1⟩
  · simp only [hn, if_false]
    by_cases hg : (w.vn vn).IsDeleted = true ∨ (w.vn vn).GetVrf = none
    · have hf : (match mapFind vn s.vn_lr_set_ with
          | some cur => if cur ≠ uuid ∧ uuid ≠ nil_uuid then (true, false) else (true, false)
          | none => ((true, false) : Bool × Bool)) = (true, false) := by
        cases mapFind vn s.vn_lr_set_ <;> simp
      simp only [hg, if_true, hf, Bool.false_eq_true, if_false]
      exact ⟨trivial, hW, b1, c1⟩
    · simp only [hg, if_false]
      cases hit : mapFind vn s.vn_lr_set_ with
      | none =>
        simp only [Bool.false_eq_true, if_false, if_true]
        obtain ⟨x1, _, x3, x4, _⟩ := BridgeVnNotify_update_spec w s vn uuid hn
        exact ⟨x1, hI.inv_update w vn uuid hn hc (Or.inl hit), x3, x4⟩
      | some cur =>
        dsimp only
        by_cases hcu : cur = uuid
        · subst hcu
          simp only [ne_eq, not_true_eq_false, false_and, if_false, Bool.false_eq_true, if_true]
          obtain ⟨x1, _, x3, x4, _⟩ := BridgeVnNotify_update_spec w s vn cur hn
          exact ⟨x1, hI.inv_update w vn cur hn hc (Or.inr hit), x3, x4⟩
        · simp only [ne_eq, hcu, not_false_eq_true, hn, and_self, if_true]
          rw [hit] at a1 b1 c1 hW
          obtain ⟨x1, _, x3, x4, _⟩ := BridgeVnNotify_update_spec w
            (BridgeVnNotify_withdraw w s vn (some cur)) vn uuid hn
          refine ⟨x1, hW.inv_update w vn uuid hn hc (Or.inl ?_), x3.trans b1, x4.trans c1⟩
          rw [a1]
          exact mapFind_mapErase_self _ _

theorem BridgeVnNotify_inv {c : VnId → Bool} {w : World} {s : VxlanRoutingManager}
    {vn : VnId} {st : VxlanRoutingVnState} {r : VxlanRoutingVnState × VxlanRoutingManager}
    (hw : WorldClass c w) (hI : LrInv c s) (h : BridgeVnNotify w s vn st = .ok r) :
    LrInv c r.2 ∧ r.2.vn_state = s.vn_state ∧ r.2.vmi_state = s.vmi_state ∧
      r.1.is_routing_vn_ = st.is_routing_vn_ := by
  unfold BridgeVnNotify at h
  by_cases hown : (w.vn vn).logical_router_uuid ≠ nil_uuid
  · rw [if_pos hown] at h
    cases h
    exact ⟨hI, rfl, rfl, rfl⟩
  · rw [if_neg hown] at h
    dsimp only at h
    have hc : c vn = false := by
      cases hcv : c vn with
      | false => rfl
      | true => exact absurd ((hw vn).2 hcv) hown
    obtain ⟨m1, m2, m3, m4⟩ := BridgeVnNotify_maps_inv hI w vn
      (UpdateLogicalRouterUuid w st).logical_router_uuid_ hc
    have hr := (UpdateLogicalRouterUuid_frame w st).2
    rw [m1] at h
    simp only [Bool.false_eq_true, if_false] at h
    split at h
    · cases h
      exact ⟨m2, m3, m4, hr⟩
    · split at h
      · split at h
        · cases h
        · rename_i s3 hw3
          cases h
          have g := WalkEvpnTable_grows hw3
          exact ⟨m2.inv_of_grows g, g.2.1.trans m3, g.2.2.1.trans m4, hr⟩
      · cases h
        exact ⟨m2, m3, m4, hr⟩

theorem BridgeFrame.frame_of_erase (vn : VnId) (s : VxlanRoutingManager) :
    BridgeFrame vn s { s with vn_lr_set_ := mapErase vn s.vn_lr_set_ } :=
  BridgeFrame.frame_of_reverse vn s _ (fun _ hv => mapFind_mapErase_ne hv _)

theorem BridgeFrame.frame_of_insert (vn : VnId) (s : VxlanRoutingManager) (uuid : Uuid) :
    BridgeFrame vn s { s with vn_lr_set_ := mapInsert vn uuid s.vn_lr_set_ } :=
  BridgeFrame.frame_of_reverse vn s _ (fun _ hv => mapFind_mapInsert_ne hv _ _)

theorem RoutingVnNotify_withdraw_frame {w : World} {s s2 : VxlanRoutingManager} {vn : VnId}
    {cur : Uuid} (h : RoutingVnNotify_withdraw w s vn cur = .ok s2) : BridgeFrame vn s s2 := by
  unfold RoutingVnNotify_withdraw at h
  split at h
  · cases h
    exact BridgeFrame.frame_of_erase vn s
  · rename_i info hinfo
    split at h
    · dsimp only at h
      split at h
      · cases h
      · rename_i s3 hw3
        cases h
        refine ((BridgeFrame.frame_of_mapSet vn s cur info
          { info with parent_vn_entry_ := none, routing_vrf_ := none } hinfo rfl).frame_trans
          (BridgeFrame.frame_of_grows (WalkBridgeVrfs_grows hw3))).frame_trans ?_
        exact (BridgeFrame.frame_of_tryDelete vn s3 cur).frame_trans (BridgeFrame.frame_of_erase vn _)
    · cases h
      exact (BridgeFrame.frame_of_tryDelete vn s cur).frame_trans (BridgeFrame.frame_of_erase vn _)

theorem RoutingVnNotify_update_tail_frame {w : World} {s1 s2 : VxlanRoutingManager}
    {vn : VnId} {uuid : Uuid}
    (h : (if ({ (lrIndex s1.lr_vrf_info_map_ uuid).2 with
                parent_vn_entry_ := some vn } : RoutedVrfInfo).routing_vrf_ ≠ (w.vn vn).GetVrf then
          WalkBridgeVrfs w
            { s1 with
              lr_vrf_info_map_ := mapSet uuid
                { (lrIndex s1.lr_vrf_info_map_ uuid).2 with
                  parent_vn_entry_ := some vn, routing_vrf_ := (w.vn vn).GetVrf }
                (lrIndex s1.lr_vrf_info_map_ uuid).1 }
            { (lrIndex s1.lr_vrf_info_map_ uuid).2 with
              parent_vn_entry_ := some vn, routing_vrf_ := (w.vn vn).GetVrf }
        else
          .ok { s1 with
                lr_vrf_info_map_ := mapSet uuid
                  { (lrIndex s1.lr_vrf_info_map_ uuid).2 with parent_vn_entry_ := some vn }
                  (lrIndex s1.lr_vrf_info_map_ uuid).1 }) = .ok s2) :
    BridgeFrame vn s1 s2 := by
  have fA : BridgeFrame vn s1
      { s1 with lr_vrf_info_map_ := (lrIndex s1.lr_vrf_info_map_ uuid).1 } :=
    BridgeFrame.frame_of_grows (LrGrows.grows_of_lrIndex s1 _ s1.ops)
  have fB : ∀ infoX : RoutedVrfInfo,
      infoX.bridge_vn_list_ = (lrIndex s1.lr_vrf_info_map_ uuid).2.bridge_vn_list_ →
      BridgeFrame vn s1
        { s1 with
          lr_vrf_info_map_ := mapSet uuid infoX (lrIndex s1.lr_vrf_info_map_ uuid).1 } := by
    intro infoX hb
    exact fA.frame_trans (BridgeFrame.frame_of_mapSet vn _ _ _ infoX (lrIndex_find _ _) hb)
  split at h
  · exact (fB { (lrIndex s1.lr_vrf_info_map_ uuid).2 with
        parent_vn_entry_ := some vn, routing_vrf_ := (w.vn vn).GetVrf } rfl).frame_trans
      (BridgeFrame.frame_of_grows (WalkBridgeVrfs_grows h))
  · cases h
    exact fB { (lrIndex s1.lr_vrf_info_map_ uuid).2 with parent_vn_entry_ := some vn } rfl

theorem RoutingVnNotify_update_frame {w : World} {s s2 : VxlanRoutingManager} {vn : VnId}
    {st : VxlanRoutingVnState} {it : Option Uuid}
    (h : RoutingVnNotify_update w s vn st it = .ok s2) : BridgeFrame vn s s2 := by
  unfold RoutingVnNotify_update at h
  split at h
  · cases h
    exact BridgeFrame.frame_refl vn s
  · cases it with
    | none =>
      exact (BridgeFrame.frame_of_insert vn s st.logical_router_uuid_).frame_trans
        (RoutingVnNotify_update_tail_frame h)
    | some x => exact RoutingVnNotify_update_tail_frame h

theorem RoutingVnNotify_frame {w : World} {s s2 : VxlanRoutingManager} {vn : VnId}
    {st : VxlanRoutingVnState} (h : RoutingVnNotify w s vn st = .ok s2) :
    BridgeFrame vn s s2 := by
  unfold RoutingVnNotify at h
  dsimp only at h
  split at h
  · cases h
  · rename_i s1 h1
    have f1 : BridgeFrame vn s s1 := by
      split at h1
      · split at h1
        · exact RoutingVnNotify_withdraw_frame h1
        · cases h1; exact BridgeFrame.frame_refl vn s
      · cases h1; exact BridgeFrame.frame_refl vn s
    split at h
    · exact f1.frame_trans (RoutingVnNotify_update_frame h)
    · cases h; exact f1

theorem StateClass.class_insert {c : VnId → Bool} {m : List (VnId × VxlanRoutingVnState)}
    (hm : ∀ v st, mapFind v m = some st → st.is_routing_vn_ = c v) (vn : VnId)
    (st : VxlanRoutingVnState) (hst : st.is_routing_vn_ = c vn) :
    ∀ v st2, mapFind v (mapInsert vn st m) = some st2 → st2.is_routing_vn_ = c v := by
  intro v st2 h
  by_cases hv : v = vn
  · subst hv
    rw [mapFind_mapInsert_self] at h
    cases h
    exact hst
  · rw [mapFind_mapInsert_ne hv] at h
    exact hm v st2 h

theorem StateClass.class_set {c : VnId → Bool} {m : List (VnId × VxlanRoutingVnState)}
    (hm : ∀ v st, mapFind v m = some st → st.is_routing_vn_ = c v) (vn : VnId)
    (st : VxlanRoutingVnState) (hst : st.is_routing_vn_ = c vn) :
    ∀ v st2, mapFind v (mapSet vn st m) = some st2 → st2.is_routing_vn_ = c v := by
  intro v st2 h
  by_cases hv : v = vn
  · subst hv
    rw [mapFind_mapSet_self] at h
    cases hf : mapFind v m with
    | none => rw [hf] at h; cases h
    | some x =>
      rw [hf] at h
      cases h
      exact hst
  · rw [mapFind_mapSet_ne hv] at h
    exact hm v st2 h

theorem StateClass.class_erase {c : VnId → Bool} {m : List (VnId × VxlanRoutingVnState)}
    (hm : ∀ v st, mapFind v m = some st → st.is_routing_vn_ = c v) (vn : VnId) :
    ∀ v st2, mapFind v (mapErase vn m) = some st2 → st2.is_routing_vn_ = c v := by
  intro v st2 h
  by_cases hv : v = vn
  · subst hv
    rw [mapFind_mapErase_self] at h
    cases h
  · rw [mapFind_mapErase_ne hv] at h
    exact hm v st2 h

theorem VnNotify_state_class {c : VnId → Bool} {w : World} {s : VxlanRoutingManager}
    (hw : WorldClass c w) (hS : StateClass c s) (vn : VnId) :
    (VnNotify_state w s vn).is_routing_vn_ = c vn := by
  have hflag := (hw vn).1
  unfold VnNotify_state
  dsimp only
  by_cases hf : (w.vn vn).vxlan_routing_vn = true
  · rw [if_pos hf]
    exact hflag
  · rw [if_neg hf]
    have hf2 : (w.vn vn).vxlan_routing_vn = false := by simpa using hf
    cases hst : mapFind vn s.vn_state with
    | none =>
      dsimp only [VxlanRoutingVnState.init]
      rw [← hflag, hf2]
    | some st =>
      dsimp only
      exact hS vn st hst

theorem LrInv.inv_of_eq {c : VnId → Bool} {s s2 : VxlanRoutingManager} (hI : LrInv c s)
    (h1 : s2.lr_vrf_info_map_ = s.lr_vrf_info_map_) (h2 : s2.vn_lr_set_ = s.vn_lr_set_) :
    LrInv c s2 := by
  intro u info h vn hv
  rw [h1] at h
  rw [h2]
  exact hI u info h vn hv

theorem VnNotify_inv {c : VnId → Bool} {w : World} {s s2 : VxlanRoutingManager} {vn : VnId}
    (hw : WorldClass c w) (hI : LrInv c s) (hS : StateClass c s)
    (h : VnNotify w s vn = .ok s2) : LrInv c s2 ∧ StateClass c s2 := by
  have hE := VnNotify_state_class hw hS vn
  unfold VnNotify at h
  split at h
  · -- delete
    split at h
    · cases h
      exact ⟨hI, hS⟩
    · rename_i st hst
      have hcls := hS vn st hst
      split at h
      · rename_i hr
        split at h
        · cases h
        · rename_i s1 h1
          cases h
          have f := RoutingVnNotify_frame h1
          have hL : LrInv c s1 := hI.inv_of_frame f (by rw [← hcls, hr])
          refine ⟨hL, ?_⟩
          intro v st2 hf
          dsimp only at hf
          rw [f.1] at hf
          exact StateClass.class_erase hS vn v st2 hf
      · split at h
        · cases h
        · rename_i r h1
          cases h
          obtain ⟨i1, i2, _, _⟩ := BridgeVnNotify_inv hw hI h1
          refine ⟨i1, ?_⟩
          intro v st2 hf
          dsimp only at hf
          rw [i2] at hf
          exact StateClass.class_erase hS vn v st2 hf
  · -- add or change
    dsimp only at h
    split at h
    · rename_i hr
      have f := RoutingVnNotify_frame h
      have hL : LrInv c s2 := by
        refine LrInv.inv_of_frame ?_ f (by rw [← hE]; exact hr)
        exact hI.inv_of_eq rfl rfl
      refine ⟨hL, ?_⟩
      intro v st3 hf
      rw [f.1] at hf
      exact StateClass.class_insert hS vn
        { VnNotify_state w s vn with logical_router_uuid_ := (w.vn vn).logical_router_uuid }
        hE v st3 hf
    · split at h
      · cases h
      · rename_i r h1
        cases h
        have hB := fun hx => BridgeVnNotify_inv (c := c) hw hx h1
        obtain ⟨i1, i2, _, i4⟩ := hB (hI.inv_of_eq rfl rfl)
        refine ⟨i1, ?_⟩
        intro v st3 hf
        dsimp only at hf
        refine StateClass.class_insert ?_ vn r.1 (i4.trans hE) v st3 hf
        rw [i2]
        exact StateClass.class_insert hS vn _ hE

theorem AddVmi_inv {c : VnId → Bool} {w : World} {s : VxlanRoutingManager} {vn : VnId}
    {vmi : VmiId} {st : VxlanRoutingVnState} {r : VxlanRoutingVnState × VxlanRoutingManager}
    (hw : WorldClass c w) (hI : LrInv c s) (h : AddVmi w s vn vmi st = .ok r) :
    LrInv c r.2 ∧ r.2.vn_state = s.vn_state ∧ r.1.is_routing_vn_ = st.is_routing_vn_ := by
  unfold AddVmi at h
  split at h
  · cases h
  · split at h
    · cases h
      exact ⟨hI, rfl, rfl⟩
    · dsimp only at h
      split at h
      · obtain ⟨i1, i2, _, i4⟩ := BridgeVnNotify_inv hw hI h
        exact ⟨i1, i2, i4⟩
      · cases h
        exact ⟨hI, rfl, rfl⟩

theorem DeleteVmi_inv {c : VnId → Bool} {w : World} {s : VxlanRoutingManager} {vn : VnId}
    {vmi : VmiId} {st : VxlanRoutingVnState} {r : VxlanRoutingVnState × VxlanRoutingManager}
    (hw : WorldClass c w) (hI : LrInv c s) (h : DeleteVmi w s vn vmi st = .ok r) :
    LrInv c r.2 ∧ r.2.vn_state = s.vn_state ∧ r.1.is_routing_vn_ = st.is_routing_vn_ := by
  unfold DeleteVmi at h
  split at h
  · obtain ⟨i1, i2, _, i4⟩ := BridgeVnNotify_inv hw hI h
    exact ⟨i1, i2, i4⟩
  · cases h
    exact ⟨hI, rfl, rfl⟩

theorem VmiNotify_inv {c : VnId → Bool} {w : World} {s s2 : VxlanRoutingManager} {vmi : VmiId}
    (hw : WorldClass c w) (hI : LrInv c s) (hS : StateClass c s)
    (h : VmiNotify w s vmi = .ok s2) : LrInv c s2 ∧ StateClass c s2 := by
  unfold VmiNotify at h
  split at h
  · split at h
    · cases h
      exact ⟨hI, hS⟩
    · split at h
      · cases h
      · rename_i vn _
        split at h
        · cases h
          exact ⟨hI.inv_of_eq rfl rfl, hS⟩
        · rename_i st hst
          split at h
          · cases h
          · rename_i r h1
            cases h
            obtain ⟨i1, i2, i3⟩ := DeleteVmi_inv hw hI h1
            refine ⟨i1.inv_of_eq rfl rfl, ?_⟩
            intro v st3 hf
            dsimp only at hf
            rw [i2] at hf
            exact StateClass.class_set hS vn r.1 (i3.trans (hS vn st hst)) v st3 hf
  · split at h
    · cases h
      exact ⟨hI, hS⟩
    · split at h
      · cases h
        exact ⟨hI, hS⟩
      · rename_i vn _
        dsimp only at h
        split at h
        · cases h
        · rename_i s1 h1
          have hV := fun hx hy => VnNotify_inv (c := c) hw hx hy h1
          obtain ⟨j1, j2⟩ := hV (hI.inv_of_eq rfl rfl) hS
          split at h
          · cases h
            exact ⟨j1, j2⟩
          · rename_i st hst
            split at h
            · cases h
            · rename_i r h2
              cases h
              obtain ⟨i1, i2, i3⟩ := AddVmi_inv hw j1 h2
              refine ⟨i1.inv_of_eq rfl rfl, ?_⟩
              intro v st3 hf
              dsimp only at hf
              rw [i2] at hf
              exact StateClass.class_set j2 vn r.1 (i3.trans (j2 vn st hst)) v st3 hf

theorem WorldClass.class_apply {c : VnId → Bool} {w : World} (hw : WorldClass c w) {ev : Event}
    (he : EventClass c ev) : WorldClass c (ev.apply w) := by
  cases ev with
  | vn k e =>
    intro v
    simp only [Event.apply, World.setVn]
    by_cases hv : v = k
    · subst hv
      simp only [if_true]
      exact he
    · simp only [hv, if_false]
      exact hw v
  | vmi k e => exact hw
  | vrf k e => exact False.elim he
  | route e => exact False.elim he
  | lr_evpn_walk e uuid vn update withdraw => exact False.elim he

theorem handle_inv {c : VnId → Bool} {w : World} {s s2 : VxlanRoutingManager} {ev : Event}
    (hw : WorldClass c w) (he : EventClass c ev) (hI : LrInv c s) (hS : StateClass c s)
    (h : handle w s ev = .ok s2) : LrInv c s2 ∧ StateClass c s2 := by
  cases ev with
  | vn k e => exact VnNotify_inv hw hI hS h
  | vmi k e => exact VmiNotify_inv hw hI hS h
  | vrf k e => exact False.elim he
  | route e => exact False.elim he
  | lr_evpn_walk e uuid vn update withdraw => exact False.elim he

theorem run_inv {c : VnId → Bool} (evs : List Event) :
    ∀ (w w2 : World) (s s2 : VxlanRoutingManager), WorldClass c w →
      (∀ ev ∈ evs, EventClass c ev) → LrInv c s → StateClass c s →
      run w s evs = .ok (w2, s2) → LrInv c s2 ∧ StateClass c s2 := by
  induction evs with
  | nil =>
    intro w w2 s s2 _ _ hI hS h
    simp only [run] at h
    cases h
    exact ⟨hI, hS⟩
  | cons ev rest ih =>
    intro w w2 s s2 hw he hI hS h
    simp only [run] at h
    have hev := he ev (List.mem_cons_self _ _)
    have hw2 := hw.class_apply hev
    split at h
    · cases h
    · rename_i s1 h1
      obtain ⟨i1, i2⟩ := handle_inv hw2 hev hI hS h1
      exact ih _ _ _ _ hw2 (fun e hm => he e (List.mem_cons_of_mem _ hm)) i1 i2 h

/-- C2 (amended): fix a classification `c` of the VNs such that, in the
tables at the start and in every VN notification, the flag `vxlan_routing_vn`
of a VN is `c vn` and a routing VN has an LR UUID of its own (the LR UUID of a
bridge VN may change freely). After any sequence of VN and VMI notifications
processed from the empty manager, every VN in the bridge list of an LR `u` is
filed under `u` in the reverse index. -/
theorem C2_reverse_index_of_bridge_vns (c : VnId → Bool) (w0 w : World) (evs : List Event) (s : VxlanRoutingManager)
    (hw : WorldClass c w0) (he : ∀ ev ∈ evs, EventClass c ev)
    (h : run w0 VxlanRoutingManager.init evs = .ok (w, s)) : P1 s := by
  have hI0 : LrInv c VxlanRoutingManager.init := by
    intro u info hf
    simp [VxlanRoutingManager.init, mapFind] at hf
  have hS0 : StateClass c VxlanRoutingManager.init := by
    intro v st hf
    simp [VxlanRoutingManager.init, mapFind] at hf
  obtain ⟨hI, _⟩ := run_inv evs w0 w _ s hw he hI0 hS0 h
  intro u info hf vn hv
  exact (hI u info hf vn hv).1

/-- C2 (as stated, false): bridge VN `2` is attached to LR `5` through its
router port and is then notified with `vxlan_routing_vn` set and LR UUID `6`.
`RoutingVnNotify` erases its reverse-index entry and leaves it in the bridge
list of LR `5`. -/
theorem C2_reclassified_vn_leaves_reverse_index :
    ∃ w s, run World.sample VxlanRoutingManager.init
        [Event.vn 2 (bridgeVn (some 102) []),
         Event.vmi 10 (routerVmi 2 5),
         Event.vn 2 (routingVn (some 102) 6)] = .ok (w, s) ∧
      mapFind 5 s.lr_vrf_info_map_ = some ⟨none, none, [2]⟩ ∧
      mapFind 2 s.vn_lr_set_ = none ∧ ¬ P1 s := by
  refine ⟨_, _, rfl, rfl, rfl, ?_⟩
  intro h
  have h2 := h 5 ⟨none, none, [2]⟩ rfl 2 (by simp)
  revert h2
  decide

/-- C2 (amended) at a concrete input: the cold attach, an own LR UUID on
bridge VN `2` and the detach of bridge VN `3`. -/
theorem C2_reverse_index_of_bridge_vns_witness :
    ∃ w s, run World.sampleRouting VxlanRoutingManager.init coldAttachThenDetach = .ok (w, s) ∧
      s.lr_vrf_info_map_ = [(5, ⟨some 1, some 101, [2]⟩)] ∧ P1 s := by
  refine ⟨_, _, rfl, rfl, C2_reverse_index_of_bridge_vns sampleClass World.sampleRouting _ coldAttachThenDetach _ ?_ ?_ rfl⟩
  · intro vn
    by_cases h : vn = 1
    · subst h
      exact ⟨rfl, fun _ => by decide⟩
    · have hc : sampleClass vn = false := by simp [sampleClass, h]
      refine ⟨?_, fun e => ?_⟩
      · rw [hc]
        simp [World.sampleRouting, World.setVn, h, World.sample, World.init]
      · rw [hc] at e; cases e
  · intro ev hev
    simp only [coldAttachThenDetach, List.mem_cons, List.mem_singleton, List.not_mem_nil,
      or_false] at hev
    rcases hev with e | e | e | e | e | e | e <;> subst e <;>
      simp [EventClass, sampleClass, routingVn, bridgeVn]

/-- C7 (failing input): bridge VN `2` is attached to LR `5` through its
router port; its delete notification arrives while it has the LR UUID `9` of
its own. `BridgeVnNotify` returns at its first test, which stands before the
test of `IsDeleted`: `VnNotify` frees the VN state, but the deleted VN stays
in the reverse index and in the bridge list of LR `5`. The comment on
`VnNotify` says that a delete withdraws the VN from the bridge list, and
`RoutingVnNotify` has no such test before its delete branch. -/
theorem C7_delete_with_own_uuid_keeps_membership :
    ∃ w s, run World.sample VxlanRoutingManager.init
        [Event.vn 2 (bridgeVn (some 102) []),
         Event.vmi 10 (routerVmi 2 5),
         Event.vn 2 ⟨true, some 102, false, 9, []⟩] = .ok (w, s) ∧
      mapFind 2 s.vn_state = none ∧ mapFind 2 s.vn_lr_set_ = some 5 ∧
      mapFind 5 s.lr_vrf_info_map_ = some ⟨none, none, [2]⟩ :=
  ⟨_, _, rfl, rfl, rfl, rfl⟩

/-- The delete of bridge VN `2`, the only bridge VN of LR `5`, with no LR
UUID of its own: the VN is withdrawn. -/
theorem VnNotify_delete_withdraws_bridge_vn_witness :
    ∃ s2, VnNotify (World.sample.setVn 2 { bridgeVn (some 102) [] with IsDeleted := true })
        lrWithOneBridge 2 = .ok s2 ∧ mapFind 2 s2.vn_lr_set_ = none ∧
      (∀ u info, mapFind u s2.lr_vrf_info_map_ = some info → 2 ∉ info.bridge_vn_list_) ∧
      mapFind 2 s2.vn_state = none := by
  refine VnNotify_delete_withdraws_bridge_vn _ lrWithOneBridge 2 ⟨[10], false, 5, some 102⟩ rfl rfl rfl rfl ?_ ?_
  · intro u info h _
    change mapFind u [(5, (⟨none, none, [2]⟩ : RoutedVrfInfo))] = some info at h
    by_cases hu : 5 = u
    · subst hu; rfl
    · simp [mapFind, hu] at h
  · intro v x hv hx
    cases hv
    exact (Option.some.inj hx).symm

/-! ## The status dump -/

/-- C18 (failing input): bridge VN `2` gets its router port on LR `5` before
any routing VN of LR `5` is known, so that LR `5` has a bridge VN and neither
routing VRF nor parent VN. `FillSandeshInfo` then stops on the null
`routing_vrf_` of LR `5` and hands over no record. -/
theorem C18_dump_faults_on_lr_without_routing_vrf :
    ∃ w s, run World.sample VxlanRoutingManager.init
        [Event.vn 2 (bridgeVn (some 102) []), Event.vmi 10 (routerVmi 2 5)] = .ok (w, s) ∧
      s.lr_vrf_info_map_ = [(5, ⟨none, none, [2]⟩)] ∧
      FillSandeshInfo w s = .error Fault.null_deref :=
  ⟨_, _, rfl, rfl, rfl⟩

/-! ## The derived LR UUID of a bridge VN -/

theorem UpdateLogicalRouterUuid_loop_spec (w : World) (l : List VmiId) :
    UpdateLogicalRouterUuid_loop w l =
      (l.dropWhile (fun vmi => decide ((w.vmi vmi).logical_router_uuid = nil_uuid)),
        match l.find? (fun vmi => decide ((w.vmi vmi).logical_router_uuid ≠ nil_uuid)) with
        | some vmi => (w.vmi vmi).logical_router_uuid
        | none => nil_uuid) := by
  induction l with
  | nil => rfl
  | cons v l ih =>
    by_cases h : (w.vmi v).logical_router_uuid = nil_uuid
    · simp [UpdateLogicalRouterUuid_loop, h, ih, List.dropWhile, List.find?]
    · simp [UpdateLogicalRouterUuid_loop, h, List.dropWhile, List.find?]

theorem UpdateLogicalRouterUuid_eq (w : World) (st : VxlanRoutingVnState) :
    UpdateLogicalRouterUuid w st =
      { st with
        vmi_list_ := (UpdateLogicalRouterUuid_loop w st.vmi_list_).1
        logical_router_uuid_ := (UpdateLogicalRouterUuid_loop w st.vmi_list_).2 } := by
  unfold UpdateLogicalRouterUuid
  split
  · next h =>
    have h2 : st.vmi_list_ = [] := List.length_eq_zero.mp h
    cases st
    simp only at h2
    subst h2
    rfl
  · rfl

theorem dropWhile_head_not {α : Type} (p : α → Bool) (l : List α) (x : α)
    (h : (l.dropWhile p).head? = some x) : p x = false := by
  induction l with
  | nil => simp at h
  | cons y l ih =>
    by_cases hy : p y = true
    · rw [List.dropWhile_cons_of_pos hy] at h
      exact ih h
    · rw [List.dropWhile_cons_of_neg hy] at h
      simp only [List.head?_cons, Option.some.injEq] at h
      subst h
      simpa using hy

/-- C16 (as stated, false). First: bridge VN `2` gets router port `20` of LR
`5` and then router port `10` of LR `6`; the pointer-ordered `vmi_list_` puts
port `10` first and the VN state ends with the LR UUID `6` of the port
inserted last, not with that of the first-inserted port `20`. Second: port
`2` with a nil LR UUID stands behind port `1` of LR `5` in `vmi_list_`;
`UpdateLogicalRouterUuid` returns at port `1` and leaves port `2` in the
list. -/
theorem C16_last_inserted_port_leads_and_nil_port_stays :
    (∃ w s, run World.sample VxlanRoutingManager.init
        [Event.vn 2 (bridgeVn (some 102) []), Event.vmi 20 (routerVmi 2 5),
          Event.vmi 10 (routerVmi 2 6)] = .ok (w, s) ∧
      (w.vmi 20).logical_router_uuid = 5 ∧
      mapFind 2 s.vn_state = some ⟨[10, 20], false, 6, some 102⟩ ∧
      UpdateLogicalRouterUuid w ⟨[10, 20], false, 6, some 102⟩ =
        ⟨[10, 20], false, 6, some 102⟩) ∧
    ((World.sample.setVmi 1 (routerVmi 2 5)).vmi 2).logical_router_uuid = nil_uuid ∧
    UpdateLogicalRouterUuid (World.sample.setVmi 1 (routerVmi 2 5))
        ⟨[1, 2], false, nil_uuid, none⟩ = ⟨[1, 2], false, 5, none⟩ :=
  ⟨⟨_, _, rfl, rfl, rfl, rfl⟩, rfl, rfl⟩

/-- C16 (amended): after `UpdateLogicalRouterUuid` the stored LR UUID is nil
exactly when no VMI of the list has a non-nil LR UUID; otherwise it is the LR
UUID of the first VMI, in the order of the list, that has one. The VMIs
standing before that one are pruned and all others stay, so that the first
VMI left has a non-nil LR UUID; the other fields are untouched. -/
theorem C16_derived_uuid_follows_list_order (w : World) (st : VxlanRoutingVnState) :
    ((UpdateLogicalRouterUuid w st).logical_router_uuid_ = nil_uuid ↔
      ∀ vmi ∈ st.vmi_list_, (w.vmi vmi).logical_router_uuid = nil_uuid) ∧
    (UpdateLogicalRouterUuid w st).logical_router_uuid_ =
      (match st.vmi_list_.find?
          (fun vmi => decide ((w.vmi vmi).logical_router_uuid ≠ nil_uuid)) with
        | some vmi => (w.vmi vmi).logical_router_uuid
        | none => nil_uuid) ∧
    (UpdateLogicalRouterUuid w st).vmi_list_ =
      st.vmi_list_.dropWhile
        (fun vmi => decide ((w.vmi vmi).logical_router_uuid = nil_uuid)) ∧
    (∀ vmi, (UpdateLogicalRouterUuid w st).vmi_list_.head? = some vmi →
      (w.vmi vmi).logical_router_uuid ≠ nil_uuid) ∧
    (UpdateLogicalRouterUuid w st).is_routing_vn_ = st.is_routing_vn_ ∧
    (UpdateLogicalRouterUuid w st).vrf_ref_ = st.vrf_ref_ := by
  rw [UpdateLogicalRouterUuid_eq, UpdateLogicalRouterUuid_loop_spec]
  dsimp only
  refine ⟨?_, rfl, rfl, ?_, rfl, rfl⟩
  · constructor
    · intro h vmi hv
      by_contra hne
      cases hf : st.vmi_list_.find?
          (fun vmi => decide ((w.vmi vmi).logical_router_uuid ≠ nil_uuid)) with
      | none =>
        have := List.find?_eq_none.mp hf vmi hv
        simp at this
        exact hne this
      | some x =>
        rw [hf] at h
        have := List.find?_some hf
        simp at this
        exact this h
    · intro h
      have : st.vmi_list_.find?
          (fun vmi => decide ((w.vmi vmi).logical_router_uuid ≠ nil_uuid)) = none := by
        apply List.find?_eq_none.mpr
        intro x hx
        simp [h x hx]
      rw [this]
  · intro vmi hv
    have := dropWhile_head_not _ _ _ hv
    simpa using this

/-! ## The notification rule of `AddVmi` -/

theorem AddVmi_eq (w : World) (s : VxlanRoutingManager) (vn : VnId) (vmi : VmiId)
    (st : VxlanRoutingVnState) (huuid : (w.vmi vmi).logical_router_uuid ≠ nil_uuid)
    (hnew : vmi ∉ st.vmi_list_) :
    AddVmi w s vn vmi st =
      if AddVmi_notifies w vmi { st with vmi_list_ := setInsert vmi st.vmi_list_ } = true then
        BridgeVnNotify w s vn { st with vmi_list_ := setInsert vmi st.vmi_list_ }
      else .ok ({ st with vmi_list_ := setInsert vmi st.vmi_list_ }, s) := by
  unfold AddVmi AddVmi_notifies
  simp only [huuid, if_false, hnew, decide_eq_true_eq]

theorem AddVmi_notifies_iff (w : World) (vmi : VmiId) (st : VxlanRoutingVnState)
    (huuid : (w.vmi vmi).logical_router_uuid ≠ nil_uuid)
    (hcoh : st.logical_router_uuid_ = st.logical_router_uuid w)
    (hnew : vmi ∉ st.vmi_list_) :
    AddVmi_notifies w vmi { st with vmi_list_ := setInsert vmi st.vmi_list_ } = true ↔
      VxlanRoutingVnState.logical_router_uuid w
          { st with vmi_list_ := setInsert vmi st.vmi_list_ } ≠
        st.logical_router_uuid w := by
  obtain ⟨l, r, u, v⟩ := st
  simp only at hcoh hnew
  unfold AddVmi_notifies VxlanRoutingVnState.logical_router_uuid at *
  simp only at hcoh ⊢
  cases l with
  | nil =>
    simp only at hcoh
    subst hcoh
    simp [setInsert, huuid, Ne.symm huuid]
  | cons y ys =>
    simp only at hcoh
    subst hcoh
    have hy : vmi ≠ y := fun e => hnew (by simp [e])
    by_cases hlt : vmi < y
    · simp only [setInsert, hlt, if_true, List.head?_cons, and_true, decide_eq_true_eq]
      exact ⟨fun h e => h e.symm, fun h e => h e.symm⟩
    · simp only [setInsert, hlt, if_false, hy, List.head?_cons, Option.some.injEq,
        decide_eq_true_eq, ne_eq, not_true_eq_false, iff_false, not_and]
      intro _ e
      exact hy e.symm

/-- C17 (as stated, false): bridge VN `2` carries an LR UUID of its own, so
`BridgeVnNotify` never refreshes the stored LR UUID of its VN state, which
stays nil while router port `10` of LR `5` is in `vmi_list_`. The insertion
of router port `5` of the same LR `5` in front of port `10` leaves the
derived LR UUID at `5`, and the test of `AddVmi` still succeeds. -/
theorem C17_add_vmi_notifies_without_change :
    ∃ w s, run World.sample VxlanRoutingManager.init
        [Event.vn 2 { bridgeVn (some 102) [] with logical_router_uuid := 9 },
          Event.vmi 10 (routerVmi 2 5)] = .ok (w, s) ∧
      mapFind 2 s.vn_state = some ⟨[10], false, nil_uuid, some 102⟩ ∧
      AddVmi_notifies (w.setVmi 5 (routerVmi 2 5)) 5
        ⟨setInsert 5 [10], false, nil_uuid, some 102⟩ = true ∧
      VxlanRoutingVnState.logical_router_uuid (w.setVmi 5 (routerVmi 2 5))
          ⟨setInsert 5 [10], false, nil_uuid, some 102⟩ =
        VxlanRoutingVnState.logical_router_uuid (w.setVmi 5 (routerVmi 2 5))
          ⟨[10], false, nil_uuid, some 102⟩ :=
  ⟨_, _, rfl, rfl, rfl, rfl⟩

/-- C17 (amended): let the stored LR UUID of the VN state be the derived one
(the LR UUID of the first VMI of `vmi_list_`, nil when empty) and let `vmi`
have a non-nil LR UUID. If `vmi` is in `vmi_list_`, `AddVmi` changes nothing
and calls nothing. Otherwise it inserts `vmi`, its test for the call of
`BridgeVnNotify` succeeds exactly when the insertion changes the derived LR
UUID, and it calls `BridgeVnNotify` on the new VN state exactly then. -/
theorem C17_add_vmi_notifies_iff_derived_changes (w : World) (s : VxlanRoutingManager)
    (vn : VnId) (vmi : VmiId) (st : VxlanRoutingVnState)
    (huuid : (w.vmi vmi).logical_router_uuid ≠ nil_uuid)
    (hcoh : st.logical_router_uuid_ = st.logical_router_uuid w) :
    (vmi ∈ st.vmi_list_ → AddVmi w s vn vmi st = .ok (st, s)) ∧
    (vmi ∉ st.vmi_list_ →
      (AddVmi_notifies w vmi { st with vmi_list_ := setInsert vmi st.vmi_list_ } = true ↔
        VxlanRoutingVnState.logical_router_uuid w
            { st with vmi_list_ := setInsert vmi st.vmi_list_ } ≠
          st.logical_router_uuid w) ∧
      AddVmi w s vn vmi st =
        if AddVmi_notifies w vmi { st with vmi_list_ := setInsert vmi st.vmi_list_ } = true
        then BridgeVnNotify w s vn { st with vmi_list_ := setInsert vmi st.vmi_list_ }
        else .ok ({ st with vmi_list_ := setInsert vmi st.vmi_list_ }, s)) := by
  refine ⟨fun hin => ?_, fun hnew => ⟨AddVmi_notifies_iff w vmi st huuid hcoh hnew,
    AddVmi_eq w s vn vmi st huuid hnew⟩⟩
  unfold AddVmi
  simp only [huuid, if_false, hin, if_true]

/-- C17 (amended) at a concrete input: router port `20` of LR `5` is in
`vmi_list_`, and router port `10` of LR `6` is inserted in front of it: the
derived LR UUID changes and `BridgeVnNotify` is called. -/
theorem C17_add_vmi_notifies_iff_derived_changes_witness :
    (((World.sample.setVmi 20 (routerVmi 2 5)).setVmi 10 (routerVmi 2 6)).vmi
        10).logical_router_uuid ≠ nil_uuid ∧
      VxlanRoutingVnState.logical_router_uuid
          ((World.sample.setVmi 20 (routerVmi 2 5)).setVmi 10 (routerVmi 2 6))
          ⟨[10, 20], false, 5, some 102⟩ ≠
        VxlanRoutingVnState.logical_router_uuid
          ((World.sample.setVmi 20 (routerVmi 2 5)).setVmi 10 (routerVmi 2 6))
          ⟨[20], false, 5, some 102⟩ ∧
      AddVmi ((World.sample.setVmi 20 (routerVmi 2 5)).setVmi 10 (routerVmi 2 6))
          VxlanRoutingManager.init 2 10 ⟨[20], false, 5, some 102⟩ =
        BridgeVnNotify ((World.sample.setVmi 20 (routerVmi 2 5)).setVmi 10 (routerVmi 2 6))
          VxlanRoutingManager.init 2 ⟨[10, 20], false, 5, some 102⟩ :=
  ⟨by decide,
    ((C17_add_vmi_notifies_iff_derived_changes
      ((World.sample.setVmi 20 (routerVmi 2 5)).setVmi 10 (routerVmi 2 6))
      VxlanRoutingManager.init 2 10 ⟨[20], false, 5, some 102⟩ (by decide) rfl).2
      (by decide)).1.mp rfl,
    (((C17_add_vmi_notifies_iff_derived_changes
      ((World.sample.setVmi 20 (routerVmi 2 5)).setVmi 10 (routerVmi 2 6))
      VxlanRoutingManager.init 2 10 ⟨[20], false, 5, some 102⟩ (by decide) rfl).2
      (by decide)).2).trans (if_pos rfl)⟩

/-! ## The decision flags of `BridgeVnNotify` -/

theorem BridgeVnNotify_flags_eq (w : World) (vn : VnId) (cur : Option Uuid) (new : Uuid) :
    BridgeVnNotify_flags w vn cur new =
      ((BridgeVnNotify_flags_as_specified w vn cur new).1,
        !((w.vn vn).IsDeleted || (w.vn vn).GetVrf.isNone) && (new != nil_uuid)) := by
  unfold BridgeVnNotify_flags BridgeVnNotify_flags_as_specified
  cases hd : (w.vn vn).IsDeleted <;> cases hv : (w.vn vn).GetVrf <;> cases cur <;>
    by_cases hn : new = nil_uuid <;> simp [hn]
  all_goals
    rename_i c
    by_cases hc : c = new <;> simp [hc, hn]

/-- C20 (as stated, false): bridge VN `2` is live, has a VRF and is filed
under LR `5`, and its derived LR UUID is now `6`. The handler sets both
flags, where the stated rule gives `update = false`, and it files VN `2` in
the bridge list of LR `6` and under `6` in the reverse index. -/
theorem C20_lr_change_withdraws_and_updates :
    mapFind 2 lrWithTwoBridges.vn_lr_set_ = some 5 ∧
      BridgeVnNotify_flags World.twoBridges 2 (some 5) 6 = (true, true) ∧
      BridgeVnNotify_flags_as_specified World.twoBridges 2 (some 5) 6 = (true, false) ∧
      mapFind 6 (BridgeVnNotify_maps World.twoBridges lrWithTwoBridges 2 6).1.lr_vrf_info_map_ =
        some ⟨none, none, [2]⟩ ∧
      mapFind 2 (BridgeVnNotify_maps World.twoBridges lrWithTwoBridges 2 6).1.vn_lr_set_ =
        some 6 :=
  ⟨rfl, rfl, rfl, rfl, rfl⟩

/-- C20 (amended): with `cur` the reverse-index entry of the VN and `new`
the derived LR UUID, `withdraw` is computed as stated (VN deleted, or no VRF,
or `new` nil, or `cur` present and different from `new`) and `update` holds
exactly when the VN is live, has a VRF and `new` is not nil, also when
`withdraw` holds because `cur` differs from `new`. When `update` holds the
VN ends in the bridge list of LR `new` and under `new` in the reverse index;
when it does not, the VN ends in no bridge list it was not in before. -/
theorem C20_bridge_flags_and_membership (w : World) (s : VxlanRoutingManager) (vn : VnId)
    (new : Uuid) :
    BridgeVnNotify_flags w vn (mapFind vn s.vn_lr_set_) new =
        ((BridgeVnNotify_flags_as_specified w vn (mapFind vn s.vn_lr_set_) new).1,
          !((w.vn vn).IsDeleted || (w.vn vn).GetVrf.isNone) && (new != nil_uuid)) ∧
      ((BridgeVnNotify_flags w vn (mapFind vn s.vn_lr_set_) new).2 = true →
        mapFind vn (BridgeVnNotify_maps w s vn new).1.vn_lr_set_ = some new ∧
          ∃ info, mapFind new (BridgeVnNotify_maps w s vn new).1.lr_vrf_info_map_ = some info ∧
            vn ∈ info.bridge_vn_list_) ∧
      ((BridgeVnNotify_flags w vn (mapFind vn s.vn_lr_set_) new).2 = false →
        ∀ u info2, mapFind u (BridgeVnNotify_maps w s vn new).1.lr_vrf_info_map_ = some info2 →
          vn ∈ info2.bridge_vn_list_ →
            ∃ info, mapFind u s.lr_vrf_info_map_ = some info ∧ vn ∈ info.bridge_vn_list_) := by
  refine ⟨BridgeVnNotify_flags_eq w vn _ new, fun hup => ?_, fun hup u info2 h hmem => ?_⟩
  · have hu : new ≠ nil_uuid := by
      rw [BridgeVnNotify_flags_eq] at hup
      simp only [Bool.and_eq_true, bne_iff_ne, ne_eq] at hup
      exact hup.2
    unfold BridgeVnNotify_maps
    simp only [hup, if_true]
    obtain ⟨_, b, _, _, e⟩ := BridgeVnNotify_update_spec w
      (if (BridgeVnNotify_flags w vn (mapFind vn s.vn_lr_set_) new).1 = true then
        BridgeVnNotify_withdraw w s vn (mapFind vn s.vn_lr_set_) else s) vn new hu
    refine ⟨?_, _, (e new).trans (if_pos rfl), ?_⟩
    · rw [b]
      exact mapFind_mapInsert_self _ _ _
    · exact mem_setInsert.mpr (Or.inl rfl)
  · unfold BridgeVnNotify_maps at h
    simp only [hup, Bool.false_eq_true, if_false] at h
    split at h
    · obtain ⟨_, _, _, d⟩ := BridgeVnNotify_withdraw_spec w s vn
      rcases d u info2 h with ⟨_, e⟩ | ⟨info, hi, _, _, hb⟩
      · rw [e] at hmem
        simp [RoutedVrfInfo.init] at hmem
      · refine ⟨info, hi, ?_⟩
        rw [hb] at hmem
        split at hmem
        · exact (mem_setErase.mp hmem).1
        · exact hmem
    · exact ⟨info2, h, hmem⟩

/-! ## Route notifications -/

/-- C12 (failing input): after `attachOneBridge` bridge VN `2` is recorded
in LR `5` with routing VRF `101`. For a live Type-2 row of its VRF `102` that
has no local-VM-port path (a non-local row) `EvpnType2RouteNotify` finds no
LR UUID and issues the `Delete` of the host route; for the same row with a
local-VM-port path on router port `10` it issues the install. -/
theorem C12_non_local_type2_row_is_deleted :
    ∃ w s, run World.sample VxlanRoutingManager.init attachOneBridge = .ok (w, s) ∧
      mapFind 5 s.lr_vrf_info_map_ = some ⟨some 1, some 101, [2]⟩ ∧
      mapFind 2 s.vn_lr_set_ = some 5 ∧ (w.vrf 102).vn = some 2 ∧
      EvpnType2RouteNotify w s (type2Row 102 none) =
        .ok { s with
              ops := s.ops ++
                [Op.Delete 102 true Peer.evpn_routing_peer 102 ⟨true, 7⟩ 32 true] } ∧
      EvpnType2RouteNotify w s (type2Row 102 (some (localVmPortPath 10))) =
        .ok { s with
              ops := s.ops ++
                [Op.AddEvpnRoutingRoute 102 true ⟨true, 7⟩ 32 101 Peer.evpn_routing_peer
                  PathAttrs.empty (NextHopReq.VrfNH 101) 101 none] } :=
  ⟨_, _, rfl, rfl, rfl, rfl, rfl, rfl⟩

/-- C13 (failing input): after `attachOneBridge`, for a live non-host Type-5
row with a BGP path in the routing VRF `101`, `EvpnType5RouteNotify` issues
on the unicast table of bridge VRF `102` an `AddEvpnRoutingRoute` whose VRF
argument is the bridge VRF `102`, not the routing VRF `101` that the next-hop
and the VXLAN id name; the second request is the route of the routing VRF
itself. -/
theorem C13_fan_out_passes_bridge_vrf :
    ∃ w s, run World.sample VxlanRoutingManager.init attachOneBridge = .ok (w, s) ∧
      mapFind 5 s.lr_vrf_info_map_ = some ⟨some 1, some 101, [2]⟩ ∧
      (w.vrf 101).vn = some 1 ∧ (w.vn 1).vxlan_routing_vn = true ∧
      (w.vn 1).logical_router_uuid = 5 ∧ (w.vn 2).GetVrf = some 102 ∧
      EvpnType5RouteNotify w s (type5Row 101) =
        .ok { s with
              ops := s.ops ++
                [Op.AddEvpnRoutingRoute 102 true ⟨true, 20⟩ 24 102 Peer.evpn_routing_peer
                    PathAttrs.empty (NextHopReq.VrfNH 101) 101 none,
                  Op.AddEvpnRoutingRoute 101 true ⟨true, 20⟩ 24 101 Peer.evpn_routing_peer
                    PathAttrs.empty (NextHopReq.ClonedNH 0 0 101) 0 none] } :=
  ⟨_, _, rfl, rfl, rfl, rfl, rfl, rfl, rfl⟩

/-- C15 (failing input): an IP-unicast row of bridge VRF `102` carries a
path of the EVPN-routing peer that names routing VRF `101`, and its
local-VM-port path is gone. `InetRouteNotify` returns at its test of the
local path and issues no retraction, whether the row is live or deleted;
with the local path it issues the Type-5 install. -/
theorem C15_no_retract_without_local_path :
    (World.sample.vrf 102).vn = some 2 ∧
      InetRouteNotify World.sample VxlanRoutingManager.init (inetRow 102 (some 101) none) =
        .ok VxlanRoutingManager.init ∧
      InetRouteNotify World.sample VxlanRoutingManager.init
          { inetRow 102 (some 101) none with IsDeleted := true } =
        .ok VxlanRoutingManager.init ∧
      InetRouteNotify World.sample VxlanRoutingManager.init
          (inetRow 102 (some 101) (some (localVmPortPath 10))) =
        .ok { VxlanRoutingManager.init with
              ops := [Op.AddType5Route 101 Peer.local_vm_export_peer 101 ⟨true, 7⟩ 101
                (NextHopReq.ClonedNH 7 9 101) ⟨[1], [2], 3, 4, [5], [6]⟩ 101 101] } :=
  ⟨rfl, rfl, rfl, rfl⟩

/-- C14 (as stated, false): the row is EVPN, Type-5, not a host route and
not multicast, the UUID is not nil and the target bridge VN `2` has VRF
`102`, but the VRF `50` of the row has no VN: the visitor returns at its
first test and issues no `Delete`. -/
theorem C14_withdraw_skips_row_of_vrf_without_vn :
    (World.twoBridges.vrf 50).vn = none ∧ (World.twoBridges.vn 2).GetVrf = some 102 ∧
      IsHostRoute (type5Row 50) = false ∧
      RouteNotifyInLrEvpnTable World.twoBridges lrWithTwoBridges (type5Row 50) 5 (some 2)
        false true = .ok lrWithTwoBridges :=
  ⟨rfl, rfl, rfl, rfl⟩

/-- C14 (amended): with `withdraw` set the visitor returns and changes
nothing but the request log. It issues nothing when the row is not an EVPN
row, the VRF of the row has no VN, the row is not Type-5, the UUID is nil, or
the row is a host route, and nothing when there is no target VN or the
target VN has no VRF; otherwise it issues one `Delete` of the row's address
and length on the EVPN-routing peer, on the unicast table of the target VN's
VRF. The flag `is_multicast` of the row plays no part. -/
theorem C14_withdraw_visitor_deletes_on_target_only (w : World) (s : VxlanRoutingManager)
    (e : AgentRoute) (uuid : Uuid) (vn : Option VnId) (update : Bool) :
    RouteNotifyInLrEvpnTable w s e uuid vn update true =
      .ok (if e.route_class ≠ RouteClass.evpn ∨ (w.vrf e.vrf).vn = none ∨ e.IsType5 = false ∨
            uuid = nil_uuid ∨ IsHostRoute e = true then s
          else
            match vn.bind (fun v => (w.vn v).GetVrf) with
            | none => s
            | some bv =>
              { s with
                ops := s.ops ++
                  [Op.Delete bv e.ip_addr.is_v4 Peer.evpn_routing_peer bv e.ip_addr
                    e.GetVmIpPlen false] }) := by
  unfold RouteNotifyInLrEvpnTable
  by_cases h1 : e.route_class ≠ RouteClass.evpn ∨ (w.vrf e.vrf).vn = none ∨ e.IsType5 = false
  · have h2 : e.route_class ≠ RouteClass.evpn ∨ (w.vrf e.vrf).vn = none ∨ e.IsType5 = false ∨
        uuid = nil_uuid ∨ IsHostRoute e = true := by
      rcases h1 with h | h | h
      · exact Or.inl h
      · exact Or.inr (Or.inl h)
      · exact Or.inr (Or.inr (Or.inl h))
    rw [if_pos h1, if_pos h2]
  · rw [if_neg h1]
    by_cases hu : uuid = nil_uuid
    · rw [if_pos hu, if_pos (Or.inr (Or.inr (Or.inr (Or.inl hu))))]
    · rw [if_neg hu]
      by_cases hh : IsHostRoute e = true
      · rw [if_pos hh, if_pos (Or.inr (Or.inr (Or.inr (Or.inr hh))))]
      · have h2 : ¬ (e.route_class ≠ RouteClass.evpn ∨ (w.vrf e.vrf).vn = none ∨
            e.IsType5 = false ∨ uuid = nil_uuid ∨ IsHostRoute e = true) := by
          rintro (h | h | h | h | h)
          · exact h1 (Or.inl h)
          · exact h1 (Or.inr (Or.inl h))
          · exact h1 (Or.inr (Or.inr h))
          · exact hu h
          · exact hh h
        rw [if_neg hh, if_neg h2]
        simp only [if_true]
        cases vn with
        | none => rfl
        | some v =>
          simp only [Option.bind]
          cases (w.vn v).GetVrf <;> rfl

/-! ## Requests added by the subnet-route functions -/

theorem OpsAdded.added_refl (P : Op → Prop) (s : VxlanRoutingManager) : OpsAdded P s s :=
  ⟨[], by simp, by simp⟩

theorem OpsAdded.added_trans {P : Op → Prop} {s s2 s3 : VxlanRoutingManager}
    (h1 : OpsAdded P s s2) (h2 : OpsAdded P s2 s3) : OpsAdded P s s3 := by
  obtain ⟨n1, e1, p1⟩ := h1
  obtain ⟨n2, e2, p2⟩ := h2
  refine ⟨n1 ++ n2, by rw [e2, e1, List.append_assoc], fun op hop => ?_⟩
  rcases List.mem_append.mp hop with h | h
  · exact p1 op h
  · exact p2 op h

theorem OpsAdded.added_of_append {P : Op → Prop} {s s2 : VxlanRoutingManager} (l : List Op)
    (h : s2.ops = s.ops ++ l) (hl : ∀ op ∈ l, P op) : OpsAdded P s s2 :=
  ⟨l, h, hl⟩

theorem OpsAdded.added_of_eq {P : Op → Prop} {s s2 : VxlanRoutingManager}
    (h : s2.ops = s.ops) : OpsAdded P s s2 :=
  ⟨[], by simp [h], by simp⟩

theorem OpsAdded.added_mono {P Q : Op → Prop} {s s2 : VxlanRoutingManager}
    (hPQ : ∀ op, P op → Q op) (h : OpsAdded P s s2) : OpsAdded Q s s2 := by
  obtain ⟨n, e, p⟩ := h
  exact ⟨n, e, fun op hop => hPQ op (p op hop)⟩

theorem SubnetStep.step_refl (s : VxlanRoutingManager) : SubnetStep s s :=
  ⟨rfl, rfl, OpsAdded.added_refl _ s⟩

theorem SubnetStep.step_trans {s s2 s3 : VxlanRoutingManager}
    (h1 : SubnetStep s s2) (h2 : SubnetStep s2 s3) : SubnetStep s s3 :=
  ⟨h2.1.trans h1.1, h2.2.1.trans h1.2.1, h1.2.2.added_trans h2.2.2⟩

theorem DeleteSubnetRoute_ipams_subnet (w : World) (t : VrfId) (l : List VnIpam) :
    ∀ op ∈ DeleteSubnetRoute_ipams w t l, op.isSubnetOp = true := by
  intro op hop
  unfold DeleteSubnetRoute_ipams at hop
  obtain ⟨i, _, hi⟩ := List.mem_flatMap.mp hop
  split at hi
  · simp only [List.mem_singleton] at hi
    subst hi
    rfl
  · split at hi
    · simp only [List.mem_singleton] at hi
      subst hi
      rfl
    · simp at hi

theorem DeleteSubnetRoute_body_subnet (w : World) (v : VrfId) (a : VnId) (l : List VnIpam)
    (b : VnId) : ∀ op ∈ DeleteSubnetRoute_body w v a l b, op.isSubnetOp = true := by
  intro op hop
  unfold DeleteSubnetRoute_body at hop
  split at hop
  · simp at hop
  · rcases List.mem_append.mp hop with h | h
    · split at h
      · exact DeleteSubnetRoute_ipams_subnet _ _ _ op h
      · simp at h
    · split at h
      · simp at h
      · exact DeleteSubnetRoute_ipams_subnet _ _ _ op h

theorem DeleteSubnetRoute_step (w : World) (s : VxlanRoutingManager) (vrf : Option VrfId)
    (ipam : Option VnIpam) : SubnetStep s (DeleteSubnetRoute w s vrf ipam) := by
  unfold DeleteSubnetRoute
  repeat' (first | split | dsimp only)
  all_goals first
    | exact SubnetStep.step_refl s
    | exact ⟨rfl, rfl, OpsAdded.added_of_eq rfl⟩
    | refine ⟨rfl, rfl, OpsAdded.added_of_append _ rfl ?_⟩
      intro op hop
      obtain ⟨b, _, hb⟩ := List.mem_flatMap.mp hop
      exact DeleteSubnetRoute_body_subnet _ _ _ _ _ op hb

theorem UpdateSubnetRoute_ipams_subnet (w : World) (t r : VrfId) (l : List VnIpam) :
    ∀ op ∈ UpdateSubnetRoute_ipams w t r l, op.isSubnetOp = true := by
  intro op hop
  unfold UpdateSubnetRoute_ipams at hop
  obtain ⟨i, _, hi⟩ := List.mem_flatMap.mp hop
  split at hi
  · simp only [List.mem_singleton] at hi
    subst hi
    rfl
  · split at hi
    · simp only [List.mem_singleton] at hi
      subst hi
      rfl
    · simp at hi

theorem UpdateSubnetRoute_loop_subnet (w : World) (bv : VrfId) (a : VnId) (r : VrfId)
    (ipam : List VnIpam) (l : List VnId) (ops : List Op)
    (h : UpdateSubnetRoute_loop w bv a r ipam l = .ok ops) :
    ∀ op ∈ ops, op.isSubnetOp = true := by
  induction l generalizing ops with
  | nil =>
    unfold UpdateSubnetRoute_loop at h
    cases h
    simp
  | cons b l ih =>
    unfold UpdateSubnetRoute_loop at h
    split at h
    · cases h
    · next ops1 h1 =>
      split at h
      · cases h
      · next ops2 h2 =>
        cases h
        intro op hop
        rcases List.mem_append.mp hop with hm | hm
        · unfold UpdateSubnetRoute_body at h1
          split at h1
          · cases h1
            simp at hm
          · split at h1
            · cases h1
            · cases h1
              rcases List.mem_append.mp hm with hm2 | hm2
              · exact UpdateSubnetRoute_ipams_subnet _ _ _ _ op hm2
              · split at hm2
                · simp at hm2
                · exact UpdateSubnetRoute_ipams_subnet _ _ _ _ op hm2
        · exact ih ops2 h2 op hm

theorem UpdateSubnetRoute_loop_fault (w : World) (bv : VrfId) (a : VnId) (r : VrfId)
    (ipam : List VnIpam) (l : List VnId) (f : Fault)
    (h : UpdateSubnetRoute_loop w bv a r ipam l = .error f) : f = Fault.null_deref := by
  induction l with
  | nil =>
    unfold UpdateSubnetRoute_loop at h
    cases h
  | cons b l ih =>
    unfold UpdateSubnetRoute_loop at h
    split at h
    · next f1 h1 =>
      cases h
      unfold UpdateSubnetRoute_body at h1
      split at h1
      · cases h1
      · split at h1
        · cases h1
          rfl
        · cases h1
    · split at h
      · next f2 h2 =>
        cases h
        exact ih h2
      · cases h

theorem UpdateSubnetRoute_step {w : World} {s s2 : VxlanRoutingManager} {b r : VrfId}
    (h : UpdateSubnetRoute w s b r = .ok s2) : SubnetStep s s2 := by
  unfold UpdateSubnetRoute at h
  repeat' (first | split at h | dsimp only at h)
  all_goals cases h
  all_goals first
    | exact SubnetStep.step_refl s
    | exact ⟨rfl, rfl, OpsAdded.added_of_eq rfl⟩
    | exact ⟨rfl, rfl, OpsAdded.added_of_append _ rfl
        (UpdateSubnetRoute_loop_subnet _ _ _ _ _ _ _ (by assumption))⟩

theorem UpdateSubnetRoute_fault {w : World} {s : VxlanRoutingManager} {b r : VrfId} {f : Fault}
    (h : UpdateSubnetRoute w s b r = .error f) : f = Fault.null_deref := by
  unfold UpdateSubnetRoute at h
  repeat' (first | split at h | dsimp only at h)
  all_goals cases h
  exact UpdateSubnetRoute_loop_fault _ _ _ _ _ _ _ (by assumption)

theorem lrIndex_bridges_have_vrf {w : World} {s : VxlanRoutingManager}
    (hv : AllBridgesHaveVrf w s) (uuid : Uuid) :
    ∀ x ∈ (lrIndex s.lr_vrf_info_map_ uuid).2.bridge_vn_list_, (w.vn x).GetVrf ≠ none := by
  intro x hx
  rw [lrIndex_snd] at hx
  cases hm : mapFind uuid s.lr_vrf_info_map_ with
  | none => rw [hm] at hx; simp [RoutedVrfInfo.init] at hx
  | some info => rw [hm] at hx; exact hv uuid info hm x hx

theorem UpdateSubnetRoute_loop_no_fault {w : World} {bv : VrfId} {a : VnId} {r : VrfId}
    {ipam : List VnIpam} {l : List VnId} {f : Fault}
    (h : UpdateSubnetRoute_loop w bv a r ipam l = .error f)
    (hl : ∀ x ∈ l, (w.vn x).GetVrf ≠ none) : False := by
  induction l generalizing f with
  | nil =>
    unfold UpdateSubnetRoute_loop at h
    cases h
  | cons b l ih =>
    unfold UpdateSubnetRoute_loop at h
    split at h
    · next f1 h1 =>
      unfold UpdateSubnetRoute_body at h1
      split at h1
      · cases h1
      · split at h1
        · next hn => exact hl b (List.mem_cons_self _ _) hn
        · cases h1
    · split at h
      · next f2 h2 => exact ih h2 (fun x hx => hl x (List.mem_cons_of_mem _ hx))
      · cases h

theorem UpdateSubnetRoute_total {w : World} {s : VxlanRoutingManager} (b r : VrfId)
    (hv : AllBridgesHaveVrf w s) : ∃ s2, UpdateSubnetRoute w s b r = .ok s2 := by
  unfold UpdateSubnetRoute
  repeat' (first | split | dsimp only)
  all_goals first
    | exact ⟨_, rfl⟩
    | exact (UpdateSubnetRoute_loop_no_fault (by assumption)
        (lrIndex_bridges_have_vrf hv _)).elim

theorem UpdateSubnetRoute_no_fault {w : World} {s : VxlanRoutingManager} {b r : VrfId}
    {f : Fault} (h : UpdateSubnetRoute w s b r = .error f) (hv : AllBridgesHaveVrf w s) :
    False := by
  obtain ⟨s2, h2⟩ := UpdateSubnetRoute_total b r hv
  rw [h2] at h
  cases h

theorem set_lr_vrf_step (s : VxlanRoutingManager) (x : VnId) (v : Option VrfId) :
    SubnetStep s { s with ops := s.ops ++ [Op.set_lr_vrf x v] } :=
  ⟨rfl, rfl, OpsAdded.added_of_append _ rfl (by simp [Op.isSubnetOp])⟩

theorem HandleSubnetRoute_step {w : World} {s s2 : VxlanRoutingManager} {v : VrfId} {b : Bool}
    (h : HandleSubnetRoute w s v b = .ok s2) : SubnetStep s s2 := by
  unfold HandleSubnetRoute at h
  repeat' (first | split at h | dsimp only at h)
  all_goals cases h
  all_goals first
    | exact SubnetStep.step_refl s
    | exact (DeleteSubnetRoute_step w s _ _).step_trans (set_lr_vrf_step _ _ _)
    | exact (UpdateSubnetRoute_step (by assumption)).step_trans (set_lr_vrf_step _ _ _)
    | exact DeleteSubnetRoute_step w s _ _

theorem HandleSubnetRoute_fault {w : World} {s : VxlanRoutingManager} {v : VrfId} {b : Bool}
    {f : Fault} (h : HandleSubnetRoute w s v b = .error f) : f = Fault.null_deref := by
  unfold HandleSubnetRoute at h
  repeat' (first | split at h | dsimp only at h)
  all_goals cases h
  all_goals exact UpdateSubnetRoute_fault (by assumption)

theorem HandleSubnetRoute_total {w : World} {s : VxlanRoutingManager} (v : VrfId) (b : Bool)
    (hv : AllBridgesHaveVrf w s) : ∃ s2, HandleSubnetRoute w s v b = .ok s2 := by
  unfold HandleSubnetRoute
  repeat' (first | split | dsimp only)
  all_goals first
    | exact ⟨_, rfl⟩
    | exact (UpdateSubnetRoute_no_fault (by assumption) hv).elim

/-! ## De-duplication of the bridge-table walks -/

theorem mapFind_eq_none_iff {α : Type} (k : Nat) (m : List (Nat × α)) :
    mapFind k m = none ↔ k ∉ m.map Prod.fst := by
  induction m with
  | nil => simp [mapFind]
  | cons p m ih =>
    obtain ⟨k1, v⟩ := p
    by_cases h : k1 = k
    · simp [mapFind, h]
    · simp only [mapFind, h, if_false, ih, List.map_cons, List.mem_cons, not_or]
      exact ⟨fun hm => ⟨fun e => h e.symm, hm⟩, fun hm => hm.2⟩

theorem mapErase_keys {α : Type} (k : Nat) (m : List (Nat × α)) :
    (mapErase k m).map Prod.fst = (m.map Prod.fst).filter (fun t => decide (t ≠ k)) := by
  induction m with
  | nil => rfl
  | cons p m ih =>
    obtain ⟨k1, v⟩ := p
    by_cases h : k1 = k
    · simp [mapErase, h, ih]
    · simp [mapErase, h, ih]

theorem mapInsert_keys_mem {α : Type} (k : Nat) (v : α) (m : List (Nat × α)) (t : Nat) :
    t ∈ (mapInsert k v m).map Prod.fst ↔ t = k ∨ t ∈ m.map Prod.fst := by
  induction m with
  | nil => simp [mapInsert]
  | cons p m ih =>
    obtain ⟨k1, v1⟩ := p
    unfold mapInsert
    by_cases h1 : k < k1
    · simp [h1]
    · by_cases h2 : k = k1
      · subst h2
        simp
      · simp only [h1, h2, if_false, List.map_cons, List.mem_cons, ih]
        tauto

theorem mapInsert_keys_nodup {α : Type} (k : Nat) (v : α) (m : List (Nat × α))
    (hk : k ∉ m.map Prod.fst) (hn : (m.map Prod.fst).Nodup) :
    ((mapInsert k v m).map Prod.fst).Nodup := by
  induction m with
  | nil => simp [mapInsert]
  | cons p m ih =>
    obtain ⟨k1, v1⟩ := p
    simp only [List.map_cons, List.mem_cons, not_or] at hk
    simp only [List.map_cons, List.nodup_cons] at hn
    unfold mapInsert
    by_cases h1 : k < k1
    · simp only [h1, if_true, List.map_cons, List.nodup_cons, List.mem_cons, not_or]
      exact ⟨⟨hk.1, hk.2⟩, hn.1, hn.2⟩
    · simp only [h1, if_false, hk.1, List.map_cons, List.nodup_cons]
      refine ⟨?_, ih hk.2 hn.2⟩
      intro hm
      rcases (mapInsert_keys_mem k v m k1).mp hm with e | e
      · exact hk.1 e.symm
      · exact hn.1 e

/-- The manager after the allocation or re-arming done by `WalkEvpnTable`. -/
theorem WalkEvpnTable_ok {w : World} {s s2 : VxlanRoutingManager} {t : VrfId}
    (h : WalkEvpnTable w s t = .ok s2) :
    s2.evpn_table_walker_ =
        (match mapFind t s.evpn_table_walker_ with
          | none => mapInsert t s.walk_ref_seq s.evpn_table_walker_
          | some _ => s.evpn_table_walker_) ∧
      ∃ rest, s2.ops = s.ops ++
          (match mapFind t s.evpn_table_walker_ with
            | none => [Op.AllocWalker t s.walk_ref_seq, Op.WalkAgain t s.walk_ref_seq]
            | some walk_ref => [Op.WalkAgain t walk_ref]) ++ rest ∧
        ∀ op ∈ rest, op.isSubnetOp = true := by
  unfold WalkEvpnTable at h
  dsimp only at h
  obtain ⟨a, _, rest, e, p⟩ := HandleSubnetRoute_step h
  cases hm : mapFind t s.evpn_table_walker_ with
  | none =>
    rw [hm] at a e
    exact ⟨a, rest, e, p⟩
  | some walk_ref =>
    rw [hm] at a e
    exact ⟨a, rest, e, p⟩

theorem WalkEvpnTable_fault {w : World} {s : VxlanRoutingManager} {t : VrfId} {f : Fault}
    (h : WalkEvpnTable w s t = .error f) : f = Fault.null_deref := by
  unfold WalkEvpnTable at h
  exact HandleSubnetRoute_fault h

theorem AllBridgesHaveVrf.bridges_of_lr_eq {w : World} {s s2 : VxlanRoutingManager}
    (h : s2.lr_vrf_info_map_ = s.lr_vrf_info_map_) (hv : AllBridgesHaveVrf w s) :
    AllBridgesHaveVrf w s2 := by
  intro u info hu
  rw [h] at hu
  exact hv u info hu

theorem AllBridgesHaveVrf.bridges_of_grows {w : World} {s s2 : VxlanRoutingManager}
    (g : LrGrows s s2) (hv : AllBridgesHaveVrf w s) : AllBridgesHaveVrf w s2 := by
  intro u info hu b hb
  rcases g.2.2.2 u with e | ⟨_, e⟩
  · rw [e] at hu
    exact hv u info hu b hb
  · rw [e] at hu
    cases hu
    simp [RoutedVrfInfo.init] at hb

theorem WalkEvpnTable_total {w : World} {s : VxlanRoutingManager} (t : VrfId)
    (hv : AllBridgesHaveVrf w s) : ∃ s2, WalkEvpnTable w s t = .ok s2 := by
  unfold WalkEvpnTable
  dsimp only
  apply HandleSubnetRoute_total
  split
  · exact AllBridgesHaveVrf.bridges_of_lr_eq rfl hv
  · exact AllBridgesHaveVrf.bridges_of_lr_eq rfl hv

theorem walkCalls_spec (w : World) (cs : List WalkCall) :
    ∀ (s : VxlanRoutingManager) (pending : List VrfId),
      (∀ t, t ∈ pending ↔ t ∈ walkerTables s) → (walkerTables s).Nodup →
      CompletionsFollowSchedules pending cs →
      (walkCalls w s cs = .error Fault.null_deref ∧ ¬ AllBridgesHaveVrf w s) ∨
        ∃ s2, walkCalls w s cs = .ok s2 ∧ (walkerTables s2).Nodup ∧
          ∀ t, t ∈ pendingAfter pending cs ↔ t ∈ walkerTables s2 := by
  induction cs with
  | nil =>
    intro s pending hp hn _
    exact Or.inr ⟨s, rfl, hn, hp⟩
  | cons c rest ih =>
    intro s pending hp hn hs
    cases c with
    | schedule t =>
      cases h : WalkEvpnTable w s t with
      | error f =>
        have hf := WalkEvpnTable_fault h
        subst hf
        refine Or.inl ⟨?_, fun hv => ?_⟩
        · simp only [walkCalls, walkCall, h]
        · obtain ⟨s2, h2⟩ := WalkEvpnTable_total t hv
          rw [h2] at h
          cases h
      | ok s1 =>
        have hw := (WalkEvpnTable_ok h).1
        have hp1 : ∀ x, x ∈ pendingStep pending (WalkCall.schedule t) ↔ x ∈ walkerTables s1 := by
          intro x
          unfold walkerTables pendingStep
          rw [hw]
          cases hm : mapFind t s.evpn_table_walker_ with
          | none =>
            have ht : t ∉ pending := fun hin =>
              (mapFind_eq_none_iff t _).mp hm ((hp t).mp hin)
            simp only [ht, if_false, List.mem_cons, mapInsert_keys_mem]
            exact or_congr Iff.rfl (hp x)
          | some r =>
            have ht : t ∈ pending := by
              apply (hp t).mpr
              by_contra hc
              rw [(mapFind_eq_none_iff t _).mpr hc] at hm
              cases hm
            simp only [ht, if_true]
            exact hp x
        have hn1 : (walkerTables s1).Nodup := by
          unfold walkerTables
          rw [hw]
          cases hm : mapFind t s.evpn_table_walker_ with
          | none => exact mapInsert_keys_nodup _ _ _ ((mapFind_eq_none_iff t _).mp hm) hn
          | some r => exact hn
        rcases ih s1 _ hp1 hn1 hs with ⟨e, hv⟩ | ⟨s2, e, r⟩
        · refine Or.inl ⟨?_, fun hv0 => hv (hv0.bridges_of_grows (WalkEvpnTable_grows h))⟩
          simp only [walkCalls, walkCall, h, e]
        · refine Or.inr ⟨s2, ?_, r⟩
          simp only [walkCalls, walkCall, h, e]
    | done t =>
      obtain ⟨ht, hs1⟩ := hs
      have hin : t ∈ walkerTables s := (hp t).mp ht
      obtain ⟨r, hr⟩ : ∃ r, mapFind t s.evpn_table_walker_ = some r := by
        cases hm : mapFind t s.evpn_table_walker_ with
        | none => exact absurd hin ((mapFind_eq_none_iff t _).mp hm)
        | some r => exact ⟨r, rfl⟩
      have h : RouteWalkDone s t =
          .ok { s with evpn_table_walker_ := mapErase t s.evpn_table_walker_ } := by
        simp only [RouteWalkDone, hr]
      have hp1 : ∀ x, x ∈ pendingStep pending (WalkCall.done t) ↔
          x ∈ walkerTables { s with evpn_table_walker_ := mapErase t s.evpn_table_walker_ } := by
        intro x
        unfold walkerTables pendingStep
        simp only [mapErase_keys, List.mem_filter]
        exact and_congr (hp x) Iff.rfl
      have hn1 : (walkerTables
          { s with evpn_table_walker_ := mapErase t s.evpn_table_walker_ }).Nodup := by
        unfold walkerTables
        simp only [mapErase_keys]
        exact hn.filter _
      rcases ih _ _ hp1 hn1 hs1 with ⟨e, hv⟩ | ⟨s2, e, r⟩
      · refine Or.inl ⟨?_, fun hv0 => hv (hv0.bridges_of_lr_eq rfl)⟩
        simp only [walkCalls, walkCall, h, e]
      · refine Or.inr ⟨s2, ?_, r⟩
        simp only [walkCalls, walkCall, h, e]

/-- C19: let `evpn_table_walker_` hold at most one walker per table and let
every completion in a sequence of `WalkEvpnTable` and `RouteWalkDone` calls
follow a schedule for the same table that has not completed yet. Then the
sequence either returns or stops in the subnet-route update on a bridge VN
without a VRF (never in the assertion of `RouteWalkDone`); when it returns,
`evpn_table_walker_` holds at most one walker per table, for exactly the
tables with a scheduled walk that has not completed. `WalkEvpnTable`
allocates a walker and files it only when the table has no entry, and
otherwise issues `WalkAgain` on the stored walker and leaves the map as it
is; `RouteWalkDone` for a table with an entry returns and leaves the table
without an entry, so that the next `WalkEvpnTable` allocates. -/
theorem C19_bridge_walks_are_deduplicated (w : World) (s : VxlanRoutingManager)
    (cs : List WalkCall) (hn : (walkerTables s).Nodup)
    (hs : CompletionsFollowSchedules (walkerTables s) cs) :
    ((walkCalls w s cs = .error Fault.null_deref ∧ ¬ AllBridgesHaveVrf w s) ∨
      ∃ s2, walkCalls w s cs = .ok s2 ∧ (walkerTables s2).Nodup ∧
        ∀ t, t ∈ pendingAfter (walkerTables s) cs ↔ t ∈ walkerTables s2) ∧
    (∀ t s2, WalkEvpnTable w s t = .ok s2 →
      s2.evpn_table_walker_ =
          (match mapFind t s.evpn_table_walker_ with
            | none => mapInsert t s.walk_ref_seq s.evpn_table_walker_
            | some _ => s.evpn_table_walker_) ∧
        ∃ rest, s2.ops = s.ops ++
            (match mapFind t s.evpn_table_walker_ with
              | none => [Op.AllocWalker t s.walk_ref_seq, Op.WalkAgain t s.walk_ref_seq]
              | some walk_ref => [Op.WalkAgain t walk_ref]) ++ rest ∧
          ∀ op ∈ rest, op.isSubnetOp = true) ∧
    (∀ t, t ∈ walkerTables s →
      ∃ s2, RouteWalkDone s t = .ok s2 ∧ mapFind t s2.evpn_table_walker_ = none ∧
        (∀ x, x ≠ t → mapFind x s2.evpn_table_walker_ = mapFind x s.evpn_table_walker_) ∧
        s2.ops = s.ops) := by
  refine ⟨walkCalls_spec w cs s _ (fun _ => Iff.rfl) hn hs, fun t s2 h => WalkEvpnTable_ok h,
    fun t ht => ?_⟩
  cases hm : mapFind t s.evpn_table_walker_ with
  | none => exact absurd ht ((mapFind_eq_none_iff t _).mp hm)
  | some r =>
    refine ⟨{ s with evpn_table_walker_ := mapErase t s.evpn_table_walker_ }, ?_,
      mapFind_mapErase_self _ _, fun x hx => mapFind_mapErase_ne hx _, rfl⟩
    simp only [RouteWalkDone, hm]

/-- C19 at a concrete input: two schedules for the table of VRF `102`, its
completion, and a new schedule, from the manager without walkers. -/
theorem C19_bridge_walks_are_deduplicated_witness :
    (walkCalls World.sample VxlanRoutingManager.init
          [WalkCall.schedule 102, WalkCall.schedule 102, WalkCall.done 102,
            WalkCall.schedule 102] = .error Fault.null_deref ∧
        ¬ AllBridgesHaveVrf World.sample VxlanRoutingManager.init) ∨
      ∃ s2, walkCalls World.sample VxlanRoutingManager.init
          [WalkCall.schedule 102, WalkCall.schedule 102, WalkCall.done 102,
            WalkCall.schedule 102] = .ok s2 ∧ (walkerTables s2).Nodup ∧
        ∀ t, t ∈ pendingAfter (walkerTables VxlanRoutingManager.init)
            [WalkCall.schedule 102, WalkCall.schedule 102, WalkCall.done 102,
              WalkCall.schedule 102] ↔ t ∈ walkerTables s2 :=
  (C19_bridge_walks_are_deduplicated World.sample VxlanRoutingManager.init
    [WalkCall.schedule 102, WalkCall.schedule 102, WalkCall.done 102, WalkCall.schedule 102]
    (by simp [walkerTables, VxlanRoutingManager.init])
    (by simp [CompletionsFollowSchedules, pendingStep, walkerTables,
      VxlanRoutingManager.init])).1

/-! ## Peer scoping of the requests -/

theorem OpsScoped.scoped_refl (s : VxlanRoutingManager) : OpsScoped s s :=
  OpsAdded.added_refl _ s

theorem OpsScoped.scoped_trans {s s2 s3 : VxlanRoutingManager}
    (h1 : OpsScoped s s2) (h2 : OpsScoped s2 s3) : OpsScoped s s3 :=
  OpsAdded.added_trans h1 h2

theorem OpsScoped.scoped_of_eq {s s2 : VxlanRoutingManager} (h : s2.ops = s.ops) :
    OpsScoped s s2 :=
  OpsAdded.added_of_eq h

theorem OpsScoped.scoped_of_append {s s2 : VxlanRoutingManager} (l : List Op)
    (h : s2.ops = s.ops ++ l) (hl : ∀ op ∈ l, op.peerScoped = true) : OpsScoped s s2 :=
  OpsAdded.added_of_append l h hl

theorem Op.peerScoped_of_isSubnetOp (op : Op) (h : op.isSubnetOp = true) :
    op.peerScoped = true := by
  cases op <;> first | exact h | rfl | cases h

theorem OpsScoped.scoped_of_step {s s2 : VxlanRoutingManager} (h : SubnetStep s s2) :
    OpsScoped s s2 :=
  OpsAdded.added_mono Op.peerScoped_of_isSubnetOp h.2.2

theorem WalkEvpnTable_scoped {w : World} {s s2 : VxlanRoutingManager} {t : VrfId}
    (h : WalkEvpnTable w s t = .ok s2) : OpsScoped s s2 := by
  unfold WalkEvpnTable at h
  refine OpsScoped.scoped_trans ?_ (OpsScoped.scoped_of_step (HandleSubnetRoute_step h))
  split
  · exact OpsScoped.scoped_of_append _ rfl (by simp [Op.peerScoped])
  · exact OpsScoped.scoped_of_append _ rfl (by simp [Op.peerScoped])

theorem WalkRoutingVrf_scoped (w : World) (s : VxlanRoutingManager) (uuid : Uuid) (vn : VnId)
    (update withdraw : Bool) : OpsScoped s (WalkRoutingVrf w s uuid vn update withdraw) := by
  unfold WalkRoutingVrf
  repeat' (first | split | dsimp only)
  all_goals first
    | exact OpsScoped.scoped_refl s
    | exact OpsScoped.scoped_of_eq rfl
    | exact OpsScoped.scoped_of_append _ rfl (by simp [Op.peerScoped])

theorem WalkBridgeVrfs_loop_scoped (w : World) (fuel : Nat) :
    ∀ (l : List VnId) (s s2 : VxlanRoutingManager),
      WalkBridgeVrfs_loop w fuel l s = .ok s2 → OpsScoped s s2 := by
  induction fuel with
  | zero =>
    intro l s s2 h
    unfold WalkBridgeVrfs_loop at h
    cases h
  | succ n ih =>
    intro l s s2 h
    cases l with
    | nil =>
      unfold WalkBridgeVrfs_loop at h
      cases h
      exact OpsScoped.scoped_refl s
    | cons vn rest =>
      unfold WalkBridgeVrfs_loop at h
      split at h
      · split at h
        · exact ih _ _ _ h
        · split at h
          · cases h
          · next s1 h1 => exact (WalkEvpnTable_scoped h1).scoped_trans (ih _ _ _ h)
      · exact ih _ _ _ h

theorem WalkBridgeVrfs_scoped {w : World} {s s2 : VxlanRoutingManager} {info : RoutedVrfInfo}
    (h : WalkBridgeVrfs w s info = .ok s2) : OpsScoped s s2 :=
  WalkBridgeVrfs_loop_scoped w _ _ _ _ h

theorem TryDeleteLogicalRouter_scoped (s : VxlanRoutingManager) (uuid : Uuid) :
    OpsScoped s (TryDeleteLogicalRouter s uuid) := by
  unfold TryDeleteLogicalRouter
  repeat' (first | split | dsimp only)
  all_goals exact OpsScoped.scoped_of_eq rfl

theorem BridgeVnNotify_withdraw_scoped (w : World) (s : VxlanRoutingManager) (vn : VnId)
    (it : Option Uuid) : OpsScoped s (BridgeVnNotify_withdraw w s vn it) := by
  unfold BridgeVnNotify_withdraw
  dsimp only
  refine OpsScoped.scoped_trans ?_ (OpsScoped.scoped_of_eq rfl)
  cases it with
  | none => exact OpsScoped.scoped_refl s
  | some cur =>
    dsimp only
    cases mapFind cur s.lr_vrf_info_map_ with
    | none => exact OpsScoped.scoped_refl s
    | some info =>
      dsimp only
      refine OpsScoped.scoped_trans ?_ (TryDeleteLogicalRouter_scoped _ _)
      have h1 : OpsScoped s
          (match (w.vn vn).GetVrf with
            | some v => if (w.vrf v).IsDeleted then s else DeleteSubnetRoute w s (some v) none
            | none => s) := by
        split
        · split
          · exact OpsScoped.scoped_refl s
          · exact OpsScoped.scoped_of_step (DeleteSubnetRoute_step w s _ _)
        · exact OpsScoped.scoped_refl s
      have key : ∀ s1 : VxlanRoutingManager, OpsScoped s1
          (if vn ∈ info.bridge_vn_list_ then
            { WalkRoutingVrf w s1 cur vn false true with
              lr_vrf_info_map_ :=
                mapSet cur { info with bridge_vn_list_ := setErase vn info.bridge_vn_list_ }
                  (WalkRoutingVrf w s1 cur vn false true).lr_vrf_info_map_ }
          else s1) := by
        intro s1
        split
        · exact (WalkRoutingVrf_scoped w _ cur vn false true).scoped_trans
            (OpsScoped.scoped_of_eq rfl)
        · exact OpsScoped.scoped_refl _
      exact h1.scoped_trans (key _)

theorem BridgeVnNotify_update_scoped (w : World) (s : VxlanRoutingManager) (vn : VnId)
    (uuid : Uuid) : OpsScoped s (BridgeVnNotify_update w s vn uuid).1 := by
  unfold BridgeVnNotify_update
  dsimp only
  split
  · exact OpsScoped.scoped_of_eq rfl
  · exact OpsScoped.scoped_trans (OpsScoped.scoped_of_eq rfl) (WalkRoutingVrf_scoped w _ _ _ _ _)

theorem BridgeVnNotify_maps_scoped (w : World) (s : VxlanRoutingManager) (vn : VnId)
    (uuid : Uuid) : OpsScoped s (BridgeVnNotify_maps w s vn uuid).1 := by
  unfold BridgeVnNotify_maps
  dsimp only
  have h1 : OpsScoped s
      (if (BridgeVnNotify_flags w vn (mapFind vn s.vn_lr_set_) uuid).1 = true then
        BridgeVnNotify_withdraw w s vn (mapFind vn s.vn_lr_set_) else s) := by
    split
    · exact BridgeVnNotify_withdraw_scoped w s vn _
    · exact OpsScoped.scoped_refl s
  split
  · exact h1.scoped_trans (BridgeVnNotify_update_scoped w _ vn uuid)
  · exact h1

theorem BridgeVnNotify_scoped {w : World} {s : VxlanRoutingManager} {vn : VnId}
    {st : VxlanRoutingVnState} {r : VxlanRoutingVnState × VxlanRoutingManager}
    (h : BridgeVnNotify w s vn st = .ok r) : OpsScoped s r.2 := by
  unfold BridgeVnNotify at h
  repeat' (first | split at h | dsimp only at h)
  all_goals cases h
  all_goals first
    | exact OpsScoped.scoped_refl s
    | exact BridgeVnNotify_maps_scoped w s vn _
    | exact (BridgeVnNotify_maps_scoped w s vn _).scoped_trans
        (WalkEvpnTable_scoped (by assumption))

theorem OpsScoped.scoped_after_eq {s s1 s2 : VxlanRoutingManager} (h2 : OpsScoped s1 s2)
    (h1 : s1.ops = s.ops) : OpsScoped s s2 :=
  (OpsScoped.scoped_of_eq h1).scoped_trans h2

theorem RoutingVnNotify_withdraw_scoped {w : World} {s s2 : VxlanRoutingManager} {vn : VnId}
    {cur : Uuid} (h : RoutingVnNotify_withdraw w s vn cur = .ok s2) : OpsScoped s s2 := by
  unfold RoutingVnNotify_withdraw at h
  repeat' (first | split at h | dsimp only at h)
  all_goals cases h
  all_goals first
    | exact OpsScoped.scoped_of_eq (by rfl)
    | exact (TryDeleteLogicalRouter_scoped s cur).scoped_trans (OpsScoped.scoped_of_eq (by rfl))
    | exact (OpsScoped.scoped_after_eq (WalkBridgeVrfs_scoped (by assumption))
        (by rfl)).scoped_trans
          ((TryDeleteLogicalRouter_scoped _ cur).scoped_trans (OpsScoped.scoped_of_eq (by rfl)))

theorem RoutingVnNotify_update_scoped {w : World} {s s2 : VxlanRoutingManager} {vn : VnId}
    {st : VxlanRoutingVnState} {it : Option Uuid}
    (h : RoutingVnNotify_update w s vn st it = .ok s2) : OpsScoped s s2 := by
  unfold RoutingVnNotify_update at h
  split at h
  · cases h
    exact OpsScoped.scoped_refl s
  · dsimp only at h
    split at h
    · refine OpsScoped.scoped_trans ?_ (WalkBridgeVrfs_scoped h)
      cases it <;> exact OpsScoped.scoped_of_eq (by rfl)
    · cases h
      cases it <;> exact OpsScoped.scoped_of_eq (by rfl)

theorem RoutingVnNotify_scoped {w : World} {s s2 : VxlanRoutingManager} {vn : VnId}
    {st : VxlanRoutingVnState} (h : RoutingVnNotify w s vn st = .ok s2) : OpsScoped s s2 := by
  unfold RoutingVnNotify at h
  dsimp only at h
  split at h
  · cases h
  · next s1 h1 =>
    have g1 : OpsScoped s s1 := by
      split at h1
      · split at h1
        · exact RoutingVnNotify_withdraw_scoped h1
        · cases h1
          exact OpsScoped.scoped_refl s
      · cases h1
        exact OpsScoped.scoped_refl s
    split at h
    · exact g1.scoped_trans (RoutingVnNotify_update_scoped h)
    · cases h
      exact g1

theorem VnNotify_scoped {w : World} {s s2 : VxlanRoutingManager} {vn : VnId}
    (h : VnNotify w s vn = .ok s2) : OpsScoped s s2 := by
  unfold VnNotify at h
  repeat' (first | split at h | dsimp only at h)
  all_goals first
    | cases h
    | skip
  all_goals first
    | exact OpsScoped.scoped_refl s
    | exact (RoutingVnNotify_scoped (by assumption)).scoped_trans (OpsScoped.scoped_of_eq (by rfl))
    | exact (BridgeVnNotify_scoped (by assumption)).scoped_trans (OpsScoped.scoped_of_eq (by rfl))
    | exact OpsScoped.scoped_after_eq (RoutingVnNotify_scoped h) (by rfl)
    | exact (OpsScoped.scoped_after_eq (BridgeVnNotify_scoped (by assumption))
        (by rfl)).scoped_trans (OpsScoped.scoped_of_eq (by rfl))

theorem AddVmi_scoped {w : World} {s : VxlanRoutingManager} {vn : VnId} {vmi : VmiId}
    {st : VxlanRoutingVnState} {r : VxlanRoutingVnState × VxlanRoutingManager}
    (h : AddVmi w s vn vmi st = .ok r) : OpsScoped s r.2 := by
  unfold AddVmi at h
  repeat' (first | split at h | dsimp only at h)
  all_goals first
    | cases h
    | skip
  all_goals first
    | exact OpsScoped.scoped_refl s
    | exact BridgeVnNotify_scoped h

theorem DeleteVmi_scoped {w : World} {s : VxlanRoutingManager} {vn : VnId} {vmi : VmiId}
    {st : VxlanRoutingVnState} {r : VxlanRoutingVnState × VxlanRoutingManager}
    (h : DeleteVmi w s vn vmi st = .ok r) : OpsScoped s r.2 := by
  unfold DeleteVmi at h
  split at h
  · exact BridgeVnNotify_scoped h
  · cases h
    exact OpsScoped.scoped_refl s

theorem VmiNotify_scoped {w : World} {s s2 : VxlanRoutingManager} {vmi : VmiId}
    (h : VmiNotify w s vmi = .ok s2) : OpsScoped s s2 := by
  unfold VmiNotify at h
  repeat' (first | split at h | dsimp only at h)
  all_goals cases h
  all_goals first
    | exact OpsScoped.scoped_refl s
    | exact OpsScoped.scoped_of_eq (by rfl)
    | exact (DeleteVmi_scoped (by assumption)).scoped_trans (OpsScoped.scoped_of_eq (by rfl))
    | exact OpsScoped.scoped_after_eq (VnNotify_scoped (by assumption)) (by rfl)
    | exact (OpsScoped.scoped_after_eq (VnNotify_scoped (by assumption)) (by rfl)).scoped_trans
        ((AddVmi_scoped (by assumption)).scoped_trans (OpsScoped.scoped_of_eq (by rfl)))

theorem VrfNotify_scoped {w : World} {s s2 : VxlanRoutingManager} {vrf : VrfId}
    (h : VrfNotify w s vrf = .ok s2) : OpsScoped s s2 := by
  unfold VrfNotify at h
  split at h
  · cases h
    exact OpsScoped.scoped_refl s
  · split at h
    · cases h
      exact OpsScoped.scoped_refl s
    · split at h
      · split at h
        · split at h
          · cases h
          · next s1 h1 =>
            cases h
            exact (OpsScoped.scoped_of_step (HandleSubnetRoute_step h1)).scoped_trans
              (OpsScoped.scoped_of_eq (by rfl))
        · cases h
          exact OpsScoped.scoped_refl s
      · dsimp only at h
        split at h
        · cases h
        · refine OpsScoped.scoped_trans ?_ (OpsScoped.scoped_of_step (HandleSubnetRoute_step h))
          split
          · exact OpsScoped.scoped_of_append _ rfl (by simp [Op.peerScoped])
          · exact OpsScoped.scoped_of_eq (by rfl)

theorem UpdateEvpnType5Route_scoped (w : World) (s : VxlanRoutingManager) (route : AgentRoute)
    (path : AgentPath) (rv : VrfId) : OpsScoped s (UpdateEvpnType5Route w s route path rv) := by
  unfold UpdateEvpnType5Route
  split
  · exact OpsScoped.scoped_refl s
  · exact OpsScoped.scoped_of_append _ rfl (by simp [Op.peerScoped])

theorem InetRouteNotify_scoped {w : World} {s s2 : VxlanRoutingManager} {e : AgentRoute}
    (h : InetRouteNotify w s e = .ok s2) : OpsScoped s s2 := by
  unfold InetRouteNotify at h
  repeat' (first | split at h | dsimp only at h)
  all_goals cases h
  all_goals first
    | exact OpsScoped.scoped_refl s
    | exact OpsScoped.scoped_of_append _ rfl (by simp [Op.peerScoped])
    | exact UpdateEvpnType5Route_scoped w s _ _ _

theorem RouteNotifyInLrEvpnTable_loop_scoped (w : World) (e : AgentRoute)
    (rv : Option VrfId) (l : List VnId) (ops : List Op)
    (h : RouteNotifyInLrEvpnTable_loop w e rv l = .ok ops) :
    ∀ op ∈ ops, op.peerScoped = true := by
  induction l generalizing ops with
  | nil =>
    unfold RouteNotifyInLrEvpnTable_loop at h
    cases h
    simp
  | cons b l ih =>
    unfold RouteNotifyInLrEvpnTable_loop at h
    repeat' (first | split at h | dsimp only at h)
    all_goals first
      | exact ih ops h
      | cases h
    all_goals first
      | (intro op hop
         rcases List.mem_cons.mp hop with e1 | e1
         · subst e1
           rfl
         · exact ih _ (by assumption) op e1)
      | (intro op hop
         cases hop)

theorem RouteNotifyInLrEvpnTable_scoped {w : World} {s s2 : VxlanRoutingManager}
    {e : AgentRoute} {uuid : Uuid} {vn : Option VnId} {update withdraw : Bool}
    (h : RouteNotifyInLrEvpnTable w s e uuid vn update withdraw = .ok s2) :
    OpsScoped s s2 := by
  unfold RouteNotifyInLrEvpnTable at h
  repeat' (first | split at h | dsimp only at h)
  all_goals cases h
  all_goals first
    | exact OpsScoped.scoped_refl s
    | exact OpsScoped.scoped_of_append _ rfl
        (RouteNotifyInLrEvpnTable_loop_scoped _ _ _ _ _ (by assumption))
    | exact OpsScoped.scoped_of_append _ rfl (by simp [Op.peerScoped])

theorem EvpnType5RouteNotify_scoped {w : World} {s s2 : VxlanRoutingManager} {e : AgentRoute}
    (h : EvpnType5RouteNotify w s e = .ok s2) : OpsScoped s s2 := by
  unfold EvpnType5RouteNotify at h
  split at h
  · cases h
  · dsimp only at h
    split at h
    · cases h
    · next s1 h1 =>
      have g1 : OpsScoped s s1 := by
        split at h1
        · split at h1
          · exact RouteNotifyInLrEvpnTable_scoped h1
          · cases h1
            exact OpsScoped.scoped_refl s
        · cases h1
          exact OpsScoped.scoped_refl s
      refine g1.scoped_trans ?_
      repeat' (first | split at h | dsimp only at h)
      all_goals cases h
      all_goals exact OpsScoped.scoped_of_append _ rfl (by simp [Op.peerScoped])

theorem DeleteInetRoute_scoped (w : World) (s : VxlanRoutingManager) (e : AgentRoute) :
    OpsScoped s (DeleteInetRoute w s e) := by
  unfold DeleteInetRoute
  split
  · exact OpsScoped.scoped_refl s
  · dsimp only
    refine OpsScoped.scoped_of_append _ (List.append_assoc _ _ _) ?_
    intro op hop
    rcases List.mem_append.mp hop with h1 | h1
    · split at h1
      · split at h1
        · simp only [List.mem_singleton] at h1
          subst h1
          rfl
        · simp at h1
      · simp at h1
    · simp only [List.mem_singleton] at h1
      subst h1
      rfl

theorem UpdateInetRoute_scoped {w : World} {s s2 : VxlanRoutingManager} {e : AgentRoute}
    {rv : VrfId} (h : UpdateInetRoute w s e rv = .ok s2) : OpsScoped s s2 := by
  unfold UpdateInetRoute at h
  split at h
  · cases h
  · cases h
    exact OpsScoped.scoped_of_append _ rfl (by simp [Op.peerScoped])

theorem EvpnType2RouteNotify_scoped {w : World} {s s2 : VxlanRoutingManager} {e : AgentRoute}
    (h : EvpnType2RouteNotify w s e = .ok s2) : OpsScoped s s2 := by
  unfold EvpnType2RouteNotify at h
  repeat' (first | split at h | dsimp only at h)
  all_goals first
    | exact UpdateInetRoute_scoped h
    | cases h
  all_goals first
    | exact OpsScoped.scoped_refl s
    | exact DeleteInetRoute_scoped w s _

theorem EvpnRouteNotify_scoped {w : World} {s s2 : VxlanRoutingManager} {e : AgentRoute}
    (h : EvpnRouteNotify w s e = .ok s2) : OpsScoped s s2 := by
  unfold EvpnRouteNotify at h
  repeat' (first | split at h | dsimp only at h)
  all_goals first
    | exact EvpnType5RouteNotify_scoped h
    | exact EvpnType2RouteNotify_scoped h
    | (cases h; exact OpsScoped.scoped_refl s)

theorem RouteNotify_scoped {w : World} {s s2 : VxlanRoutingManager} {e : AgentRoute}
    (h : RouteNotify w s e = .ok s2) : OpsScoped s s2 := by
  unfold RouteNotify at h
  split at h
  · exact InetRouteNotify_scoped h
  · exact EvpnRouteNotify_scoped h
  · cases h
    exact OpsScoped.scoped_refl s

theorem RouteWalkNotify_scoped {w : World} {s s2 : VxlanRoutingManager} {e : AgentRoute}
    (h : RouteWalkNotify w s e = .ok s2) : OpsScoped s s2 := by
  unfold RouteWalkNotify at h
  repeat' (first | split at h | dsimp only at h)
  all_goals first
    | exact EvpnType2RouteNotify_scoped h
    | (cases h; exact OpsScoped.scoped_refl s)

theorem handle_scoped {w : World} {s s2 : VxlanRoutingManager} {ev : Event}
    (h : handle w s ev = .ok s2) : OpsScoped s s2 := by
  cases ev with
  | vn id e => exact VnNotify_scoped h
  | vmi id e => exact VmiNotify_scoped h
  | vrf id e => exact VrfNotify_scoped h
  | route e => exact RouteNotify_scoped h
  | lr_evpn_walk e uuid vn update withdraw => exact RouteNotifyInLrEvpnTable_scoped h

/-- C11: whenever a notification handler (`VnNotify`, `VmiNotify`,
`VrfNotify`, `RouteNotify`, `RouteNotifyInLrEvpnTable`) or the walker visitor
`RouteWalkNotify` returns, it has only added requests to the log, and every
added request follows the peer rule: each `AddEvpnRoutingRoute` and each
`Delete` on a unicast table names the EVPN-routing peer, and the
local-VM-export peer is named only by `AddType5Route`, which goes to the
EVPN table of the routing VRF. -/
theorem C11_requests_are_peer_scoped (w : World) (s s2 : VxlanRoutingManager) (ev : Event)
    (e : AgentRoute)
    (h : handle w s ev = .ok s2 ∨ RouteWalkNotify w s e = .ok s2) :
    ∃ new, s2.ops = s.ops ++ new ∧ ∀ op ∈ new, op.peerScoped = true := by
  rcases h with h | h
  · exact handle_scoped h
  · exact RouteWalkNotify_scoped h

/-- C11 at a concrete input: the notification of an IP-unicast row with a
local-VM-port path and a path of the EVPN-routing peer, which adds an
`AddType5Route`. -/
theorem C11_requests_are_peer_scoped_witness :
    ∃ new,
      ({ VxlanRoutingManager.init with
          ops := [Op.AddType5Route 101 Peer.local_vm_export_peer 101 ⟨true, 7⟩ 101
            (NextHopReq.ClonedNH 7 9 101) ⟨[1], [2], 3, 4, [5], [6]⟩ 101 101] } :
        VxlanRoutingManager).ops = VxlanRoutingManager.init.ops ++ new ∧
      ∀ op ∈ new, op.peerScoped = true :=
  C11_requests_are_peer_scoped World.sample VxlanRoutingManager.init _
    (Event.route (inetRow 102 (some 101) (some (localVmPortPath 10)))) (type5Row 101)
    (Or.inl rfl)

/-! ## Termination of `WalkBridgeVrfs` -/

theorem WalkBridgeVrfs_loop_stuck (w : World) (vn : VnId) (rest : List VnId)
    (s : VxlanRoutingManager) (vrf : VrfId) (hv : (w.vn vn).GetVrf = some vrf)
    (ht : (w.vrf vrf).GetEvpnRouteTable = false) :
    ∀ fuel, WalkBridgeVrfs_loop w fuel (vn :: rest) s = .error Fault.diverge := by
  intro fuel
  induction fuel with
  | zero => rfl
  | succ n ih =>
    unfold WalkBridgeVrfs_loop
    simp only [hv, ht, if_true]
    exact ih

/-- C21 (failing input): bridge VN `2` is in the bridge list of LR `5`, and
its VRF `102` has lost its EVPN table. The loop of `WalkBridgeVrfs` executes
`continue` at VN `2` without advancing the iterator: it does not end within
any number of turns, and the notification of routing VN `1` of LR `5`, which
calls `WalkBridgeVrfs`, does not return. -/
theorem C21_walk_stays_at_vrf_without_evpn_table :
    ∃ w s, run World.sample VxlanRoutingManager.init
        [Event.vn 2 (bridgeVn (some 102) []), Event.vmi 10 (routerVmi 2 5)] = .ok (w, s) ∧
      mapFind 5 s.lr_vrf_info_map_ = some ⟨none, none, [2]⟩ ∧
      (∀ fuel, WalkBridgeVrfs_loop (w.setVrf 102 ⟨false, some 2, false, 102⟩) fuel [2] s =
        .error Fault.diverge) ∧
      WalkBridgeVrfs (w.setVrf 102 ⟨false, some 2, false, 102⟩) s ⟨none, none, [2]⟩ =
        .error Fault.diverge ∧
      VnNotify ((w.setVrf 102 ⟨false, some 2, false, 102⟩).setVn 1 (routingVn (some 101) 5)) s
        1 = .error Fault.diverge :=
  ⟨_, _, rfl, rfl, WalkBridgeVrfs_loop_stuck _ 2 [] _ 102 rfl rfl, rfl, rfl⟩

/-! ## LR UUID change of a routing VN -/

/-- C22 (failing input): routing VN `1` with VRF `101` owns LR `5` and is
filed under `5` in the reverse index; it is notified with its LR UUID changed
to `6`. LR `5` is withdrawn and deleted and LR `6` gets parent VN `1` and
routing VRF `101`, but the reverse index is left without an entry for VN `1`:
the update block tests the erased iterator against `end()`. -/
theorem C22_uuid_change_leaves_reverse_index_empty :
    ∃ w s, run World.sample VxlanRoutingManager.init [Event.vn 1 (routingVn (some 101) 5)] =
        .ok (w, s) ∧
      mapFind 5 s.lr_vrf_info_map_ = some ⟨some 1, some 101, []⟩ ∧
      mapFind 1 s.vn_lr_set_ = some 5 ∧
      (w.setVn 1 (routingVn (some 101) 6)).vn 1 = ⟨false, some 101, true, 6, []⟩ ∧
      (∃ s2, RoutingVnNotify (w.setVn 1 (routingVn (some 101) 6)) s 1
            ⟨[], true, 6, some 101⟩ = .ok s2 ∧
        s2.lr_vrf_info_map_ = [(6, ⟨some 1, some 101, []⟩)] ∧
        mapFind 1 s2.vn_lr_set_ = none) ∧
      ∃ s3, VnNotify (w.setVn 1 (routingVn (some 101) 6)) s 1 = .ok s3 ∧
        s3.lr_vrf_info_map_ = [(6, ⟨some 1, some 101, []⟩)] ∧
        mapFind 1 s3.vn_lr_set_ = none :=
  ⟨_, _, rfl, rfl, rfl, rfl, ⟨_, rfl, rfl, rfl⟩, _, rfl, rfl, rfl⟩

/-! ## Stored and derived LR UUID -/

theorem UpdateLogicalRouterUuid_loop_head (w : World) (l : List VmiId) :
    (UpdateLogicalRouterUuid_loop w l).2 =
        (match (UpdateLogicalRouterUuid_loop w l).1 with
          | [] => nil_uuid
          | vmi :: _ => (w.vmi vmi).logical_router_uuid) ∧
      ((UpdateLogicalRouterUuid_loop w l).1 = [] ∨
        ∃ vmi rest, (UpdateLogicalRouterUuid_loop w l).1 = vmi :: rest ∧
          (w.vmi vmi).logical_router_uuid ≠ nil_uuid) := by
  induction l with
  | nil => exact ⟨rfl, Or.inl rfl⟩
  | cons v l ih =>
    unfold UpdateLogicalRouterUuid_loop
    by_cases h : (w.vmi v).logical_router_uuid ≠ nil_uuid
    · rw [if_pos h]
      exact ⟨rfl, Or.inr ⟨v, l, rfl, h⟩⟩
    · rw [if_neg h]
      exact ih

/-- C23: `UpdateLogicalRouterUuid` returns for every `vmi_list_`, and right
after it the stored field `logical_router_uuid_` is the value of the accessor
`logical_router_uuid()` on the new state (nil for an empty `vmi_list_`, else
the LR UUID of its first VMI), and `vmi_list_` is empty or its first VMI has
a non-nil LR UUID. -/
theorem C23_stored_uuid_is_accessor_value (w : World) (st : VxlanRoutingVnState) :
    (UpdateLogicalRouterUuid w st).logical_router_uuid_ =
        VxlanRoutingVnState.logical_router_uuid w (UpdateLogicalRouterUuid w st) ∧
      ((UpdateLogicalRouterUuid w st).vmi_list_ = [] ∨
        ∃ vmi rest, (UpdateLogicalRouterUuid w st).vmi_list_ = vmi :: rest ∧
          (w.vmi vmi).logical_router_uuid ≠ nil_uuid) := by
  rw [UpdateLogicalRouterUuid_eq]
  exact UpdateLogicalRouterUuid_loop_head w st.vmi_list_

/-! ## A second run of `BridgeVnNotify` -/

theorem mapInsert_idem {α : Type} (k : Nat) (v : α) (m : List (Nat × α)) :
    mapInsert k v (mapInsert k v m) = mapInsert k v m := by
  induction m with
  | nil => simp [mapInsert]
  | cons p m ih =>
    obtain ⟨k1, v1⟩ := p
    by_cases h1 : k < k1
    · simp [mapInsert, h1]
    · by_cases h2 : k = k1
      · subst h2
        simp [mapInsert]
      · simp [mapInsert, h1, h2, ih]

theorem setInsert_idem (x : Nat) (l : List Nat) : setInsert x (setInsert x l) = setInsert x l := by
  induction l with
  | nil => simp [setInsert]
  | cons y l ih =>
    by_cases h1 : x < y
    · simp [setInsert, h1]
    · by_cases h2 : x = y
      · subst h2
        simp [setInsert]
      · simp [setInsert, h1, h2, ih]

theorem lrIndex_idem (m : List (Uuid × RoutedVrfInfo)) (u : Uuid) :
    lrIndex (lrIndex m u).1 u = ((lrIndex m u).1, (lrIndex m u).2) :=
  lrIndex_of_find (lrIndex_find m u)

theorem UpdateLogicalRouterUuid_loop_idem (w : World) (l : List VmiId) :
    UpdateLogicalRouterUuid_loop w (UpdateLogicalRouterUuid_loop w l).1 =
      UpdateLogicalRouterUuid_loop w l := by
  induction l with
  | nil => rfl
  | cons v l ih =>
    by_cases h : (w.vmi v).logical_router_uuid ≠ nil_uuid
    · have e : UpdateLogicalRouterUuid_loop w (v :: l) =
          (v :: l, (w.vmi v).logical_router_uuid) := by
        rw [UpdateLogicalRouterUuid_loop, if_pos h]
      rw [e]
      exact e
    · have e : UpdateLogicalRouterUuid_loop w (v :: l) = UpdateLogicalRouterUuid_loop w l := by
        rw [UpdateLogicalRouterUuid_loop, if_neg h]
      rw [e]
      exact ih

theorem UpdateLogicalRouterUuid_idem (w : World) (st : VxlanRoutingVnState) :
    UpdateLogicalRouterUuid w (UpdateLogicalRouterUuid w st) = UpdateLogicalRouterUuid w st := by
  rw [UpdateLogicalRouterUuid_eq w (UpdateLogicalRouterUuid w st), UpdateLogicalRouterUuid_eq w st]
  simp only [UpdateLogicalRouterUuid_loop_idem]

theorem GetRoutingVrfUsingVn_of_grows {s s2 : VxlanRoutingManager} (g : LrGrows s s2)
    (x : VnId) : GetRoutingVrfUsingVn s2 x = GetRoutingVrfUsingVn s x := by
  unfold GetRoutingVrfUsingVn GetRoutingVrfUsingUuid
  rw [g.1]
  cases mapFind x s.vn_lr_set_ with
  | none => rfl
  | some u =>
    dsimp only
    rcases g.2.2.2 u with e | ⟨e1, e2⟩
    · rw [e]
    · rw [e1, e2]
      rfl

theorem GetRoutingVrfUsingVn_congr {s s2 : VxlanRoutingManager}
    (h1 : s2.lr_vrf_info_map_ = s.lr_vrf_info_map_) (h2 : s2.vn_lr_set_ = s.vn_lr_set_)
    (x : VnId) : GetRoutingVrfUsingVn s2 x = GetRoutingVrfUsingVn s x := by
  unfold GetRoutingVrfUsingVn GetRoutingVrfUsingUuid
  rw [h1, h2]

theorem DeleteSubnetRoute_rerun (w : World) (s s2 : VxlanRoutingManager) (vrf : Option VrfId)
    (ipam : Option VnIpam)
    (h1 : s2.lr_vrf_info_map_ = (DeleteSubnetRoute w s vrf ipam).lr_vrf_info_map_)
    (h2 : s2.vn_lr_set_ = s.vn_lr_set_) :
    (DeleteSubnetRoute w s2 vrf ipam).lr_vrf_info_map_ = s2.lr_vrf_info_map_ := by
  unfold DeleteSubnetRoute at h1 ⊢
  cases vrf with
  | none => rfl
  | some v =>
    dsimp only at h1 ⊢
    cases hx : (w.vrf v).vn with
    | none => rfl
    | some x =>
      rw [hx] at h1
      dsimp only at h1 ⊢
      rw [h2]
      split
      · rfl
      · next hl =>
        rw [if_neg hl] at h1
        cases hm : mapFind x s.vn_lr_set_ with
        | none => rfl
        | some u =>
          rw [hm] at h1
          dsimp only at h1 ⊢
          split
          · rfl
          · next hu =>
            rw [if_neg hu] at h1
            have e : s2.lr_vrf_info_map_ = (lrIndex s.lr_vrf_info_map_ u).1 := by
              split at h1 <;> exact h1
            have e2 : (lrIndex s2.lr_vrf_info_map_ u).1 = s2.lr_vrf_info_map_ := by
              rw [e, lrIndex_idem]
            split <;> exact e2

theorem UpdateSubnetRoute_rerun {w : World} {s s1 : VxlanRoutingManager} {b r : VrfId}
    (s2 : VxlanRoutingManager) (h : UpdateSubnetRoute w s b r = .ok s1)
    (h1 : s2.lr_vrf_info_map_ = s1.lr_vrf_info_map_) (h2 : s2.vn_lr_set_ = s.vn_lr_set_) :
    ∃ s3, UpdateSubnetRoute w s2 b r = .ok s3 ∧
      s3.lr_vrf_info_map_ = s2.lr_vrf_info_map_ := by
  unfold UpdateSubnetRoute at h ⊢
  cases hx : (w.vrf b).vn with
  | none => exact ⟨_, rfl, rfl⟩
  | some x =>
    rw [hx] at h
    dsimp only at h ⊢
    rw [h2]
    split
    · exact ⟨_, rfl, rfl⟩
    · next hl =>
      rw [if_neg hl] at h
      cases hm : mapFind x s.vn_lr_set_ with
      | none => exact ⟨_, rfl, rfl⟩
      | some u =>
        rw [hm] at h
        dsimp only at h ⊢
        split
        · exact ⟨_, rfl, rfl⟩
        · next hu =>
          rw [if_neg hu] at h
          have e : s2.lr_vrf_info_map_ = (lrIndex s.lr_vrf_info_map_ u).1 := by
            rw [h1]
            split at h
            · cases h
              rfl
            · split at h
              · cases h
              · cases h
                rfl
          have e2 : lrIndex s2.lr_vrf_info_map_ u =
              (s2.lr_vrf_info_map_, (lrIndex s.lr_vrf_info_map_ u).2) := by
            rw [e, lrIndex_idem]
          rw [e2]
          dsimp only
          split
          · exact ⟨_, rfl, rfl⟩
          · next hb =>
            rw [if_neg hb] at h
            split at h
            · cases h
            · exact ⟨_, rfl, rfl⟩

theorem HandleSubnetRoute_rerun {w : World} {s s1 : VxlanRoutingManager} {v : VrfId} {b : Bool}
    (s2 : VxlanRoutingManager) (h : HandleSubnetRoute w s v b = .ok s1)
    (h1 : s2.lr_vrf_info_map_ = s1.lr_vrf_info_map_) (h2 : s2.vn_lr_set_ = s.vn_lr_set_) :
    ∃ s3, HandleSubnetRoute w s2 v b = .ok s3 ∧
      s3.lr_vrf_info_map_ = s2.lr_vrf_info_map_ ∧ s3.vn_lr_set_ = s2.vn_lr_set_ := by
  have g := HandleSubnetRoute_grows h
  have hr : ∀ x, GetRoutingVrfUsingVn s2 x = GetRoutingVrfUsingVn s x := fun x =>
    (GetRoutingVrfUsingVn_congr h1 (h2.trans g.1.symm) x).trans
      (GetRoutingVrfUsingVn_of_grows g x)
  have key : ∃ s3, HandleSubnetRoute w s2 v b = .ok s3 ∧
      s3.lr_vrf_info_map_ = s2.lr_vrf_info_map_ := by
    unfold HandleSubnetRoute at h ⊢
    dsimp only at h ⊢
    split
    · next x hx =>
      rw [hx] at h
      dsimp only at h ⊢
      rw [hr x]
      split
      · next rv hrv =>
        rw [hrv] at h
        dsimp only at h ⊢
        split
        · next hd =>
          rw [if_pos hd] at h
          cases h
          exact ⟨_, rfl, DeleteSubnetRoute_rerun w s s2 _ _ h1 h2⟩
        · next hd =>
          rw [if_neg hd] at h
          split at h
          · cases h
          · next sU hU =>
            cases h
            obtain ⟨s3, e3, l3⟩ := UpdateSubnetRoute_rerun s2 hU h1 h2
            rw [e3]
            exact ⟨_, rfl, l3⟩
      · next hrv =>
        rw [hrv] at h
        cases h
        exact ⟨_, rfl, DeleteSubnetRoute_rerun w s s2 _ _ h1 h2⟩
    · next hx =>
      rw [hx] at h
      dsimp only at h ⊢
      split
      · next hb =>
        rw [if_pos hb] at h
        split
        · next hd =>
          rw [if_pos hd] at h
          cases h
          exact ⟨_, rfl, DeleteSubnetRoute_rerun w s s2 _ _ h1 h2⟩
        · exact ⟨_, rfl, rfl⟩
      · exact ⟨_, rfl, rfl⟩
  obtain ⟨s3, e3, l3⟩ := key
  exact ⟨s3, e3, l3, (HandleSubnetRoute_grows e3).1⟩

theorem WalkEvpnTable_rerun {w : World} {s s1 : VxlanRoutingManager} {v : VrfId}
    (s2 : VxlanRoutingManager) (h : WalkEvpnTable w s v = .ok s1)
    (h1 : s2.lr_vrf_info_map_ = s1.lr_vrf_info_map_) (h2 : s2.vn_lr_set_ = s.vn_lr_set_) :
    ∃ s3, WalkEvpnTable w s2 v = .ok s3 ∧
      s3.lr_vrf_info_map_ = s2.lr_vrf_info_map_ ∧ s3.vn_lr_set_ = s2.vn_lr_set_ := by
  unfold WalkEvpnTable at h ⊢
  dsimp only at h ⊢
  have a1 : ∀ t : VxlanRoutingManager,
      (match mapFind v t.evpn_table_walker_ with
        | none =>
          { t with
            evpn_table_walker_ := mapInsert v t.walk_ref_seq t.evpn_table_walker_
            walk_ref_seq := t.walk_ref_seq + 1
            ops := t.ops ++ [Op.AllocWalker v t.walk_ref_seq, Op.WalkAgain v t.walk_ref_seq] }
        | some walk_ref =>
          { t with ops := t.ops ++ [Op.WalkAgain v walk_ref] }).lr_vrf_info_map_ =
        t.lr_vrf_info_map_ ∧
      (match mapFind v t.evpn_table_walker_ with
        | none =>
          { t with
            evpn_table_walker_ := mapInsert v t.walk_ref_seq t.evpn_table_walker_
            walk_ref_seq := t.walk_ref_seq + 1
            ops := t.ops ++ [Op.AllocWalker v t.walk_ref_seq, Op.WalkAgain v t.walk_ref_seq] }
        | some walk_ref =>
          { t with ops := t.ops ++ [Op.WalkAgain v walk_ref] }).vn_lr_set_ = t.vn_lr_set_ := by
    intro t
    split <;> exact ⟨rfl, rfl⟩
  obtain ⟨s3, e3, l3, v3⟩ := HandleSubnetRoute_rerun _ h ((a1 s2).1.trans h1)
    ((a1 s2).2.trans (h2.trans (a1 s).2.symm))
  exact ⟨s3, e3, l3.trans (a1 s2).1, v3.trans (a1 s2).2⟩

theorem BridgeVnNotify_flags_or (w : World) (vn : VnId) (cur : Option Uuid) (new : Uuid) :
    ((BridgeVnNotify_flags w vn cur new).2 || (BridgeVnNotify_flags w vn cur new).1) = true := by
  rw [BridgeVnNotify_flags_eq]
  unfold BridgeVnNotify_flags_as_specified
  cases (w.vn vn).IsDeleted <;> cases (w.vn vn).GetVrf <;> by_cases hn : new = nil_uuid <;>
    simp [hn]

theorem BridgeVnNotify_update_fixed (w : World) (s : VxlanRoutingManager) (vn : VnId)
    (new : Uuid) (info : RoutedVrfInfo) (hu : new ≠ nil_uuid)
    (h1 : mapFind new s.lr_vrf_info_map_ = some info)
    (h2 : setInsert vn info.bridge_vn_list_ = info.bridge_vn_list_)
    (h3 : mapInsert vn new s.vn_lr_set_ = s.vn_lr_set_) :
    (BridgeVnNotify_update w s vn new).1.lr_vrf_info_map_ = s.lr_vrf_info_map_ ∧
      (BridgeVnNotify_update w s vn new).1.vn_lr_set_ = s.vn_lr_set_ ∧
      (BridgeVnNotify_update w s vn new).2 = false := by
  unfold BridgeVnNotify_update
  dsimp only
  rw [if_neg hu, lrIndex_of_find h1]
  dsimp only
  have e : ({ info with bridge_vn_list_ := setInsert vn info.bridge_vn_list_ } : RoutedVrfInfo) =
      info := by
    rw [h2]
  rw [e, mapSet_of_mapFind h1, h3]
  refine ⟨WalkRoutingVrf_lr_of_find vn true false h1, (WalkRoutingVrf_grows w _ _ _ _ _).1, rfl⟩

theorem BridgeVnNotify_maps_rerun (w : World) (s s1 : VxlanRoutingManager) (vn : VnId)
    (new : Uuid) (hg : LrGrows (BridgeVnNotify_maps w s vn new).1 s1) :
    (BridgeVnNotify_maps w s vn new).2 = false ∧
      (BridgeVnNotify_maps w s1 vn new).2 = false ∧
      (BridgeVnNotify_maps w s1 vn new).1.lr_vrf_info_map_ = s1.lr_vrf_info_map_ ∧
      (BridgeVnNotify_maps w s1 vn new).1.vn_lr_set_ = s1.vn_lr_set_ := by
  cases hf2 : (BridgeVnNotify_flags w vn (mapFind vn s.vn_lr_set_) new).2 with
  | true =>
    have hf := hf2
    rw [BridgeVnNotify_flags_eq] at hf
    simp only [Bool.and_eq_true, Bool.not_eq_true', bne_iff_ne, ne_eq] at hf
    obtain ⟨hD, hu⟩ := hf
    -- the first run
    obtain ⟨sA, hsA⟩ : ∃ sA, sA =
        (if (BridgeVnNotify_flags w vn (mapFind vn s.vn_lr_set_) new).1 = true then
          BridgeVnNotify_withdraw w s vn (mapFind vn s.vn_lr_set_) else s) := ⟨_, rfl⟩
    have hB : BridgeVnNotify_maps w s vn new = BridgeVnNotify_update w sA vn new := by
      unfold BridgeVnNotify_maps
      simp only [hf2, if_true, hsA]
    rw [hB] at hg ⊢
    obtain ⟨u1, u2, _, _, u5⟩ := BridgeVnNotify_update_spec w sA vn new hu
    have hv1 : s1.vn_lr_set_ = mapInsert vn new sA.vn_lr_set_ := hg.1.trans u2
    have hl1 : mapFind new s1.lr_vrf_info_map_ =
        some { (mapFind new sA.lr_vrf_info_map_).getD RoutedVrfInfo.init with
          bridge_vn_list_ := setInsert vn
            ((mapFind new sA.lr_vrf_info_map_).getD RoutedVrfInfo.init).bridge_vn_list_ } := by
      have e := (u5 new).trans (if_pos rfl)
      rcases hg.2.2.2 new with e2 | ⟨e2, _⟩
      · exact e2.trans e
      · rw [e] at e2
        cases e2
    -- the second run
    have hit : mapFind vn s1.vn_lr_set_ = some new := by
      rw [hv1]
      exact mapFind_mapInsert_self _ _ _
    have hf' : BridgeVnNotify_flags w vn (some new) new = (false, true) := by
      rw [BridgeVnNotify_flags_eq]
      unfold BridgeVnNotify_flags_as_specified
      simp [hD, hu]
    have hB' : BridgeVnNotify_maps w s1 vn new = BridgeVnNotify_update w s1 vn new := by
      unfold BridgeVnNotify_maps
      simp only [hit, hf', if_true, Bool.false_eq_true, if_false]
    rw [hB']
    obtain ⟨a, b, c⟩ := BridgeVnNotify_update_fixed w s1 vn new _ hu hl1
      (setInsert_idem _ _) (by rw [hv1, mapInsert_idem])
    exact ⟨u1, c, a, b⟩
  | false =>
    have hf := hf2
    rw [BridgeVnNotify_flags_eq] at hf
    have hB : BridgeVnNotify_maps w s vn new =
        ((if (BridgeVnNotify_flags w vn (mapFind vn s.vn_lr_set_) new).1 = true then
          BridgeVnNotify_withdraw w s vn (mapFind vn s.vn_lr_set_) else s), false) := by
      unfold BridgeVnNotify_maps
      simp only [hf2, Bool.false_eq_true, if_false]
    have hf1 : (BridgeVnNotify_flags w vn (mapFind vn s.vn_lr_set_) new).1 = true := by
      have := BridgeVnNotify_flags_or w vn (mapFind vn s.vn_lr_set_) new
      rw [hf2] at this
      simpa using this
    rw [hB] at hg ⊢
    simp only [hf1, if_true] at hg
    have hv1 : s1.vn_lr_set_ = mapErase vn s.vn_lr_set_ :=
      hg.1.trans (BridgeVnNotify_withdraw_spec w s vn).1
    have hit : mapFind vn s1.vn_lr_set_ = none := by
      rw [hv1]
      exact mapFind_mapErase_self _ _
    have hf' : BridgeVnNotify_flags w vn none new = (true, false) := by
      have e2 : (BridgeVnNotify_flags w vn none new).2 = false := by
        rw [BridgeVnNotify_flags_eq]
        exact hf
      have e1 := BridgeVnNotify_flags_or w vn none new
      rw [e2] at e1
      have e3 : (BridgeVnNotify_flags w vn none new).1 = true := by simpa using e1
      exact Prod.ext e3 e2
    have hB' : BridgeVnNotify_maps w s1 vn new =
        ({ s1 with vn_lr_set_ := mapErase vn s1.vn_lr_set_ }, false) := by
      unfold BridgeVnNotify_maps
      simp only [hit, hf', if_true, Bool.false_eq_true, if_false]
      rfl
    rw [hB']
    exact ⟨rfl, rfl, rfl, mapErase_of_mapFind_none hit⟩

/-- The result of `BridgeVnNotify` past the own-UUID guard: the VN state
after `UpdateLogicalRouterUuid`, and the manager after the withdraw and
update blocks, followed by the walk of the bridge table when the VN state
holds a VRF with an EVPN table. -/
theorem BridgeVnNotify_result {w : World} {s : VxlanRoutingManager} {vn : VnId}
    {st : VxlanRoutingVnState} {r1 : VxlanRoutingVnState × VxlanRoutingManager}
    (hown : (w.vn vn).logical_router_uuid = nil_uuid) (h : BridgeVnNotify w s vn st = .ok r1) :
    r1.1 = UpdateLogicalRouterUuid w st ∧
      LrGrows (BridgeVnNotify_maps w s vn (UpdateLogicalRouterUuid w st).logical_router_uuid_).1
        r1.2 ∧
      ((∃ v, st.vrf_ref_ = some v ∧ (w.vrf v).GetEvpnRouteTable = true ∧
          WalkEvpnTable w
            (BridgeVnNotify_maps w s vn (UpdateLogicalRouterUuid w st).logical_router_uuid_).1
            v = .ok r1.2) ∨
        ((∀ v, st.vrf_ref_ = some v → (w.vrf v).GetEvpnRouteTable = false) ∧
          r1.2 =
            (BridgeVnNotify_maps w s vn
              (UpdateLogicalRouterUuid w st).logical_router_uuid_).1)) := by
  have hm := (BridgeVnNotify_maps_rerun w s _ vn
    (UpdateLogicalRouterUuid w st).logical_router_uuid_ (LrGrows.grows_refl _)).1
  have hvr := (UpdateLogicalRouterUuid_frame w st).1
  unfold BridgeVnNotify at h
  simp only [hown, ne_eq, not_true_eq_false, if_false, hm, Bool.false_eq_true,
    BridgeVnNotify_flags_or, Bool.true_and] at h
  cases hv : (UpdateLogicalRouterUuid w st).vrf_ref_ with
  | none =>
    rw [hv] at h
    cases h
    refine ⟨rfl, LrGrows.grows_refl _, Or.inr ⟨fun v e => ?_, rfl⟩⟩
    rw [← hvr, hv] at e
    cases e
  | some v =>
    rw [hv] at h
    dsimp only at h
    by_cases ht : (w.vrf v).GetEvpnRouteTable = true
    · rw [if_pos ht] at h
      split at h
      · cases h
      · next s2 h2 =>
        cases h
        exact ⟨rfl, WalkEvpnTable_grows h2, Or.inl ⟨v, hvr ▸ hv, ht, h2⟩⟩
    · rw [if_neg ht] at h
      cases h
      refine ⟨rfl, LrGrows.grows_refl _, Or.inr ⟨fun v2 e => ?_, rfl⟩⟩
      rw [← hvr, hv] at e
      cases e
      simpa using ht

/-- C24: when `BridgeVnNotify` returns, a second call on its result, with
the tables unchanged, returns too and leaves `lr_vrf_info_map_`,
`vn_lr_set_` and `vmi_list_` as the first call left them. On a call that
passes the own-UUID guard at least one of `withdraw` and `update` is set, and
when the VN state holds a VRF with an EVPN table the result is that of
`WalkEvpnTable` for this table, run after the withdraw and update blocks. -/
theorem C24_bridge_vn_notify_idempotent (w : World) (s : VxlanRoutingManager) (vn : VnId)
    (st : VxlanRoutingVnState) (r1 : VxlanRoutingVnState × VxlanRoutingManager)
    (h : BridgeVnNotify w s vn st = .ok r1) :
    (∃ r2, BridgeVnNotify w r1.2 vn r1.1 = .ok r2 ∧
      r2.2.lr_vrf_info_map_ = r1.2.lr_vrf_info_map_ ∧ r2.2.vn_lr_set_ = r1.2.vn_lr_set_ ∧
      r2.1.vmi_list_ = r1.1.vmi_list_) ∧
    ((w.vn vn).logical_router_uuid = nil_uuid →
      ((BridgeVnNotify_flags w vn (mapFind vn s.vn_lr_set_)
          (UpdateLogicalRouterUuid w st).logical_router_uuid_).1 = true ∨
        (BridgeVnNotify_flags w vn (mapFind vn s.vn_lr_set_)
          (UpdateLogicalRouterUuid w st).logical_router_uuid_).2 = true) ∧
      ∀ v, st.vrf_ref_ = some v → (w.vrf v).GetEvpnRouteTable = true →
        WalkEvpnTable w
          (BridgeVnNotify_maps w s vn (UpdateLogicalRouterUuid w st).logical_router_uuid_).1
          v = .ok r1.2) := by
  constructor
  · by_cases hown : (w.vn vn).logical_router_uuid = nil_uuid
    · obtain ⟨e1, g1, _⟩ := BridgeVnNotify_result hown h
      obtain ⟨r1a, r1b⟩ := r1
      simp only at e1 g1 ⊢
      subst e1
      obtain ⟨m1, m2, m3, m4⟩ := BridgeVnNotify_maps_rerun w s r1b vn
        (UpdateLogicalRouterUuid w st).logical_router_uuid_ g1
      have hvr := (UpdateLogicalRouterUuid_frame w st).1
      unfold BridgeVnNotify
      simp only [hown, ne_eq, not_true_eq_false, if_false, UpdateLogicalRouterUuid_idem, m2,
        Bool.false_eq_true, BridgeVnNotify_flags_or, Bool.true_and]
      cases hv : (UpdateLogicalRouterUuid w st).vrf_ref_ with
      | none => exact ⟨_, rfl, m3, m4, rfl⟩
      | some v =>
        dsimp only
        by_cases ht : (w.vrf v).GetEvpnRouteTable = true
        · rw [if_pos ht]
          -- the walk of the first call
          have h1 : WalkEvpnTable w
              (BridgeVnNotify_maps w s vn
                (UpdateLogicalRouterUuid w st).logical_router_uuid_).1 v = .ok r1b := by
            rcases (BridgeVnNotify_result hown h).2.2 with ⟨v2, e2, _, hw⟩ | ⟨hn, _⟩
            · rw [← hvr, hv] at e2
              cases e2
              exact hw
            · have := hn v (hvr ▸ hv)
              rw [this] at ht
              cases ht
          obtain ⟨s3, e3, l3, v3⟩ := WalkEvpnTable_rerun _ h1 m3 (m4.trans g1.1)
          rw [e3]
          exact ⟨_, rfl, l3.trans m3, v3.trans m4, rfl⟩
        · rw [if_neg ht]
          exact ⟨_, rfl, m3, m4, rfl⟩
    · have e : r1 = (st, s) := by
        unfold BridgeVnNotify at h
        rw [if_pos hown] at h
        cases h
        rfl
      subst e
      refine ⟨(st, s), ?_, rfl, rfl, rfl⟩
      unfold BridgeVnNotify
      rw [if_pos hown]
  · intro hown
    refine ⟨?_, fun v hv ht => ?_⟩
    · have := BridgeVnNotify_flags_or w vn (mapFind vn s.vn_lr_set_)
        (UpdateLogicalRouterUuid w st).logical_router_uuid_
      rw [Bool.or_eq_true] at this
      exact this.symm
    · rcases (BridgeVnNotify_result hown h).2.2 with ⟨v2, e2, _, hw⟩ | ⟨hn, _⟩
      · rw [hv] at e2
        cases e2
        exact hw
      · rw [hn v hv] at ht
        cases ht

/-- C24 at a concrete input: bridge VN `2` with router port `10` of LR `5`
is attached by the first call; the second call changes none of the maps. -/
theorem C24_bridge_vn_notify_idempotent_witness :
    ∃ r1, BridgeVnNotify (World.twoBridges.setVmi 10 (routerVmi 2 5)) VxlanRoutingManager.init 2
        ⟨[10], false, nil_uuid, some 102⟩ = .ok r1 ∧
      r1.2.lr_vrf_info_map_ = [(5, ⟨none, none, [2]⟩)] ∧
      ∃ r2, BridgeVnNotify (World.twoBridges.setVmi 10 (routerVmi 2 5)) r1.2 2 r1.1 = .ok r2 ∧
        r2.2.lr_vrf_info_map_ = r1.2.lr_vrf_info_map_ ∧
        r2.2.vn_lr_set_ = r1.2.vn_lr_set_ ∧ r2.1.vmi_list_ = r1.1.vmi_list_ :=
  ⟨_, rfl, rfl,
    (C24_bridge_vn_notify_idempotent (World.twoBridges.setVmi 10 (routerVmi 2 5))
      VxlanRoutingManager.init 2 ⟨[10], false, nil_uuid, some 102⟩ _ rfl).1⟩

end VxlanRouting
